import Mathlib

set_option maxRecDepth 8000

/-!
Verification of the Wiki.js Linker HTML structure analysis and in-place
content-editing engine (`src/popup.js`: `HTML_TEMPLATES`,
`WikiStructureAnalyzer`, `WikiContentManager`, `escapeHtml`).

Documents are modelled as lists of characters (`Str`).  JavaScript string
primitives (`indexOf`, `lastIndexOf`, `substring`, `slice`, `replace`,
`toUpperCase`, template literals) are embedded as executable functions on
`Str`, and the regular expressions used by the analyzer are embedded as
deterministic scanners that follow the leftmost-match/resume-at-match-end
semantics of `RegExp.exec` with the `g` flag (each of the four patterns in
the source is backtracking-free on every input, as argued in comments at
the corresponding definitions).
-/

namespace WikiLinker

/-- Documents and fragments are lists of characters. -/
abbrev Str := List Char

/-- Coerce a Lean string literal to the character-list model. -/
def str (s : String) : Str := s.data

/-- Boolean test that `pat` is a prefix of `s` (used to model matching a
regex literal or `String.prototype.startsWith`). -/
def hasPref : Str → Str → Bool
  | [], _ => true
  | _ :: _, [] => false
  | a :: ps, b :: ss => a = b && hasPref ps ss

/-- Propositional prefix relation with explicit remainder. -/
def IsPref (pat s : Str) : Prop := ∃ r, pat ++ r = s

theorem hasPref_iff {pat s : Str} : hasPref pat s = true ↔ IsPref pat s := by
  induction pat generalizing s with
  | nil => simp [hasPref, IsPref]
  | cons a ps ih =>
    cases s with
    | nil =>
      simp only [hasPref, IsPref]
      constructor
      · intro h; cases h
      · rintro ⟨r, h⟩; cases h
    | cons b ss =>
      simp only [hasPref, Bool.and_eq_true, decide_eq_true_eq, ih, IsPref]
      constructor
      · rintro ⟨rfl, r, rfl⟩; exact ⟨r, rfl⟩
      · rintro ⟨r, h⟩
        injection h with h1 h2
        exact ⟨h1, r, h2⟩

theorem IsPref.length_le {pat s : Str} (h : IsPref pat s) : pat.length ≤ s.length := by
  obtain ⟨r, rfl⟩ := h
  simp

theorem isPref_append (pat r : Str) : IsPref pat (pat ++ r) := ⟨r, rfl⟩

theorem isPref_refl (pat : Str) : IsPref pat pat := ⟨[], by simp⟩

/-- A prefix of a concatenation is determined on the left part. -/
theorem IsPref.take_left {t a b : Str} (h : IsPref t (a ++ b)) :
    IsPref (t.take a.length) a := by
  obtain ⟨r, hr⟩ := h
  have hkey := congrArg (List.take a.length) hr
  rw [List.take_append_eq_append_take, List.take_append_eq_append_take,
    Nat.sub_self, List.take_zero, List.append_nil,
    List.take_of_length_le (Nat.le_refl a.length)] at hkey
  rcases Nat.le_total t.length a.length with hle | hle
  · rw [List.take_of_length_le hle] at hkey ⊢
    exact ⟨r.take (a.length - t.length), hkey⟩
  · rw [Nat.sub_eq_zero_of_le hle, List.take_zero, List.append_nil] at hkey
    rw [hkey]
    exact isPref_refl a

/-- Dropping through a prefix relation. -/
theorem IsPref.drop {t s : Str} (h : IsPref t s) (n : Nat) :
    IsPref (t.drop n) (s.drop n) := by
  obtain ⟨r, rfl⟩ := h
  rcases Nat.le_total n t.length with hle | hle
  · exact ⟨r, by rw [List.drop_append_eq_append_drop]; simp [Nat.sub_eq_zero_of_le hle]⟩
  · refine ⟨(t ++ r).drop n |>.drop (t.drop n).length, ?_⟩
    simp [List.drop_eq_nil_of_le hle, List.drop_append_eq_append_drop]

/-- An occurrence of `pat` in `s` at position `p`. -/
def OccAt (pat s : Str) (p : Nat) : Prop := IsPref pat (s.drop p)

/-- Some occurrence of `pat` in `s` (models `String.prototype.includes`). -/
def occursB (pat : Str) : Str → Bool
  | [] => hasPref pat []
  | c :: t => hasPref pat (c :: t) || occursB pat t

/-- First occurrence position (models `String.prototype.indexOf`, with
`none` for the JavaScript result `-1`). -/
def indexOf? (pat : Str) : Str → Option Nat
  | [] => if hasPref pat [] then some 0 else none
  | c :: t =>
    if hasPref pat (c :: t) then some 0
    else (indexOf? pat t).map (· + 1)

/-- Last occurrence position (models `String.prototype.lastIndexOf`). -/
def lastIndexOf? (pat : Str) : Str → Option Nat
  | [] => if hasPref pat [] then some 0 else none
  | c :: t =>
    match lastIndexOf? pat t with
    | some j => some (j + 1)
    | none => if hasPref pat (c :: t) then some 0 else none

theorem occursB_iff {pat s : Str} : occursB pat s = true ↔ ∃ p, OccAt pat s p := by
  induction s with
  | nil =>
    simp only [occursB, hasPref_iff, OccAt]
    constructor
    · intro h; exact ⟨0, by simpa using h⟩
    · rintro ⟨p, hp⟩; simpa using hp
  | cons c t ih =>
    simp only [occursB, Bool.or_eq_true, hasPref_iff, ih]
    constructor
    · rintro (h | ⟨p, hp⟩)
      · exact ⟨0, by simpa [OccAt] using h⟩
      · exact ⟨p + 1, by simpa [OccAt] using hp⟩
    · rintro ⟨p, hp⟩
      cases p with
      | zero => exact Or.inl (by simpa [OccAt] using hp)
      | succ q => exact Or.inr ⟨q, by simpa [OccAt] using hp⟩

theorem indexOf?_eq_none_iff {pat s : Str} :
    indexOf? pat s = none ↔ ∀ p, ¬ OccAt pat s p := by
  induction s with
  | nil =>
    simp only [indexOf?]
    cases hb : hasPref pat [] with
    | true =>
      rw [if_pos rfl]
      constructor
      · intro h; cases h
      · intro h; exact absurd (by simpa [OccAt] using hasPref_iff.mp hb) (h 0)
    | false =>
      rw [if_neg Bool.false_ne_true]
      constructor
      · intro _ p hp
        have := hasPref_iff.mpr (show IsPref pat [] by simpa [OccAt] using hp)
        rw [hb] at this; cases this
      · intro _; rfl
  | cons c t ih =>
    simp only [indexOf?]
    cases hb : hasPref pat (c :: t) with
    | true =>
      rw [if_pos rfl]
      constructor
      · intro h; cases h
      · intro h; exact absurd (by simpa [OccAt] using hasPref_iff.mp hb) (h 0)
    | false =>
      rw [if_neg Bool.false_ne_true]
      rw [Option.map_eq_none']
      constructor
      · intro h p hp
        cases p with
        | zero =>
          have := hasPref_iff.mpr (show IsPref pat (c :: t) by simpa [OccAt] using hp)
          rw [hb] at this; cases this
        | succ q => exact (ih.mp h) q (by simpa [OccAt] using hp)
      · intro h
        exact ih.mpr (fun q hq => (h (q + 1)) (by simpa [OccAt] using hq))

theorem indexOf?_spec {pat s : Str} {p : Nat} (h : indexOf? pat s = some p) :
    OccAt pat s p ∧ ∀ q < p, ¬ OccAt pat s q := by
  induction s generalizing p with
  | nil =>
    simp only [indexOf?] at h
    cases hb : hasPref pat [] with
    | true =>
      rw [hb, if_pos rfl] at h
      simp only [Option.some.injEq] at h
      subst h
      exact ⟨by simpa [OccAt] using hasPref_iff.mp hb, by omega⟩
    | false => rw [hb, if_neg Bool.false_ne_true] at h; cases h
  | cons c t ih =>
    simp only [indexOf?] at h
    cases hb : hasPref pat (c :: t) with
    | true =>
      rw [hb, if_pos rfl] at h
      simp only [Option.some.injEq] at h
      subst h
      exact ⟨by simpa [OccAt] using hasPref_iff.mp hb, by omega⟩
    | false =>
      rw [hb, if_neg Bool.false_ne_true, Option.map_eq_some'] at h
      obtain ⟨q, hq, rfl⟩ := h
      obtain ⟨h1, h2⟩ := ih hq
      refine ⟨by simpa [OccAt] using h1, ?_⟩
      intro r hr
      cases r with
      | zero =>
        intro hocc
        have := hasPref_iff.mpr (show IsPref pat (c :: t) by simpa [OccAt] using hocc)
        rw [hb] at this; cases this
      | succ r' =>
        intro hocc
        exact h2 r' (by omega) (by simpa [OccAt] using hocc)

theorem lastIndexOf?_eq_none_iff {pat s : Str} :
    lastIndexOf? pat s = none ↔ ∀ p, ¬ OccAt pat s p := by
  induction s with
  | nil =>
    simp only [lastIndexOf?]
    cases hb : hasPref pat [] with
    | true =>
      rw [if_pos rfl]
      constructor
      · intro h; cases h
      · intro h; exact absurd (by simpa [OccAt] using hasPref_iff.mp hb) (h 0)
    | false =>
      rw [if_neg Bool.false_ne_true]
      constructor
      · intro _ p hp
        have := hasPref_iff.mpr (show IsPref pat [] by simpa [OccAt] using hp)
        rw [hb] at this; cases this
      · intro _; rfl
  | cons c t ih =>
    simp only [lastIndexOf?]
    constructor
    · intro h p hp
      cases hrec : lastIndexOf? pat t with
      | some j => rw [hrec] at h; cases h
      | none =>
        rw [hrec] at h
        cases hb : hasPref pat (c :: t) with
        | true => rw [hb, if_pos rfl] at h; cases h
        | false =>
          cases p with
          | zero =>
            have := hasPref_iff.mpr (show IsPref pat (c :: t) by simpa [OccAt] using hp)
            rw [hb] at this; cases this
          | succ q => exact (ih.mp hrec) q (by simpa [OccAt] using hp)
    · intro h
      have hrec : lastIndexOf? pat t = none :=
        ih.mpr (fun q hq => (h (q + 1)) (by simpa [OccAt] using hq))
      rw [hrec]
      cases hb : hasPref pat (c :: t) with
      | true => exact absurd (by simpa [OccAt] using hasPref_iff.mp hb) (h 0)
      | false => rw [if_neg Bool.false_ne_true]

theorem lastIndexOf?_spec {pat s : Str} {p : Nat} (hpat : pat ≠ [])
    (h : lastIndexOf? pat s = some p) :
    OccAt pat s p ∧ ∀ q, OccAt pat s q → q ≤ p := by
  induction s generalizing p with
  | nil =>
    simp only [lastIndexOf?] at h
    by_cases hb : hasPref pat [] = true
    · exact absurd (by rcases hasPref_iff.mp hb with ⟨r, hr⟩; exact List.append_eq_nil.mp hr |>.1) hpat
    · simp [hb] at h
  | cons c t ih =>
    simp only [lastIndexOf?] at h
    cases hrec : lastIndexOf? pat t with
    | some j =>
      rw [hrec] at h
      simp only [Option.some.injEq] at h
      subst h
      obtain ⟨h1, h2⟩ := ih hrec
      refine ⟨by simpa [OccAt] using h1, ?_⟩
      intro q hq
      cases q with
      | zero => omega
      | succ q' => exact Nat.succ_le_succ (h2 q' (by simpa [OccAt] using hq))
    | none =>
      rw [hrec] at h
      cases hb : hasPref pat (c :: t) with
      | true =>
        rw [hb] at h
        simp only [if_true, Option.some.injEq] at h
        subst h
        refine ⟨by simpa [OccAt] using hasPref_iff.mp hb, ?_⟩
        intro q hq
        cases q with
        | zero => exact Nat.le_refl 0
        | succ q' =>
          exact absurd (by simpa [OccAt] using hq)
            ((lastIndexOf?_eq_none_iff.mp hrec) q')
      | false => rw [hb] at h; simp at h

/-! ### Pointwise access through prefixes -/

theorem IsPref.getElem_eq {t s : Str} (h : IsPref t s) {i : Nat} (hi : i < t.length) :
    s[i]? = t[i]? := by
  obtain ⟨r, rfl⟩ := h
  exact List.getElem?_append_left hi

theorem all_getElem? {C : Char → Bool} {v : Str} (hv : v.all C = true) {i : Nat} {c : Char}
    (h : v[i]? = some c) : C c = true := by
  have hmem : c ∈ v := by
    have hi : i < v.length := by
      by_contra hx
      rw [List.getElem?_eq_none (by omega)] at h
      cases h
    rw [List.getElem?_eq_getElem hi] at h
    injection h with h
    exact h ▸ List.getElem_mem hi
  exact List.all_eq_true.mp hv c hmem

theorem all_take_of_pointwise {C : Char → Bool} {l : Str} {d : Nat} (hd : d ≤ l.length)
    (h : ∀ i, i < d → ∃ c, l[i]? = some c ∧ C c = true) :
    (l.take d).all C = true := by
  rw [List.all_eq_true]
  intro c hc
  obtain ⟨i, hi, hgi⟩ := List.getElem_of_mem hc
  have hi' : i < d := by
    have h2 := hi
    rw [List.length_take] at h2
    omega
  obtain ⟨c', hc', hKc'⟩ := h i hi'
  have hlc : l[i]? = some c := by
    have : (l.take d)[i] = l.get ⟨i, by omega⟩ := List.getElem_take l
    rw [this] at hgi
    rw [List.getElem?_eq_getElem (by omega : i < l.length)]
    exact congrArg some hgi
  rw [hlc] at hc'
  injection hc' with hc'
  exact hc' ▸ hKc'

/-! ### Chunk-peeling: ruling occurrences out of regions of a document -/

theorem occAt_append_elim {t x y : Str} {p : Nat} (h : OccAt t (x ++ y) p) :
    (p < x.length ∧ IsPref t ((x ++ y).drop p)) ∨ (x.length ≤ p ∧ OccAt t y (p - x.length)) := by
  rcases Nat.lt_or_ge p x.length with hp | hp
  · exact Or.inl ⟨hp, h⟩
  · refine Or.inr ⟨hp, ?_⟩
    have : (x ++ y).drop p = y.drop (p - x.length) := by
      rw [List.drop_append_eq_append_drop, List.drop_eq_nil_of_le (by omega)]
      simp
    rwa [OccAt, ← this]

theorem noOcc_append {t x y : Str}
    (hx : ∀ p, p < x.length → ¬ IsPref t ((x ++ y).drop p))
    (hy : ∀ q, ¬ OccAt t y q) : ∀ p, ¬ OccAt t (x ++ y) p := by
  intro p hp
  rcases occAt_append_elim hp with ⟨h1, h2⟩ | ⟨_, h2⟩
  · exact hx p h1 h2
  · exact hy _ h2

theorem noOcc_nil {t : Str} (ht : t ≠ []) : ∀ p, ¬ OccAt t ([] : Str) p := by
  intro p hp
  have : IsPref t [] := by simpa [OccAt] using hp
  obtain ⟨r, hr⟩ := this
  exact ht (List.append_eq_nil.mp hr).1

/-- Decidable check that no prefix of `A` can begin strictly inside the
concrete chunk `x` and survive to its end: every tail of `x` already
mismatches the corresponding prefix of `A`. -/
def cleanChunkB (A x : Str) : Bool :=
  (List.range x.length).all (fun p => ! hasPref (A.take (x.length - p)) (x.drop p))

theorem cleanChunk_elim {A x : Str} (hclean : cleanChunkB A x = true)
    {tail y : Str} {p : Nat} (hp : p < x.length) :
    ¬ IsPref (A ++ tail) ((x ++ y).drop p) := by
  intro h
  have hdrop : (x ++ y).drop p = x.drop p ++ y := by
    rw [List.drop_append_eq_append_drop, Nat.sub_eq_zero_of_le (Nat.le_of_lt hp)]
    simp
  rw [hdrop] at h
  have hA : IsPref A (x.drop p ++ y) := by
    obtain ⟨r, hr⟩ := h
    exact ⟨tail ++ r, by rw [← hr]; simp⟩
  have := hA.take_left
  rw [List.length_drop] at this
  rw [← hasPref_iff] at this
  have hfalse := List.all_eq_true.mp hclean p (List.mem_range.mpr hp)
  simp only [Bool.not_eq_eq_eq_not, Bool.not_true] at hfalse
  rw [this] at hfalse
  cases hfalse

/-- Occurrences of `A ++ tail` cannot begin inside a chunk `v` whose
characters all satisfy `C`, provided character `aA` of `A` is outside `C`
and the boundary cases are separately excluded. -/
theorem varChunk_elim {C : Char → Bool} {v : Str} (hv : v.all C = true)
    {A tail y : Str} {aA : Nat} {chi : Char}
    (hA : A[aA]? = some chi) (hchi : C chi = false)
    (hbnd : ∀ m, 1 ≤ m → m ≤ aA → ¬ IsPref ((A ++ tail).drop m) y)
    {p : Nat} (hp : p < v.length) :
    ¬ IsPref (A ++ tail) ((v ++ y).drop p) := by
  intro h
  have hdrop : (v ++ y).drop p = v.drop p ++ y := by
    rw [List.drop_append_eq_append_drop, Nat.sub_eq_zero_of_le (Nat.le_of_lt hp)]
    simp
  rw [hdrop] at h
  have haA : aA < A.length := by
    by_contra hx
    rw [List.getElem?_eq_none (by omega)] at hA
    cases hA
  rcases Nat.lt_or_ge aA (v.length - p) with hcase | hcase
  · -- the distinguished character of `A` falls inside `v`: contradiction
    have h1 : (v.drop p ++ y)[aA]? = (A ++ tail)[aA]? := by
      refine h.getElem_eq ?_
      rw [List.length_append]; omega
    have h2 : (A ++ tail)[aA]? = some chi := by
      rw [List.getElem?_append_left haA]; exact hA
    have h3 : (v.drop p ++ y)[aA]? = (v.drop p)[aA]? := by
      refine List.getElem?_append_left ?_
      rw [List.length_drop]; omega
    have h4 : (v.drop p)[aA]? = v[p + aA]? := by
      rw [List.getElem?_drop]
    have h5 : v[p + aA]? = some chi := by
      rw [← h4, ← h3, h1, h2]
    have := all_getElem? hv h5
    rw [hchi] at this
    cases this
  · -- the whole remainder of `v` is consumed by a short prefix of `A`
    set m := v.length - p with hm
    have hm1 : 1 ≤ m := by omega
    have hm2 : m ≤ aA := hcase
    have hlen : (v.drop p).length = m := by rw [List.length_drop]
    have hdropm : (v.drop p ++ y).drop m = y := by
      rw [List.drop_append_eq_append_drop, hlen]
      simp [List.drop_eq_nil_of_le (Nat.le_of_eq hlen)]
    have := h.drop m
    rw [hdropm] at this
    exact hbnd m hm1 hm2 this

/-! ### The master alignment lemma

If `u ++ P` occurs as a prefix of `w ++ L ++ rest`, where `u` and `w` are
unknown strings over a character class `K`, `P` is a concrete pattern
whose character at index `a` lies outside `K`, and `L` is a concrete
literal, then (under decidable mismatch side conditions on `P` and `L`)
the unknown parts must be equal: `u = w`. -/

theorem key_align {K : Char → Bool} {u w P L rest : Str}
    (hu : u.all K = true) (hw : w.all K = true)
    {a : Nat} {chi : Char}
    (hPa : P[a]? = some chi) (hchi : K chi = false)
    (hL : L.all K = false)
    (hc2 : ∀ d, 1 ≤ d → d ≤ L.length → (L.take d).all K = true →
        hasPref (P.take (L.length - d)) (L.drop d) = false)
    (hc3 : ∀ d, 1 ≤ d → d ≤ a → (P.take d).all K = true →
        hasPref ((P.drop d).take L.length) L = false)
    (h : IsPref (u ++ P) (w ++ (L ++ rest))) :
    u = w ∧ IsPref P (L ++ rest) := by
  have ha : a < P.length := by
    by_contra hx
    rw [List.getElem?_eq_none (by omega)] at hPa
    cases hPa
  have hPaFull : (u ++ P)[u.length + a]? = some chi := by
    rw [List.getElem?_append_right (by omega)]
    simpa using hPa
  rcases Nat.lt_trichotomy u.length w.length with hlt | heq | hgt
  · -- case |u| < |w|
    exfalso
    set d := w.length - u.length with hdd
    have hd1 : 1 ≤ d := by omega
    -- d ≤ a, else the distinguished character lands inside w
    have hda : d ≤ a := by
      by_contra hx
      have h1 : (w ++ (L ++ rest))[u.length + a]? = some chi := by
        rw [← hPaFull]
        exact h.getElem_eq (i := u.length + a) (by rw [List.length_append]; omega)
      have h2 : (w ++ (L ++ rest))[u.length + a]? = w[u.length + a]? := by
        refine List.getElem?_append_left ?_
        omega
      have := all_getElem? hw (h2 ▸ h1)
      rw [hchi] at this
      cases this
    -- the first d characters of P are characters of w, hence in K
    have hPd : (P.take d).all K = true := by
      refine all_take_of_pointwise (by omega) ?_
      intro i hi
      have h1 : (u ++ P)[u.length + i]? = P[i]? := by
        rw [List.getElem?_append_right (by omega)]
        simp
      have h2 : (w ++ (L ++ rest))[u.length + i]? = w[u.length + i]? := by
        refine List.getElem?_append_left ?_
        omega
      have h3 : P[i]? = w[u.length + i]? := by
        rw [← h1, ← h2]
        exact (h.getElem_eq (i := u.length + i) (by rw [List.length_append]; omega)).symm
      have hi2 : u.length + i < w.length := by omega
      obtain ⟨c, hc⟩ : ∃ c, w[u.length + i]? = some c :=
        ⟨w[u.length + i], List.getElem?_eq_getElem hi2⟩
      exact ⟨c, by rw [h3, hc], all_getElem? hw hc⟩
    -- P.drop d is a prefix of L ++ rest
    have hPdrop : IsPref (P.drop d) (L ++ rest) := by
      have h1 := h.drop w.length
      have h2 : (u ++ P).drop w.length = P.drop d := by
        rw [List.drop_append_eq_append_drop, List.drop_eq_nil_of_le (by omega)]
        simp [hdd]
      have h3 : (w ++ (L ++ rest)).drop w.length = L ++ rest := by
        rw [List.drop_append_eq_append_drop, List.drop_eq_nil_of_le (Nat.le_refl _)]
        simp
      rw [h2, h3] at h1
      exact h1
    have := hPdrop.take_left
    rw [← hasPref_iff] at this
    have hfalse := hc3 d hd1 hda hPd
    rw [this] at hfalse
    cases hfalse
  · -- case |u| = |w|: the unknown parts coincide
    obtain ⟨r, hr⟩ := h
    have hu_eq : u = w := by
      have := congrArg (List.take u.length) hr
      rw [List.append_assoc, List.take_left] at this
      rw [this, heq, List.take_left]
    subst hu_eq
    refine ⟨rfl, ?_⟩
    rw [List.append_assoc] at hr
    exact ⟨r, List.append_cancel_left hr⟩
  · -- case |u| > |w|
    exfalso
    set d := u.length - w.length with hdd
    have hd1 : 1 ≤ d := by omega
    -- characters w.length .. u.length of u are characters of L (or beyond)
    have hdL : d ≤ L.length := by
      by_contra hx
      have : L.all K = true := by
        rw [List.all_eq_true]
        intro c hc
        obtain ⟨j, hj, hgj⟩ := List.getElem_of_mem hc
        have h1 : (u ++ P)[w.length + j]? = u[w.length + j]? := by
          refine List.getElem?_append_left ?_
          omega
        have h2 : (w ++ (L ++ rest))[w.length + j]? = L[j]? := by
          rw [List.getElem?_append_right (by omega)]
          rw [Nat.add_sub_cancel_left]
          exact List.getElem?_append_left hj
        have h3 : u[w.length + j]? = L[j]? := by
          rw [← h1, ← h2]
          exact (h.getElem_eq (i := w.length + j) (by rw [List.length_append]; omega)).symm
        have h4 : u[w.length + j]? = some c := by
          rw [h3, List.getElem?_eq_getElem hj, hgj]
        exact all_getElem? hu h4
      rw [hL] at this
      cases this
    have hLd : (L.take d).all K = true := by
      refine all_take_of_pointwise hdL ?_
      intro j hj
      have h1 : (u ++ P)[w.length + j]? = u[w.length + j]? := by
        refine List.getElem?_append_left ?_
        omega
      have h2 : (w ++ (L ++ rest))[w.length + j]? = L[j]? := by
        rw [List.getElem?_append_right (by omega)]
        rw [Nat.add_sub_cancel_left]
        exact List.getElem?_append_left (by omega)
      have h3 : u[w.length + j]? = L[j]? := by
        rw [← h1, ← h2]
        exact (h.getElem_eq (i := w.length + j) (by rw [List.length_append]; omega)).symm
      have hj2 : w.length + j < u.length := by omega
      obtain ⟨c, hc⟩ : ∃ c, u[w.length + j]? = some c :=
        ⟨u[w.length + j], List.getElem?_eq_getElem hj2⟩
      exact ⟨c, by rw [← h3, hc], all_getElem? hu hc⟩
    -- P is a prefix of L.drop d ++ rest
    have hPdrop : IsPref P (L.drop d ++ rest) := by
      have h1 := h.drop u.length
      have h2 : (u ++ P).drop u.length = P := by
        rw [List.drop_append_eq_append_drop, List.drop_eq_nil_of_le (Nat.le_refl _)]
        simp
      have hz : d - L.length = 0 := by omega
      have h3 : (w ++ (L ++ rest)).drop u.length = L.drop d ++ rest := by
        rw [List.drop_append_eq_append_drop, List.drop_eq_nil_of_le (by omega), List.nil_append,
          List.drop_append_eq_append_drop, ← hdd, hz, List.drop_zero]
      rw [h2, h3] at h1
      exact h1
    have := hPdrop.take_left
    rw [List.length_drop, ← hasPref_iff] at this
    have hfalse := hc2 d hd1 hdL hLd
    rw [this] at hfalse
    cases hfalse

/-! ### JavaScript character primitives

The analyzer and templates operate on ASCII documents plus the German
letters handled by the key-derivation code; `toUpperCase`/`toLowerCase`
are embedded on that alphabet. -/

def isDigitB (c : Char) : Bool := '0' ≤ c && c ≤ '9'

/-- The regex character class `\w`. -/
def isWordCharB (c : Char) : Bool :=
  ('A' ≤ c && c ≤ 'Z') || ('a' ≤ c && c ≤ 'z') || ('0' ≤ c && c ≤ '9') || c = '_'

/-- Characters of category keys produced by `createNewCategory`
(lowercase letters, digits, underscore, hyphen). -/
def isKeyCharB (c : Char) : Bool :=
  ('a' ≤ c && c ≤ 'z') || ('0' ≤ c && c ≤ '9') || c = '_' || c = '-'

/-- Characters of upper-cased keys, as they appear in marker comments. -/
def isUKeyCharB (c : Char) : Bool :=
  ('A' ≤ c && c ≤ 'Z') || ('0' ≤ c && c ≤ '9') || c = '_' || c = '-'

/-- JavaScript whitespace (`\s` and `trim`), restricted to the characters
that can appear in the documents in scope. -/
def jsIsSpaceB (c : Char) : Bool :=
  c = ' ' || c = '\t' || c = '\n' || c = '\x0d' || c = '\x0b' || c = '\x0c' || c = Char.ofNat 160

/-- One character of `String.prototype.toUpperCase` (ASCII and the German
letters reachable from the key derivation; `ß` uppercases to `SS`). -/
def jsUpperChar (c : Char) : Str :=
  if c = Char.ofNat 228 then [Char.ofNat 196]
  else if c = Char.ofNat 246 then [Char.ofNat 214]
  else if c = Char.ofNat 252 then [Char.ofNat 220]
  else if c = Char.ofNat 223 then ['S', 'S']
  else [c.toUpper]

/-- Embeds `String.prototype.toUpperCase`. -/
def jsToUpper : Str → Str
  | [] => []
  | c :: t => jsUpperChar c ++ jsToUpper t

/-- One character of `String.prototype.toLowerCase` on the same alphabet. -/
def jsLowerChar (c : Char) : Char :=
  if c = Char.ofNat 196 then Char.ofNat 228
  else if c = Char.ofNat 214 then Char.ofNat 246
  else if c = Char.ofNat 220 then Char.ofNat 252
  else c.toLower

/-- Embeds `String.prototype.toLowerCase`. -/
def jsToLower (s : Str) : Str := s.map jsLowerChar

/-- Embeds `s.replace(/c/g, repl)` for a single-character pattern. -/
def replaceChar (c : Char) (repl : Str) : Str → Str
  | [] => []
  | x :: t => (if x = c then repl else [x]) ++ replaceChar c repl t

/-- Embeds `escapeHtml` from `popup.js` (lines 49-55): four sequential
global single-character replacements, `&` first. -/
def escapeHtml (s : Str) : Str :=
  replaceChar '"' (str "&quot;")
    (replaceChar '>' (str "&gt;")
      (replaceChar '<' (str "&lt;")
        (replaceChar '&' (str "&amp;") s)))

/-- The per-character effect of `escapeHtml`. -/
def escChar (c : Char) : Str :=
  if c = '&' then str "&amp;"
  else if c = '<' then str "&lt;"
  else if c = '>' then str "&gt;"
  else if c = '"' then str "&quot;"
  else [c]

theorem replaceChar_append (c : Char) (repl x y : Str) :
    replaceChar c repl (x ++ y) = replaceChar c repl x ++ replaceChar c repl y := by
  induction x with
  | nil => rfl
  | cons a t ih => simp [replaceChar, ih]

theorem escapeHtml_append (x y : Str) :
    escapeHtml (x ++ y) = escapeHtml x ++ escapeHtml y := by
  simp [escapeHtml, replaceChar_append]

theorem escapeHtml_cons (c : Char) (t : Str) :
    escapeHtml (c :: t) = escChar c ++ escapeHtml t := by
  have h : escapeHtml ([c] ++ t) = escapeHtml [c] ++ escapeHtml t := escapeHtml_append [c] t
  simp only [List.singleton_append] at h
  rw [h]
  congr 1
  by_cases h1 : c = '&'
  · subst h1; rfl
  · by_cases h2 : c = '<'
    · subst h2; rfl
    · by_cases h3 : c = '>'
      · subst h3; rfl
      · by_cases h4 : c = '"'
        · subst h4; rfl
        · simp [escapeHtml, escChar, replaceChar, h1, h2, h3, h4, str]

/-- Characters that `escapeHtml` leaves unchanged. -/
def benignB (c : Char) : Bool := !(c = '&' || c = '<' || c = '>' || c = '"')

/-- Characters that cannot occur in `escapeHtml` output: the markup
delimiters are always removed. -/
def htmlSafeB (c : Char) : Bool := !(c = '<' || c = '>' || c = '"')

theorem escChar_all_safe (c : Char) : (escChar c).all htmlSafeB = true := by
  by_cases h1 : c = '&'
  · subst h1; rfl
  · by_cases h2 : c = '<'
    · subst h2; rfl
    · by_cases h3 : c = '>'
      · subst h3; rfl
      · by_cases h4 : c = '"'
        · subst h4; rfl
        · simp [escChar, h1, h2, h3, h4, htmlSafeB, List.all_eq_true]

theorem escapeHtml_all_safe (s : Str) : (escapeHtml s).all htmlSafeB = true := by
  induction s with
  | nil => rfl
  | cons c t ih =>
    rw [escapeHtml_cons, List.all_append, escChar_all_safe, ih]
    rfl

theorem escapeHtml_id_of_benign {s : Str} (h : s.all benignB = true) : escapeHtml s = s := by
  induction s with
  | nil => rfl
  | cons c t ih =>
    rw [List.all_cons, Bool.and_eq_true] at h
    rw [escapeHtml_cons, ih h.2]
    have hc := h.1
    have h1 : c ≠ '&' := by intro hx; subst hx; simp [benignB] at hc
    have h2 : c ≠ '<' := by intro hx; subst hx; simp [benignB] at hc
    have h3 : c ≠ '>' := by intro hx; subst hx; simp [benignB] at hc
    have h4 : c ≠ '"' := by intro hx; subst hx; simp [benignB] at hc
    simp [escChar, h1, h2, h3, h4]

/-! ### Decimal rendering of the column count (template literal `${columns}`) -/

def digitChar (n : Nat) : Char := Char.ofNat (48 + n)

def natToCharsAux : Nat → Nat → Str
  | 0, _ => []
  | f + 1, n =>
    if n < 10 then [digitChar n]
    else natToCharsAux f (n / 10) ++ [digitChar (n % 10)]

/-- Decimal representation of a natural number, as produced by a
JavaScript template literal for a non-negative integer. -/
def natToChars (n : Nat) : Str := natToCharsAux (n + 1) n

/-- Embeds `parseInt` on a string of decimal digits. -/
def parseDigits (s : Str) : Nat := s.foldl (fun a c => 10 * a + (c.toNat - 48)) 0

theorem digitChar_toNat {k : Nat} (hk : k < 10) : (digitChar k).toNat = 48 + k := by
  have : k = 0 ∨ k = 1 ∨ k = 2 ∨ k = 3 ∨ k = 4 ∨ k = 5 ∨ k = 6 ∨ k = 7 ∨ k = 8 ∨ k = 9 := by omega
  rcases this with rfl | rfl | rfl | rfl | rfl | rfl | rfl | rfl | rfl | rfl <;> rfl

theorem digitChar_isDigit {k : Nat} (hk : k < 10) : isDigitB (digitChar k) = true := by
  have : k = 0 ∨ k = 1 ∨ k = 2 ∨ k = 3 ∨ k = 4 ∨ k = 5 ∨ k = 6 ∨ k = 7 ∨ k = 8 ∨ k = 9 := by omega
  rcases this with rfl | rfl | rfl | rfl | rfl | rfl | rfl | rfl | rfl | rfl <;> rfl

theorem natToCharsAux_congr {f g n : Nat} (hf : n < f) (hg : n < g) :
    natToCharsAux f n = natToCharsAux g n := by
  induction f generalizing g n with
  | zero => omega
  | succ f ih =>
    cases g with
    | zero => omega
    | succ g =>
      simp only [natToCharsAux]
      by_cases h : n < 10
      · simp [h]
      · simp only [h, if_false]
        congr 1
        exact ih (by omega) (by omega)

theorem parseDigits_natToChars (n : Nat) : parseDigits (natToChars n) = n := by
  have haux : ∀ f n, n < f → parseDigits (natToCharsAux f n) = n := by
    intro f
    induction f with
    | zero => intro n h; omega
    | succ f ih =>
      intro n h
      simp only [natToCharsAux]
      by_cases h10 : n < 10
      · rw [if_pos h10]
        show 10 * 0 + ((digitChar n).toNat - 48) = n
        rw [digitChar_toNat h10]
        omega
      · rw [if_neg h10]
        have hrec := ih (n / 10) (by omega)
        simp only [parseDigits] at hrec ⊢
        rw [List.foldl_append, hrec]
        show 10 * (n / 10) + ((digitChar (n % 10)).toNat - 48) = n
        rw [digitChar_toNat (Nat.mod_lt n (by omega))]
        omega
  exact haux (n + 1) n (by omega)

theorem natToChars_all_digits (n : Nat) : (natToChars n).all isDigitB = true := by
  have haux : ∀ f n, n < f → (natToCharsAux f n).all isDigitB = true := by
    intro f
    induction f with
    | zero => intro n h; omega
    | succ f ih =>
      intro n h
      simp only [natToCharsAux]
      by_cases h10 : n < 10
      · simp [h10, List.all_cons, digitChar_isDigit h10]
      · simp only [h10, if_false, List.all_append]
        rw [ih (n / 10) (by omega)]
        simp [List.all_cons, digitChar_isDigit (Nat.mod_lt n (by omega))]
  exact haux (n + 1) n (by omega)

theorem natToChars_ne_nil (n : Nat) : natToChars n ≠ [] := by
  simp only [natToChars, natToCharsAux]
  by_cases h10 : n < 10
  · simp [h10]
  · simp only [h10, if_false]
    intro h
    exact absurd (List.append_eq_nil.mp h).2 (by simp)

/-! ### encodeURIComponent (used by the `large` link template) -/

def uriUnreservedB (c : Char) : Bool :=
  ('A' ≤ c && c ≤ 'Z') || ('a' ≤ c && c ≤ 'z') || ('0' ≤ c && c ≤ '9') ||
  c = '-' || c = '_' || c = '.' || c = '!' || c = '~' || c = '*' ||
  c = Char.ofNat 39 || c = '(' || c = ')'

/-- Uppercase hexadecimal digit, as produced by `encodeURIComponent`. -/
def hexDigitChar (n : Nat) : Char :=
  if n < 10 then Char.ofNat (48 + n) else Char.ofNat (55 + n)

/-- UTF-8 bytes of a character. -/
def utf8Bytes (c : Char) : List Nat :=
  let n := c.toNat
  if n < 128 then [n]
  else if n < 2048 then [192 + n / 64, 128 + n % 64]
  else if n < 65536 then [224 + n / 4096, 128 + (n / 64) % 64, 128 + n % 64]
  else [240 + n / 262144, 128 + (n / 4096) % 64, 128 + (n / 64) % 64, 128 + n % 64]

def percentByte (b : Nat) : Str := ['%', hexDigitChar (b / 16), hexDigitChar (b % 16)]

/-- Embeds `encodeURIComponent`: unreserved characters pass through, all
others are percent-encoded byte-wise. -/
def encodeURIComponent : Str → Str
  | [] => []
  | c :: t =>
    (if uriUnreservedB c then [c]
     else (utf8Bytes c).foldr (fun b acc => percentByte b ++ acc) []) ++ encodeURIComponent t

/-! ### Data model -/

/-- Tab information passed to the link template (`getActiveTabInfo`). -/
structure TabInfo where
  url : Str
  title : Str
  host : Str
  iconUrl : Str
deriving DecidableEq

/-- Category records, both as inputs to `addCategory` and as outputs of
`WikiStructureAnalyzer.extractCategories`. -/
structure Category where
  key : Str
  name : Str
  description : Str
  layout : Str
  accent : Str
  containerKey : Str
  column : Nat
deriving DecidableEq

/-- Container records produced by `extractContainers`. -/
structure ContainerInfo where
  key : Str
  name : Str
  columns : Nat
deriving DecidableEq

/-! ### HTML_TEMPLATES (popup.js lines 172-234) -/

/-- The container template. -/
def containerTpl (containerKey : Str) (columns : Nat) : Str :=
  str "<div class=\"layout-container layout-" ++ natToChars columns ++
  str "col\" id=\"" ++ containerKey ++
  str "-container\">\n  <!-- Container: " ++ containerKey ++
  str " -->\n  <!-- CONTAINER_" ++ jsToUpper containerKey ++
  str "_CONTENT_START -->\n  <!-- CONTAINER_" ++ jsToUpper containerKey ++
  str "_CONTENT_END -->\n</div>\n\n"

/-- The `layoutClass` selected by the category template. -/
def layoutClassOf (layout : Str) : Str :=
  if layout = str "compact" then str "section-compact"
  else if layout = str "large" then str "section-large"
  else str "section-card"

/-- The `contentClass` selected by the category template. -/
def contentClassOf (layout : Str) : Str :=
  if layout = str "compact" then str "compact-links"
  else if layout = str "large" then str "large-links"
  else str "links"

/-- The category template. -/
def categoryTpl (cat : Category) (layout : Str) : Str :=
  let lc := layoutClassOf layout
  let cc := contentClassOf layout
  str "  <section class=\"" ++ lc ++ str " accent-" ++ cat.accent ++
  str "\" id=\"" ++ cat.key ++
  str "-section\">\n    <header class=\"" ++ lc ++
  str "__header\">\n      <div class=\"" ++ lc ++
  str "__title\">" ++ escapeHtml cat.name ++
  str "</div>\n      <div class=\"" ++ lc ++
  str "__meta\">" ++ escapeHtml cat.description ++
  str "</div>\n    </header>\n    <div class=\"" ++ cc ++
  str "\">\n      <!-- " ++ jsToUpper cat.key ++
  str "_LINKS_END -->\n    </div>\n  </section>"

/-- The link template (three layout families). -/
def linkTpl (tab : TabInfo) (layout : Str) : Str :=
  if layout = str "compact" then
    str "      <a class=\"compact-link\" href=\"" ++ tab.url ++
    str "\" target=\"_blank\" rel=\"noopener\">\n        <img src=\"" ++ tab.iconUrl ++
    str "\" alt=\"\" class=\"compact-icon\">\n        <span class=\"compact-title\">" ++
    escapeHtml tab.title ++
    str "</span>\n        <span class=\"compact-url\">" ++ escapeHtml tab.host ++
    str "</span>\n      </a>"
  else if layout = str "large" then
    str "      <a class=\"large-link\" href=\"" ++ tab.url ++
    str "\" target=\"_blank\" rel=\"noopener\">\n        <div class=\"large-preview\">\n          <img src=\"https://mini.s-shot.ru/1024x768/JPEG/1024/Z100/?" ++
    encodeURIComponent tab.url ++
    str "\" alt=\"Preview\" class=\"large-screenshot\" onerror=\"this.style.display=\x27none\x27;\">\n          <img src=\"" ++
    tab.iconUrl ++
    str "\" alt=\"\" class=\"large-icon\">\n        </div>\n        <div class=\"large-content\">\n          <div class=\"large-title\">" ++
    escapeHtml tab.title ++
    str "</div>\n          <div class=\"large-url\">" ++ escapeHtml tab.host ++
    str "</div>\n        </div>\n      </a>"
  else
    str "      <a class=\"linkcard\" href=\"" ++ tab.url ++
    str "\" target=\"_blank\" rel=\"noopener\">\n        <img src=\"" ++ tab.iconUrl ++
    str "\" alt=\"\">\n        <div>\n          <div class=\"title\">" ++ escapeHtml tab.title ++
    str "</div>\n          <div class=\"url\">" ++ escapeHtml tab.host ++
    str "</div>\n        </div>\n      </a>"

theorem layoutClassOf_cards : layoutClassOf (str "cards") = str "section-card" := by
  rw [layoutClassOf, if_neg (by decide), if_neg (by decide)]

theorem layoutClassOf_compact : layoutClassOf (str "compact") = str "section-compact" := by
  rw [layoutClassOf, if_pos rfl]

theorem layoutClassOf_large : layoutClassOf (str "large") = str "section-large" := by
  rw [layoutClassOf, if_neg (by decide), if_pos rfl]

theorem contentClassOf_cards : contentClassOf (str "cards") = str "links" := by
  rw [contentClassOf, if_neg (by decide), if_neg (by decide)]

theorem contentClassOf_compact : contentClassOf (str "compact") = str "compact-links" := by
  rw [contentClassOf, if_pos rfl]

theorem contentClassOf_large : contentClassOf (str "large") = str "large-links" := by
  rw [contentClassOf, if_neg (by decide), if_pos rfl]

theorem linkTpl_cards (tab : TabInfo) : linkTpl tab (str "cards") =
    str "      <a class=\"linkcard\" href=\"" ++ tab.url ++
    str "\" target=\"_blank\" rel=\"noopener\">\n        <img src=\"" ++ tab.iconUrl ++
    str "\" alt=\"\">\n        <div>\n          <div class=\"title\">" ++ escapeHtml tab.title ++
    str "</div>\n          <div class=\"url\">" ++ escapeHtml tab.host ++
    str "</div>\n        </div>\n      </a>" := by
  rw [linkTpl, if_neg (by decide), if_neg (by decide)]

theorem linkTpl_compact (tab : TabInfo) : linkTpl tab (str "compact") =
    str "      <a class=\"compact-link\" href=\"" ++ tab.url ++
    str "\" target=\"_blank\" rel=\"noopener\">\n        <img src=\"" ++ tab.iconUrl ++
    str "\" alt=\"\" class=\"compact-icon\">\n        <span class=\"compact-title\">" ++
    escapeHtml tab.title ++
    str "</span>\n        <span class=\"compact-url\">" ++ escapeHtml tab.host ++
    str "</span>\n      </a>" := by
  rw [linkTpl, if_pos rfl]

theorem linkTpl_large (tab : TabInfo) : linkTpl tab (str "large") =
    str "      <a class=\"large-link\" href=\"" ++ tab.url ++
    str "\" target=\"_blank\" rel=\"noopener\">\n        <div class=\"large-preview\">\n          <img src=\"https://mini.s-shot.ru/1024x768/JPEG/1024/Z100/?" ++
    encodeURIComponent tab.url ++
    str "\" alt=\"Preview\" class=\"large-screenshot\" onerror=\"this.style.display=\x27none\x27;\">\n          <img src=\"" ++
    tab.iconUrl ++
    str "\" alt=\"\" class=\"large-icon\">\n        </div>\n        <div class=\"large-content\">\n          <div class=\"large-title\">" ++
    escapeHtml tab.title ++
    str "</div>\n          <div class=\"large-url\">" ++ escapeHtml tab.host ++
    str "</div>\n        </div>\n      </a>" := by
  rw [linkTpl, if_neg (by decide), if_pos rfl]

/-! ### WikiStructureAnalyzer (popup.js lines 237-319)

Every regular expression used by the analyzer is backtracking-free: each
greedy sub-pattern (`\d+`, `\w+`, `\s+`, `[^"]+`, `[^<]+`, `[^_]+`) is
followed by a literal whose first character the sub-pattern cannot match,
except the `[^"]+` groups before `-container">` / `-section">`, whose end
is pinned by the quote: the group must extend to the next quote minus the
literal suffix.  The scanners below implement exactly that deterministic
reading, advancing by one character on a failed position and resuming
after the match on success, as `RegExp.exec` with `g` does. -/

/-- Match a literal at the head of the input. -/
def dropLit (lit s : Str) : Option Str :=
  if hasPref lit s then some (s.drop lit.length) else none

theorem dropLit_eq_some {lit s s' : Str} : dropLit lit s = some s' ↔ s = lit ++ s' := by
  simp only [dropLit]
  cases hb : hasPref lit s with
  | true =>
    rw [if_pos rfl]
    obtain ⟨r, hr⟩ := hasPref_iff.mp hb
    subst hr
    simp only [Option.some.injEq]
    constructor
    · rintro rfl; simp
    · intro h
      have := List.append_cancel_left h
      rw [← this]
      simp
  | false =>
    rw [if_neg Bool.false_ne_true]
    constructor
    · intro h; cases h
    · rintro rfl
      have : hasPref lit (lit ++ s') = true := hasPref_iff.mpr ⟨s', rfl⟩
      rw [hb] at this; cases this

/-- One attempt of the container-opening regex
`/<div class="layout-container layout-(\d+)col" id="([^"]+)-container">/`
at the head of the input; returns `(columns, key)` and the rest. -/
def tryContainerAt (s : Str) : Option ((Nat × Str) × Str) :=
  match dropLit (str "<div class=\"layout-container layout-") s with
  | none => none
  | some s1 =>
    let ds := s1.takeWhile isDigitB
    if ds.isEmpty then none
    else
      match dropLit (str "col\" id=\"") (s1.drop ds.length) with
      | none => none
      | some s2 =>
        let span := s2.takeWhile (fun c => !(c = '"'))
        if (str "-container").isSuffixOf span && decide (10 < span.length) then
          match dropLit (str "\">") (s2.drop span.length) with
          | none => none
          | some s3 => some ((parseDigits ds, span.take (span.length - 10)), s3)
        else none

def scanContainersAux : Nat → Str → List (Nat × Str)
  | 0, _ => []
  | f + 1, s =>
    match tryContainerAt s with
    | some (info, rest) => info :: scanContainersAux f rest
    | none =>
      match s with
      | [] => []
      | _ :: t => scanContainersAux f t

/-- All matches of the container-opening regex, in document order. -/
def scanContainers (s : Str) : List (Nat × Str) := scanContainersAux (s.length + 1) s

/-- Case-insensitive literal match (the name-comment regex carries the
`i` flag). -/
def ciHasPref : Str → Str → Bool
  | [], _ => true
  | _ :: _, [] => false
  | a :: ps, b :: ss => jsLowerChar a = jsLowerChar b && ciHasPref ps ss

/-- Lazy `(.+?)` followed by the literal terminator ` -->`: the shortest
non-empty run of non-newline characters after which the terminator
matches. -/
def lazyDotUntil (term : Str) : Str → Option Str
  | [] => none
  | c :: t =>
    if c = '\n' || c = '\x0d' then none
    else if hasPref term t then some [c]
    else
      match lazyDotUntil term t with
      | some g => some (c :: g)
      | none => none

/-- The optional `(?:\s*-\s*(.+?))? -->` part of the name-comment regex,
matched with the group present.  The second `\s*` backtracks from its
greedy maximum, as the engine does. -/
def commentVariantA (s : Str) : Option Str :=
  let sp1 := s.takeWhile jsIsSpaceB
  match dropLit (str "-") (s.drop sp1.length) with
  | none => none
  | some s2 =>
    let sp2 := s2.takeWhile jsIsSpaceB
    varALoop s2 (sp2.length + 1)
where
  varALoop (s2 : Str) : Nat → Option Str
    | 0 => none
    | j + 1 =>
      match lazyDotUntil (str " -->") (s2.drop j) with
      | some g => some g
      | none => varALoop s2 j

/-- First match of `new RegExp(`<!-- Container: ${key}(?:\s*-\s*(.+?))? -->`, 'i')`:
`some (some g)` for a match with the display-name group, `some none` for a
match without it, `none` when the comment is absent. -/
def findContainerNameAux (key : Str) : Nat → Str → Option (Option Str)
  | 0, _ => none
  | f + 1, s =>
    if ciHasPref (str "<!-- Container: " ++ key) s then
      let s1 := s.drop (str "<!-- Container: " ++ key).length
      match commentVariantA s1 with
      | some g => some (some g)
      | none =>
        if hasPref (str " -->") s1 then some none
        else
          match s with
          | [] => none
          | _ :: t => findContainerNameAux key f t
    else
      match s with
      | [] => none
      | _ :: t => findContainerNameAux key f t

def findContainerName (content key : Str) : Option (Option Str) :=
  findContainerNameAux key (content.length + 1) content

/-- Embeds `key.charAt(0).toUpperCase() + key.slice(1)`. -/
def capitalizeKey (key : Str) : Str :=
  match key with
  | [] => []
  | c :: t => jsUpperChar c ++ t

/-- Embeds `WikiStructureAnalyzer.extractContainers`. -/
def extractContainers (content : Str) : List ContainerInfo :=
  (scanContainers content).map (fun ci =>
    let name :=
      match findContainerName content ci.2 with
      | some (some g) => g
      | _ => capitalizeKey ci.2
    { key := ci.2, name := name, columns := ci.1 })

/-- One attempt of the section-opening regex
`/<section class="(section-\w+)\s+accent-(\w+)" id="([^"]+)-section">/`;
returns `(layoutClass, accent, key)` and the rest. -/
def trySectionAt (s : Str) : Option ((Str × Str × Str) × Str) :=
  match dropLit (str "<section class=\"") s with
  | none => none
  | some s1 =>
    match dropLit (str "section-") s1 with
    | none => none
    | some s2 =>
      let w := s2.takeWhile isWordCharB
      if w.isEmpty then none
      else
        let s3 := s2.drop w.length
        let sp := s3.takeWhile jsIsSpaceB
        if sp.isEmpty then none
        else
          match dropLit (str "accent-") (s3.drop sp.length) with
          | none => none
          | some s4 =>
            let acc := s4.takeWhile isWordCharB
            if acc.isEmpty then none
            else
              match dropLit (str "\" id=\"") (s4.drop acc.length) with
              | none => none
              | some s5 =>
                let span := s5.takeWhile (fun c => !(c = '"'))
                if (str "-section").isSuffixOf span && decide (8 < span.length) then
                  match dropLit (str "\">") (s5.drop span.length) with
                  | none => none
                  | some s6 =>
                    some ((str "section-" ++ w, acc, span.take (span.length - 8)), s6)
                else none

def scanSectionsAux : Nat → Str → List (Str × Str × Str)
  | 0, _ => []
  | f + 1, s =>
    match trySectionAt s with
    | some (info, rest) => info :: scanSectionsAux f rest
    | none =>
      match s with
      | [] => []
      | _ :: t => scanSectionsAux f t

/-- All matches of the section-opening regex, in document order. -/
def scanSections (s : Str) : List (Str × Str × Str) := scanSectionsAux (s.length + 1) s

/-- First match of `<div class="LC__title">([^<]+)</div>` (`allowEmpty = false`)
or `<div class="LC__meta">([^<]*)</div>` (`allowEmpty = true`) in the
lookahead window. -/
def findDivTextAux (allowEmpty : Bool) (pat : Str) : Nat → Str → Option Str
  | 0, _ => none
  | f + 1, s =>
    match dropLit pat s with
    | some s1 =>
      let run := s1.takeWhile (fun c => !(c = '<'))
      if (allowEmpty || !run.isEmpty) && hasPref (str "</div>") (s1.drop run.length) then
        some run
      else
        match s with
        | [] => none
        | _ :: t => findDivTextAux allowEmpty pat f t
    | none =>
      match s with
      | [] => none
      | _ :: t => findDivTextAux allowEmpty pat f t

def findDivText (allowEmpty : Bool) (pat window : Str) : Option Str :=
  findDivTextAux allowEmpty pat (window.length + 1) window

/-- The `id="<key>-section"` token searched by the analyzer. -/
def sectionToken (key : Str) : Str := str "id=\"" ++ key ++ str "-section\""

/-- The `id="<key>-container"` token searched by the analyzer. -/
def containerToken (key : Str) : Str := str "id=\"" ++ key ++ str "-container\""

/-- The per-category end-of-links marker `<!-- <KEY>_LINKS_END -->`. -/
def linksEndMarker (key : Str) : Str :=
  str "<!-- " ++ jsToUpper key ++ str "_LINKS_END -->"

/-- One attempt of `/<!-- CONTAINER_([^_]+)_CONTENT_START -->/`. -/
def tryStartMarkerAt (s : Str) : Option (Str × Str) :=
  match dropLit (str "<!-- CONTAINER_") s with
  | none => none
  | some s1 =>
    let run := s1.takeWhile (fun c => !(c = '_'))
    if run.isEmpty then none
    else
      match dropLit (str "_CONTENT_START -->") (s1.drop run.length) with
      | none => none
      | some s2 => some (run, s2)

def scanStartMarkersAux : Nat → Str → List Str
  | 0, _ => []
  | f + 1, s =>
    match tryStartMarkerAt s with
    | some (g, rest) => g :: scanStartMarkersAux f rest
    | none =>
      match s with
      | [] => []
      | _ :: t => scanStartMarkersAux f t

/-- All `matchAll` results of the container-start-marker regex. -/
def scanStartMarkers (s : Str) : List Str := scanStartMarkersAux (s.length + 1) s

/-- Embeds `WikiStructureAnalyzer.findContainerForCategory`. -/
def findContainerForCategory (content key : Str) : Option Str :=
  match indexOf? (sectionToken key) content with
  | none => none
  | some p =>
    match (scanStartMarkers (content.take p)).getLast? with
    | none => none
    | some last => some (jsToLower last)

/-- Embeds `WikiStructureAnalyzer.categoryExists`. -/
def categoryExists (content key : Str) : Bool := occursB (sectionToken key) content

/-- Embeds `WikiStructureAnalyzer.containerExists`. -/
def containerExists (content key : Str) : Bool := occursB (containerToken key) content

/-- Embeds `WikiStructureAnalyzer.extractCategories`.  The window start
uses the first `id="<key>-section"` occurrence of the whole content, a
500-character lookahead recovers title and description, and ownership is
resolved positionally.  (When the token is absent — impossible after a
successful section match — the JavaScript would clamp `substring(-1, 499)`
to position 0; the embedding uses `getD 0` accordingly.) -/
def extractCategories (content : Str) : List Category :=
  (scanSections content).map (fun m =>
    let layoutClass := m.1
    let layout :=
      if occursB (str "compact") layoutClass then str "compact"
      else if occursB (str "large") layoutClass then str "large"
      else str "cards"
    let sectionStart := (indexOf? (sectionToken m.2.2) content).getD 0
    let window := (content.drop sectionStart).take 500
    let titleM := findDivText false (str "<div class=\"" ++ layoutClass ++ str "__title\">") window
    let metaM := findDivText true (str "<div class=\"" ++ layoutClass ++ str "__meta\">") window
    { key := m.2.2
      name := titleM.getD m.2.2
      description := metaM.getD []
      layout := layout
      accent := m.2.1
      containerKey := (findContainerForCategory content m.2.2).getD (str "unknown")
      column := 0 })

/-! ### WikiContentManager (popup.js lines 322-441)

The manager state carries the document (`content`) and the content the
bound analyzer was built from (`analyzerContent`).  In the source every
`throw` happens before the assignment to `this.content`, so a failing
operation is embedded as `Except.error` with the state untouched.
`addContainer`, `addCategory` and `removeAllLinks` rebuild the analyzer
after mutating; `addLinkToCategory` does not (faithful to the source). -/

inductive EditError where
  | duplicateContainer (key : Str)
  | duplicateCategory (key : Str)
  | missingContainer (key : Str)
  | containerMarkerMissing (key : Str)
  | missingCategory (key : Str)
  | categoryInfoMissing (key : Str)
  | linkMarkerMissing (key : Str)
deriving DecidableEq

structure WikiContentManager where
  content : Str
  analyzerContent : Str
deriving DecidableEq

/-- The constructor `new WikiContentManager(content)`. -/
def mkManager (content : Str) : WikiContentManager := ⟨content, content⟩

/-- Embeds `String.prototype.endsWith('\n')`. -/
def endsWithNl (s : Str) : Bool := s.getLast? = some '\n'

/-- Embeds `String.prototype.substring` (swapping and clamping indices). -/
def jsSubstring (s : Str) (a b : Nat) : Str := (s.take (max a b)).drop (min a b)

/-- Embeds `WikiContentManager.addContainer`. -/
def addContainer (m : WikiContentManager) (containerKey name : Str) (columns : Nat) :
    Except EditError WikiContentManager :=
  if containerExists m.analyzerContent containerKey then
    .error (.duplicateContainer containerKey)
  else
    let c' := m.content ++
      (if !m.content.isEmpty && !endsWithNl m.content then str "\n\n" else str "\n") ++
      containerTpl containerKey columns
    .ok ⟨c', c'⟩

/-- Embeds `WikiContentManager.addCategory`.  The `hasContent` test models
`substring(startPos + len, markerPos).trim().length > 0`. -/
def addCategory (m : WikiContentManager) (cat : Category) :
    Except EditError WikiContentManager :=
  if categoryExists m.analyzerContent cat.key then
    .error (.duplicateCategory cat.key)
  else if !containerExists m.analyzerContent cat.containerKey then
    .error (.missingContainer cat.containerKey)
  else
    let categoryHTML := categoryTpl cat cat.layout
    let endMarker := str "<!-- CONTAINER_" ++ jsToUpper cat.containerKey ++ str "_CONTENT_END -->"
    match indexOf? endMarker m.content with
    | none => .error (.containerMarkerMissing cat.containerKey)
    | some markerPos =>
      let startMarker := str "<!-- CONTAINER_" ++ jsToUpper cat.containerKey ++ str "_CONTENT_START -->"
      let hasContent :=
        match indexOf? startMarker m.content with
        | none => false
        | some sp =>
          (jsSubstring m.content (sp + startMarker.length) markerPos).any (fun c => !jsIsSpaceB c)
      let insertion := (if hasContent then str "\n  " else []) ++ categoryHTML ++ str "\n  "
      let c' := m.content.take markerPos ++ insertion ++ m.content.drop markerPos
      .ok ⟨c', c'⟩

/-- Embeds `WikiContentManager.addLinkToCategory`.  Note that the source
does not rebuild `this.analyzer` in this method. -/
def addLinkToCategory (m : WikiContentManager) (tab : TabInfo) (categoryKey : Str) :
    Except EditError WikiContentManager :=
  if !categoryExists m.analyzerContent categoryKey then
    .error (.missingCategory categoryKey)
  else
    match (extractCategories m.analyzerContent).find? (fun c => c.key == categoryKey) with
    | none => .error (.categoryInfoMissing categoryKey)
    | some cat =>
      let linkHTML := linkTpl tab cat.layout
      match indexOf? (linksEndMarker categoryKey) m.content with
      | none => .error (.linkMarkerMissing categoryKey)
      | some markerPos =>
        .ok ⟨m.content.take markerPos ++ linkHTML ++ str "\n      " ++ m.content.drop markerPos,
             m.analyzerContent⟩

/-- First `'>'` at or after `pos` (embeds `content.indexOf('>', pos)`). -/
def indexOfCharFrom? (c : Char) (pos : Nat) (s : Str) : Option Nat :=
  (indexOf? [c] (s.drop pos)).map (· + pos)

/-- The per-layout links wrapper searched by `removeAllLinks`. -/
def wrapperOf (layout : Str) : Str :=
  if layout = str "compact" then str "<div class=\"compact-links\">"
  else if layout = str "large" then str "<div class=\"large-links\">"
  else str "<div class=\"links\">"

/-- One iteration of the `removeAllLinks` per-category loop. -/
def removeLinksStep (content : Str) (cat : Category) : Str :=
  match indexOf? (linksEndMarker cat.key) content with
  | none => content
  | some markerPos =>
    let beforeMarker := content.take markerPos
    let wrapper := wrapperOf cat.layout
    match lastIndexOf? wrapper beforeMarker with
    | none => content
    | some ws =>
      let wEnd :=
        match indexOfCharFrom? '>' ws content with
        | some i => i + 1
        | none => 0
      content.take wEnd ++ str "\n      " ++ content.drop markerPos

/-- Embeds `WikiContentManager.removeAllLinks` (categories are taken from
the bound analyzer; the loop mutates `this.content`). -/
def removeAllLinks (m : WikiContentManager) : WikiContentManager :=
  let c' := (extractCategories m.analyzerContent).foldl removeLinksStep m.content
  ⟨c', c'⟩

/-- Embeds `WikiContentManager.getContent`. -/
def getContent (m : WikiContentManager) : Str := m.content

/-! ### Occurrence helpers for appended documents -/

theorem occursB_of_occAt {t s : Str} {p : Nat} (h : OccAt t s p) : occursB t s = true :=
  occursB_iff.mpr ⟨p, h⟩

theorem occAt_of_decomp {t s x y : Str} (h : s = x ++ t ++ y) : OccAt t s x.length := by
  subst h
  show IsPref t (((x ++ t) ++ y).drop x.length)
  rw [List.append_assoc, List.drop_append_eq_append_drop, List.drop_eq_nil_of_le (Nat.le_refl _),
    Nat.sub_self, List.drop_zero, List.nil_append]
  exact ⟨y, rfl⟩

theorem occursB_of_decomp {t s x y : Str} (h : s = x ++ t ++ y) : occursB t s = true :=
  occursB_of_occAt (occAt_of_decomp h)

theorem occursB_append_right {t y : Str} (h : occursB t y = true) (x : Str) :
    occursB t (x ++ y) = true := by
  obtain ⟨p, hp⟩ := occursB_iff.mp h
  refine occursB_of_occAt (p := x.length + p) ?_
  show IsPref t ((x ++ y).drop (x.length + p))
  rw [List.drop_append_eq_append_drop, List.drop_eq_nil_of_le (by omega), List.nil_append,
    Nat.add_sub_cancel_left]
  exact hp

/-- The `id="<key>-container"` token is rendered inside the container
template, for every key. -/
theorem containerToken_in_tpl (k : Str) (c : Nat) :
    occursB (containerToken k) (containerTpl k c) = true := by
  refine occursB_of_decomp
    (x := str "<div class=\"layout-container layout-" ++ natToChars c ++ str "col\" ")
    (y := str ">\n  <!-- Container: " ++ k ++ str " -->\n  <!-- CONTAINER_" ++ jsToUpper k ++
      str "_CONTENT_START -->\n  <!-- CONTAINER_" ++ jsToUpper k ++
      str "_CONTENT_END -->\n</div>\n\n") ?_
  simp only [containerTpl, containerToken, str, List.append_assoc]
  rfl

/-- Runs an operation the way the callers do: in the source every `throw`
happens before the assignment to `this.content`, so a failing call leaves
the manager untouched. -/
def runEdit (m : WikiContentManager)
    (op : WikiContentManager → Except EditError WikiContentManager) :
    WikiContentManager × Option EditError :=
  match op m with
  | .ok m' => (m', none)
  | .error e => (m, some e)

/-- Unwraps a successful edit (scaffolding for building concrete documents
in counterexamples). -/
def okD : Except EditError WikiContentManager → WikiContentManager
  | .ok m => m
  | .error _ => mkManager []

/-! ### Upper-casing of keys -/

theorem jsToUpper_append (a b : Str) : jsToUpper (a ++ b) = jsToUpper a ++ jsToUpper b := by
  induction a with
  | nil => rfl
  | cons c t ih => simp [jsToUpper, ih]

theorem charToUpper_upper_range {c : Char} (h1 : 'a' ≤ c) (h2 : c ≤ 'z') :
    'A' ≤ c.toUpper ∧ c.toUpper ≤ 'Z' := by
  have hn1 : 97 ≤ c.toNat := h1
  have hn2 : c.toNat ≤ 122 := h2
  rw [Char.toUpper, if_pos ⟨hn1, hn2⟩]
  have key : (Char.ofNat (c.toNat - 32)).toNat = c.toNat - 32 := by
    rw [Char.ofNat, dif_pos (by constructor <;> omega)]
    show (BitVec.ofNatLt (c.toNat - 32) _).toNat = c.toNat - 32
    simp [BitVec.toNat_ofNatLt]
  constructor
  · show (65 : Nat) ≤ (Char.ofNat (c.toNat - 32)).toNat
    omega
  · show (Char.ofNat (c.toNat - 32)).toNat ≤ (90 : Nat)
    omega

theorem charToUpper_out_of_range {c : Char} (h : ¬ (97 ≤ c.toNat ∧ c.toNat ≤ 122)) :
    c.toUpper = c := by
  rw [Char.toUpper, if_neg h]

theorem jsUpperChar_key {c : Char} (h : isKeyCharB c = true) :
    (jsUpperChar c).all isUKeyCharB = true ∧ jsUpperChar c ≠ [] := by
  have hne : ∀ (n : Nat), isKeyCharB (Char.ofNat n) = false → c ≠ Char.ofNat n := by
    intro n hn hc
    rw [hc, hn] at h
    cases h
  simp only [isKeyCharB, Bool.or_eq_true, Bool.and_eq_true, decide_eq_true_eq] at h
  rw [jsUpperChar, if_neg (hne 228 (by decide)), if_neg (hne 246 (by decide)),
    if_neg (hne 252 (by decide)), if_neg (hne 223 (by decide))]
  refine ⟨?_, by simp⟩
  rcases h with ((⟨hl, hu⟩ | ⟨hl, hu⟩) | hc) | hc
  · obtain ⟨g1, g2⟩ := charToUpper_upper_range hl hu
    simp only [List.all_cons, List.all_nil, Bool.and_true, isUKeyCharB, Bool.or_eq_true,
      Bool.and_eq_true, decide_eq_true_eq]
    exact Or.inl (Or.inl (Or.inl ⟨g1, g2⟩))
  · have hfix : c.toUpper = c := by
      refine charToUpper_out_of_range ?_
      have h1 : (48 : Nat) ≤ c.toNat := hl
      have h2 : c.toNat ≤ (57 : Nat) := hu
      omega
    rw [hfix]
    simp only [List.all_cons, List.all_nil, Bool.and_true, isUKeyCharB, Bool.or_eq_true,
      Bool.and_eq_true, decide_eq_true_eq]
    exact Or.inl (Or.inl (Or.inr ⟨hl, hu⟩))
  · subst hc
    rfl
  · subst hc
    rfl

theorem jsToUpper_all_ukey {k : Str} (h : k.all isKeyCharB = true) :
    (jsToUpper k).all isUKeyCharB = true := by
  induction k with
  | nil => rfl
  | cons c t ih =>
    rw [List.all_cons, Bool.and_eq_true] at h
    show ((jsUpperChar c) ++ jsToUpper t).all isUKeyCharB = true
    rw [List.all_append, (jsUpperChar_key h.1).1, ih h.2]
    rfl

theorem jsToUpper_ne_nil {k : Str} (hk : k.all isKeyCharB = true) (h : k ≠ []) :
    jsToUpper k ≠ [] := by
  cases k with
  | nil => exact absurd rfl h
  | cons c t =>
    rw [List.all_cons, Bool.and_eq_true] at hk
    show jsUpperChar c ++ jsToUpper t ≠ []
    intro hx
    exact (jsUpperChar_key hk.1).2 (List.append_eq_nil.mp hx).1

/-! ### Prefix relations between markers of prefix-related keys -/

theorem isPref_cancel_left {a x y : Str} (h : IsPref (a ++ x) (a ++ y)) : IsPref x y := by
  obtain ⟨r, hr⟩ := h
  rw [List.append_assoc] at hr
  exact ⟨r, List.append_cancel_left hr⟩

/-- The end-of-links marker of an extended key `k1 ++ r` is never a prefix
of the region starting at the marker of `k1`: the `_LINKS_END -->` tail
pins the alignment. -/
theorem linksEndMarker_extension_not_pref
    {k1 r : Str} (hk1 : k1.all isKeyCharB = true) (hr : r.all isKeyCharB = true)
    (hrn : r ≠ []) (rest : Str) :
    ¬ IsPref (linksEndMarker (k1 ++ r)) (linksEndMarker k1 ++ rest) := by
  intro h
  rw [linksEndMarker, linksEndMarker, jsToUpper_append] at h
  rw [List.append_assoc, List.append_assoc, List.append_assoc, List.append_assoc] at h
  have h2 := isPref_cancel_left h
  rw [← List.append_assoc] at h2
  have := key_align (K := isUKeyCharB)
    (by rw [List.all_append, jsToUpper_all_ukey hk1, jsToUpper_all_ukey hr]; rfl)
    (jsToUpper_all_ukey hk1)
    (show (str "_LINKS_END -->")[10]? = some ' ' by decide)
    (by decide) (by decide) (by decide) (by decide) h2
  have hnil : jsToUpper r = [] := by
    have heq := this.1
    have : jsToUpper k1 ++ jsToUpper r = jsToUpper k1 ++ [] := by
      rw [heq]; simp
    exact List.append_cancel_left this
  exact jsToUpper_ne_nil hr hrn hnil

/-! ### Delimiter anchoring of the existence checks (claim C10 support) -/

theorem isPref_head_ne {t s : Str} {a b : Char}
    (ht : t[0]? = some a) (hs : s[0]? = some b) (hne : (a = b) → False) : ¬ IsPref t s := by
  intro h
  have h0 : 0 < t.length := by
    by_contra hx
    rw [List.getElem?_eq_none (by omega)] at ht
    cases ht
  have h1 := h.getElem_eq (i := 0) h0
  rw [ht, hs] at h1
  injection h1 with h1
  exact hne h1.symm

theorem occursB_eq_false_iff {pat s : Str} :
    occursB pat s = false ↔ ∀ p, ¬ OccAt pat s p := by
  constructor
  · intro h p hp
    have h2 := occursB_iff.mpr ⟨p, hp⟩
    rw [h] at h2
    cases h2
  · intro h
    cases hb : occursB pat s with
    | false => rfl
    | true =>
      obtain ⟨p, hp⟩ := occursB_iff.mp hb
      exact absurd hp (h p)

theorem pat_head {X : Str} : (str "id=\"" ++ X)[0]? = some 'i' := rfl

theorem pat_drop1 {X : Str} : ((str "id=\"" ++ X).drop 1)[0]? = some 'd' := rfl

theorem pat_drop2 {X : Str} : ((str "id=\"" ++ X).drop 2)[0]? = some '=' := rfl

theorem pat_drop3 {X : Str} : ((str "id=\"" ++ X).drop 3)[0]? = some '"' := by
  show ('"' :: ([] ++ X))[0]? = some '"'
  exact List.getElem?_cons_zero

theorem idlit_0 : (str "id=\"")[0]? = some 'i' := rfl

theorem idlit_2 : (str "id=\"")[2]? = some '=' := rfl

theorem idlit_3 : (str "id=\"")[3]? = some '"' := rfl

theorem lit_head {c : Char} {t r : Str} : ((c :: t) ++ r)[0]? = some c :=
  List.getElem?_cons_zero

theorem lit_head2 {c d : Char} {t r : Str} : ((c :: d :: t) ++ r)[1]? = some d := by
  rw [List.cons_append, List.getElem?_cons_succ]
  exact lit_head

theorem lit_drop_head {x : Str} {j : Nat} {c : Char} (hx : x[j]? = some c) {y : Str}
    (hj : j < x.length) : ((x ++ y).drop j)[0]? = some c := by
  rw [List.getElem?_drop, Nat.add_zero, List.getElem?_append_left hj]
  exact hx

theorem key_site_elim {k1 k2 P L : Str}
    (hk1 : k1.all isKeyCharB = true) (hk2 : k2.all isKeyCharB = true) (hne : k1 ≠ k2)
    {a : Nat} {chi : Char} (hPa : P[a]? = some chi) (hchi : isKeyCharB chi = false)
    (hL : L.all isKeyCharB = false)
    (hc2 : ∀ d, 1 ≤ d → d ≤ L.length → (L.take d).all isKeyCharB = true →
        hasPref (P.take (L.length - d)) (L.drop d) = false)
    (hc3 : ∀ d, 1 ≤ d → d ≤ a → (P.take d).all isKeyCharB = true →
        hasPref ((P.drop d).take L.length) L = false)
    (rest : Str) : ¬ IsPref (k1 ++ P) (k2 ++ (L ++ rest)) := by
  intro h
  exact hne (key_align hk1 hk2 hPa hchi hL hc2 hc3 h).1

theorem layoutClassOf_key (layout : Str) : (layoutClassOf layout).all isKeyCharB = true := by
  simp only [layoutClassOf]
  split
  · decide
  · split
    · decide
    · decide

theorem contentClassOf_key (layout : Str) : (contentClassOf layout).all isKeyCharB = true := by
  simp only [contentClassOf]
  split
  · decide
  · split
    · decide
    · decide

/-- The chunk decomposition (fully right-nested, with the two `id="`
anchors split off as their own chunks) of a document holding exactly one
rendered category block and one rendered container block, both for key
`k2`. -/
def c10Chunks (k2 lc ac nm ds cc u2 dg : Str) : Str :=
  str "  <section class=\"" ++ (lc ++ (str " accent-" ++ (ac ++ (str "\" " ++
  (str "id=\"" ++ (k2 ++ (str "-section\">\n    <header class=\"" ++ (lc ++
  (str "__header\">\n      <div class=\"" ++ (lc ++ (str "__title\">" ++ (nm ++
  (str "</div>\n      <div class=\"" ++ (lc ++ (str "__meta\">" ++ (ds ++
  (str "</div>\n    </header>\n    <div class=\"" ++ (cc ++ (str "\">\n      <!-- " ++
  (u2 ++ (str "_LINKS_END -->\n    </div>\n  </section>" ++
  (str "<div class=\"layout-container layout-" ++ (dg ++ (str "col\" " ++
  (str "id=\"" ++ (k2 ++ (str "-container\">\n  <!-- Container: " ++ (k2 ++
  (str " -->\n  <!-- CONTAINER_" ++ (u2 ++ (str "_CONTENT_START -->\n  <!-- CONTAINER_" ++
  (u2 ++ (str "_CONTENT_END -->\n</div>\n\n" ++ ([] : Str))))))))))))))))))))))))))))))))))

/-- A token of the form `id="` ++ k1 ++ P (with P starting in key
characters and then leaving the key alphabet, as `-section"` and
`-container"` both do) occurs nowhere in such a document unless `k1`
aligns exactly with `k2` at one of the two genuine `id="` anchors. -/
theorem c10_spine {k1 P k2 lc ac nm ds cc u2 dg : Str}
    (hlc : lc.all isKeyCharB = true) (hac : ac.all isWordCharB = true)
    (hk2 : k2.all isKeyCharB = true) (hnm : nm.all htmlSafeB = true)
    (hds : ds.all htmlSafeB = true) (hcc : cc.all isKeyCharB = true)
    (hu2 : u2.all isUKeyCharB = true) (hdg : dg.all isDigitB = true)
    (hs1 : ∀ r, ¬ IsPref (k1 ++ P)
        (k2 ++ (str "-section\">\n    <header class=\"" ++ r)))
    (hs2 : ∀ r, ¬ IsPref (k1 ++ P)
        (k2 ++ (str "-container\">\n  <!-- Container: " ++ r))) :
    ∀ p, ¬ OccAt (str "id=\"" ++ (k1 ++ P)) (c10Chunks k2 lc ac nm ds cc u2 dg) p := by
  simp only [c10Chunks]
  apply noOcc_append
  · intro p hp
    exact cleanChunk_elim (by decide) hp
  apply noOcc_append
  · intro p hp
    refine varChunk_elim hlc idlit_2 (by decide) ?_ hp
    intro m h1 h2
    rcases (by omega : m = 1 ∨ m = 2) with rfl | rfl
    · exact isPref_head_ne pat_drop1 lit_head (by decide)
    · exact isPref_head_ne pat_drop2 lit_head (by decide)
  apply noOcc_append
  · intro p hp
    exact cleanChunk_elim (by decide) hp
  apply noOcc_append
  · intro p hp
    refine varChunk_elim hac idlit_2 (by decide) ?_ hp
    intro m h1 h2
    rcases (by omega : m = 1 ∨ m = 2) with rfl | rfl
    · exact isPref_head_ne pat_drop1 lit_head (by decide)
    · exact isPref_head_ne pat_drop2 lit_head (by decide)
  apply noOcc_append
  · intro p hp
    exact cleanChunk_elim (by decide) hp
  apply noOcc_append
  · intro p hp
    have hp4 : p < 4 := hp
    interval_cases p
    · intro h
      exact hs1 _ (isPref_cancel_left h)
    · exact isPref_head_ne pat_head pat_drop1 (by decide)
    · exact isPref_head_ne pat_head pat_drop2 (by decide)
    · exact isPref_head_ne pat_head pat_drop3 (by decide)
  apply noOcc_append
  · intro p hp
    refine varChunk_elim hk2 idlit_2 (by decide) ?_ hp
    intro m h1 h2
    rcases (by omega : m = 1 ∨ m = 2) with rfl | rfl
    · exact isPref_head_ne pat_drop1 lit_head (by decide)
    · exact isPref_head_ne pat_drop2 lit_head (by decide)
  apply noOcc_append
  · intro p hp
    exact cleanChunk_elim (by decide) hp
  apply noOcc_append
  · intro p hp
    refine varChunk_elim hlc idlit_2 (by decide) ?_ hp
    intro m h1 h2
    rcases (by omega : m = 1 ∨ m = 2) with rfl | rfl
    · exact isPref_head_ne pat_drop1 lit_head (by decide)
    · exact isPref_head_ne pat_drop2 lit_head (by decide)
  apply noOcc_append
  · intro p hp
    exact cleanChunk_elim (by decide) hp
  apply noOcc_append
  · intro p hp
    refine varChunk_elim hlc idlit_2 (by decide) ?_ hp
    intro m h1 h2
    rcases (by omega : m = 1 ∨ m = 2) with rfl | rfl
    · exact isPref_head_ne pat_drop1 lit_head (by decide)
    · exact isPref_head_ne pat_drop2 lit_head (by decide)
  apply noOcc_append
  · intro p hp
    exact cleanChunk_elim (by decide) hp
  apply noOcc_append
  · intro p hp
    refine varChunk_elim hnm idlit_3 (by decide) ?_ hp
    intro m h1 h2
    rcases (by omega : m = 1 ∨ m = 2 ∨ m = 3) with rfl | rfl | rfl
    · exact isPref_head_ne pat_drop1 lit_head (by decide)
    · exact isPref_head_ne pat_drop2 lit_head (by decide)
    · exact isPref_head_ne pat_drop3 lit_head (by decide)
  apply noOcc_append
  · intro p hp
    exact cleanChunk_elim (by decide) hp
  apply noOcc_append
  · intro p hp
    refine varChunk_elim hlc idlit_2 (by decide) ?_ hp
    intro m h1 h2
    rcases (by omega : m = 1 ∨ m = 2) with rfl | rfl
    · exact isPref_head_ne pat_drop1 lit_head (by decide)
    · exact isPref_head_ne pat_drop2 lit_head (by decide)
  apply noOcc_append
  · intro p hp
    exact cleanChunk_elim (by decide) hp
  apply noOcc_append
  · intro p hp
    refine varChunk_elim hds idlit_3 (by decide) ?_ hp
    intro m h1 h2
    rcases (by omega : m = 1 ∨ m = 2 ∨ m = 3) with rfl | rfl | rfl
    · exact isPref_head_ne pat_drop1 lit_head (by decide)
    · exact isPref_head_ne pat_drop2 lit_head (by decide)
    · exact isPref_head_ne pat_drop3 lit_head (by decide)
  apply noOcc_append
  · intro p hp
    exact cleanChunk_elim (by decide) hp
  apply noOcc_append
  · intro p hp
    refine varChunk_elim hcc idlit_2 (by decide) ?_ hp
    intro m h1 h2
    rcases (by omega : m = 1 ∨ m = 2) with rfl | rfl
    · exact isPref_head_ne pat_drop1 lit_head (by decide)
    · exact isPref_head_ne pat_drop2 lit_head (by decide)
  apply noOcc_append
  · intro p hp
    exact cleanChunk_elim (by decide) hp
  apply noOcc_append
  · intro p hp
    refine varChunk_elim hu2 idlit_0 (by decide) ?_ hp
    intro m h1 h2
    exact absurd (Nat.le_trans h1 h2) (by decide)
  apply noOcc_append
  · intro p hp
    exact cleanChunk_elim (by decide) hp
  apply noOcc_append
  · intro p hp
    exact cleanChunk_elim (by decide) hp
  apply noOcc_append
  · intro p hp
    refine varChunk_elim hdg idlit_0 (by decide) ?_ hp
    intro m h1 h2
    exact absurd (Nat.le_trans h1 h2) (by decide)
  apply noOcc_append
  · intro p hp
    exact cleanChunk_elim (by decide) hp
  apply noOcc_append
  · intro p hp
    have hp4 : p < 4 := hp
    interval_cases p
    · intro h
      exact hs2 _ (isPref_cancel_left h)
    · exact isPref_head_ne pat_head pat_drop1 (by decide)
    · exact isPref_head_ne pat_head pat_drop2 (by decide)
    · exact isPref_head_ne pat_head pat_drop3 (by decide)
  apply noOcc_append
  · intro p hp
    refine varChunk_elim hk2 idlit_2 (by decide) ?_ hp
    intro m h1 h2
    rcases (by omega : m = 1 ∨ m = 2) with rfl | rfl
    · exact isPref_head_ne pat_drop1 lit_head (by decide)
    · exact isPref_head_ne pat_drop2 lit_head (by decide)
  apply noOcc_append
  · intro p hp
    exact cleanChunk_elim (by decide) hp
  apply noOcc_append
  · intro p hp
    refine varChunk_elim hk2 idlit_2 (by decide) ?_ hp
    intro m h1 h2
    rcases (by omega : m = 1 ∨ m = 2) with rfl | rfl
    · exact isPref_head_ne pat_drop1 lit_head (by decide)
    · exact isPref_head_ne pat_drop2 lit_head (by decide)
  apply noOcc_append
  · intro p hp
    exact cleanChunk_elim (by decide) hp
  apply noOcc_append
  · intro p hp
    refine varChunk_elim hu2 idlit_0 (by decide) ?_ hp
    intro m h1 h2
    exact absurd (Nat.le_trans h1 h2) (by decide)
  apply noOcc_append
  · intro p hp
    exact cleanChunk_elim (by decide) hp
  apply noOcc_append
  · intro p hp
    refine varChunk_elim hu2 idlit_0 (by decide) ?_ hp
    intro m h1 h2
    exact absurd (Nat.le_trans h1 h2) (by decide)
  apply noOcc_append
  · intro p hp
    exact cleanChunk_elim (by decide) hp
  exact noOcc_nil (List.cons_ne_nil _ _)

/-! ## Claims -/

theorem isPref_extend_right {t s y : Str} (h : IsPref t s) : IsPref t (s ++ y) := by
  obtain ⟨r, rfl⟩ := h
  exact ⟨r ++ y, by rw [List.append_assoc]⟩

/-- Claim C2: `addLinkToCategory(tab, k1)` inserts the rendered link
fragment strictly before the first occurrence of `k1`'s own end-of-links
marker, renders it with the layout the Analyzer derived for `k1` (no
caller-supplied layout exists in the interface), and the insertion point
is never immediately before the marker of a category whose key properly
extends `k1` (e.g. `dev` vs `dev_tools`): that marker is not a prefix of
the document region starting at the insertion point. -/
theorem c2_addLink_inserts_before_own_marker
    (m : WikiContentManager) (tab : TabInfo) (k1 r : Str)
    (hk1 : k1.all isKeyCharB = true) (hr : r.all isKeyCharB = true) (hrn : r ≠ [])
    (m' : WikiContentManager) (h : addLinkToCategory m tab k1 = .ok m') :
    ∃ (cat : Category) (pre post : Str),
      cat ∈ extractCategories m.analyzerContent ∧ cat.key = k1 ∧
      m.content = pre ++ linksEndMarker k1 ++ post ∧
      (∀ q, q < pre.length → ¬ OccAt (linksEndMarker k1) m.content q) ∧
      m'.content = pre ++ linkTpl tab cat.layout ++ str "\n      " ++
        (linksEndMarker k1 ++ post) ∧
      ¬ IsPref (linksEndMarker (k1 ++ r)) (linksEndMarker k1 ++ post) := by
  rw [addLinkToCategory] at h
  split at h
  · exact absurd h (by simp)
  · split at h
    · exact absurd h (by simp)
    · rename_i cat hfind
      split at h
      · exact absurd h (by simp)
      · rename_i p hidx
        injection h with h
        subst h
        obtain ⟨hocc, hmin⟩ := indexOf?_spec hidx
        obtain ⟨post0, hpost⟩ := hocc
        have hdrop : m.content.drop p = linksEndMarker k1 ++ post0 := hpost.symm
        refine ⟨cat, m.content.take p, post0, ?_, ?_, ?_, ?_, ?_, ?_⟩
        · exact List.mem_of_find?_eq_some hfind
        · have hbeq := List.find?_some hfind
          exact eq_of_beq hbeq
        · conv_lhs => rw [← List.take_append_drop p m.content]
          rw [hdrop, ← List.append_assoc]
        · intro q hq
          apply hmin
          have hle : (m.content.take p).length ≤ p := by
            rw [List.length_take]
            omega
          omega
        · show m.content.take p ++ linkTpl tab cat.layout ++ str "\n      " ++
            m.content.drop p = _
          rw [hdrop]
        · exact linksEndMarker_extension_not_pref hk1 hr hrn post0

/-- The document used in the C2 witness: container `p` holding category
`dev` (cards) and category `dev_tools` (compact). -/
def c2doc : Str :=
  (okD (addCategory
    (okD (addCategory
      (okD (addContainer (mkManager []) (str "p") (str "P") 2))
      ⟨str "dev", str "Dev", str "d", str "cards", str "blue", str "p", 0⟩))
    ⟨str "dev_tools", str "Dev Tools", str "d", str "compact", str "green", str "p", 0⟩)).content

def c2tab : TabInfo :=
  ⟨str "https://x.test/", str "T", str "x.test", str "https://i.test/i.png"⟩

/-- Witness for C2 at a concrete input. -/
theorem c2_witness :
    ((str "dev").all isKeyCharB = true ∧ (str "_tools").all isKeyCharB = true ∧
      str "_tools" ≠ ([] : Str)) ∧
    (∃ (cat : Category) (pre post : Str),
      cat ∈ extractCategories (mkManager c2doc).analyzerContent ∧ cat.key = str "dev" ∧
      (mkManager c2doc).content = pre ++ linksEndMarker (str "dev") ++ post ∧
      (∀ q, q < pre.length →
        ¬ OccAt (linksEndMarker (str "dev")) (mkManager c2doc).content q) ∧
      (okD (addLinkToCategory (mkManager c2doc) c2tab (str "dev"))).content =
        pre ++ linkTpl c2tab cat.layout ++ str "\n      " ++
          (linksEndMarker (str "dev") ++ post) ∧
      ¬ IsPref (linksEndMarker (str "dev" ++ str "_tools"))
        (linksEndMarker (str "dev") ++ post)) := by
  refine ⟨⟨by decide, by decide, by decide⟩, ?_⟩
  exact c2_addLink_inserts_before_own_marker (mkManager c2doc) c2tab (str "dev") (str "_tools")
    (by decide) (by decide) (by decide) _ rfl

/-- A document built from the Renderer templates containing only the
blocks for one key: the rendered category block for `cat2` followed by
the rendered container block for `cat2.key`. -/
def c10Doc (cat2 : Category) (layout : Str) (cols : Nat) : Str :=
  categoryTpl cat2 layout ++ containerTpl cat2.key cols

/-- Claim C10: the existence checks are delimiter-anchored and therefore
prefix- and suffix-safe.  For distinct keys `k1`, `k2` with `k1` a prefix
or suffix of `k2`, a document built from the Renderer templates that
contains only the block for `k2` yields `categoryExists k1 = false` and
`containerExists k1 = false`: the searched token includes the leading
`id="` quote and the trailing `-section"` / `-container"` delimiter. -/
theorem c10_exists_checks_delimiter_anchored
    (k1 k2 : Str) (hk1 : k1.all isKeyCharB = true) (hk2 : k2.all isKeyCharB = true)
    (hne : k1 ≠ k2)
    (hps : (∃ r, k2 = k1 ++ r) ∨ (∃ l, k2 = l ++ k1))
    (cat2 : Category) (hkey : cat2.key = k2)
    (hac : cat2.accent.all isWordCharB = true)
    (layout : Str) (cols : Nat) :
    categoryExists (c10Doc cat2 layout cols) k1 = false ∧
    containerExists (c10Doc cat2 layout cols) k1 = false := by
  have hdoc : c10Doc cat2 layout cols =
      c10Chunks k2 (layoutClassOf layout) cat2.accent (escapeHtml cat2.name)
        (escapeHtml cat2.description) (contentClassOf layout) (jsToUpper k2)
        (natToChars cols) := by
    simp only [c10Doc, categoryTpl, containerTpl, hkey, c10Chunks, List.append_assoc]
    rfl
  constructor
  · rw [categoryExists, hdoc, occursB_eq_false_iff]
    have hT : sectionToken k1 = str "id=\"" ++ (k1 ++ str "-section\"") := by
      rw [sectionToken, List.append_assoc]
    rw [hT]
    exact c10_spine (layoutClassOf_key layout) hac hk2
      (escapeHtml_all_safe cat2.name) (escapeHtml_all_safe cat2.description)
      (contentClassOf_key layout) (jsToUpper_all_ukey hk2) (natToChars_all_digits cols)
      (fun r => key_site_elim hk1 hk2 hne
        (show (str "-section\"")[8]? = some '"' by decide)
        (by decide) (by decide) (by decide) (by decide) r)
      (fun r => key_site_elim hk1 hk2 hne
        (show (str "-section\"")[8]? = some '"' by decide)
        (by decide) (by decide) (by decide) (by decide) r)
  · rw [containerExists, hdoc, occursB_eq_false_iff]
    have hT : containerToken k1 = str "id=\"" ++ (k1 ++ str "-container\"") := by
      rw [containerToken, List.append_assoc]
    rw [hT]
    exact c10_spine (layoutClassOf_key layout) hac hk2
      (escapeHtml_all_safe cat2.name) (escapeHtml_all_safe cat2.description)
      (contentClassOf_key layout) (jsToUpper_all_ukey hk2) (natToChars_all_digits cols)
      (fun r => key_site_elim hk1 hk2 hne
        (show (str "-container\"")[10]? = some '"' by decide)
        (by decide) (by decide) (by decide) (by decide) r)
      (fun r => key_site_elim hk1 hk2 hne
        (show (str "-container\"")[10]? = some '"' by decide)
        (by decide) (by decide) (by decide) (by decide) r)

/-- Witness for C10 at concrete keys `dev` / `dev_tools`. -/
theorem c10_witness :
    ((str "dev").all isKeyCharB = true ∧ (str "dev_tools").all isKeyCharB = true ∧
      str "dev" ≠ str "dev_tools" ∧
      ((∃ r, str "dev_tools" = str "dev" ++ r) ∨ (∃ l, str "dev_tools" = l ++ str "dev")) ∧
      (⟨str "dev_tools", str "Dev Tools", str "d", str "cards", str "blue", str "p",
        0⟩ : Category).key = str "dev_tools" ∧
      (str "blue").all isWordCharB = true) ∧
    (categoryExists (c10Doc ⟨str "dev_tools", str "Dev Tools", str "d", str "cards",
        str "blue", str "p", 0⟩ (str "cards") 3) (str "dev") = false ∧
      containerExists (c10Doc ⟨str "dev_tools", str "Dev Tools", str "d", str "cards",
        str "blue", str "p", 0⟩ (str "cards") 3) (str "dev") = false) := by
  refine ⟨⟨by decide, by decide, by decide, Or.inl ⟨str "_tools", by decide⟩, rfl,
    by decide⟩, ?_⟩
  exact c10_exists_checks_delimiter_anchored (str "dev") (str "dev_tools") (by decide)
    (by decide) (by decide) (Or.inl ⟨str "_tools", by decide⟩) _ rfl (by decide)
    (str "cards") 3

/-! ### Idempotence of the per-category link-removal step (claim C3 support) -/

theorem all_mono {p q : Char → Bool} (h : ∀ ch, p ch = true → q ch = true) {l : Str}
    (hl : l.all p = true) : l.all q = true := by
  rw [List.all_eq_true] at hl ⊢
  intro ch hch
  exact h ch (hl ch hch)

theorem occAt_lt_length {t s : Str} {p : Nat} (ht : t ≠ []) (h : OccAt t s p) :
    p < s.length := by
  obtain ⟨r, hr⟩ := h
  have hlen := congrArg List.length hr
  rw [List.length_append, List.length_drop] at hlen
  have ht1 : 1 ≤ t.length := by
    cases t with
    | nil => exact absurd rfl ht
    | cons a u => simp
  omega

theorem indexOf?_eq_some_of {pat s : Str} {p : Nat}
    (h1 : OccAt pat s p) (h2 : ∀ q, q < p → ¬ OccAt pat s q) :
    indexOf? pat s = some p := by
  cases h : indexOf? pat s with
  | none => exact absurd h1 (indexOf?_eq_none_iff.mp h p)
  | some q =>
    obtain ⟨hq, hmin⟩ := indexOf?_spec h
    have hqe : q = p := by
      rcases Nat.lt_trichotomy q p with hlt | he | hgt
      · exact absurd hq (h2 q hlt)
      · exact he
      · exact absurd h1 (hmin p hgt)
    rw [hqe]

theorem lastIndexOf?_eq_some_of {pat s : Str} {p : Nat} (hpat : pat ≠ [])
    (h1 : OccAt pat s p) (h2 : ∀ q, OccAt pat s q → q ≤ p) :
    lastIndexOf? pat s = some p := by
  cases h : lastIndexOf? pat s with
  | none => exact absurd h1 (lastIndexOf?_eq_none_iff.mp h p)
  | some q =>
    obtain ⟨hq, hmax⟩ := lastIndexOf?_spec hpat h
    have hqe : q = p := Nat.le_antisymm (h2 q hq) (hmax p h1)
    rw [hqe]

theorem isPref_append_left {t x y : Str} (h : IsPref t (x ++ y)) (hl : t.length ≤ x.length) :
    IsPref t x := by
  obtain ⟨r, hr⟩ := h
  refine ⟨r.take (x.length - t.length), ?_⟩
  have h2 := congrArg (List.take x.length) hr
  rw [List.take_append_eq_append_take, List.take_of_length_le hl, List.take_left] at h2
  exact h2

theorem isPref_of_take {t s : Str} {n : Nat} (h : IsPref t (s.take n)) : IsPref t s := by
  obtain ⟨r, hr⟩ := h
  exact ⟨r ++ s.drop n, by rw [← List.append_assoc, hr, List.take_append_drop]⟩

theorem occAt_extend {t x y : Str} {q : Nat} (hq : q ≤ x.length) (h : OccAt t x q) :
    OccAt t (x ++ y) q := by
  rw [OccAt, List.drop_append_eq_append_drop, Nat.sub_eq_zero_of_le hq, List.drop_zero]
  exact isPref_extend_right h

theorem indexOf?_char {ch : Char} {x rest : Str}
    (hx : x.all (fun c => !(c = ch)) = true) :
    indexOf? [ch] (x ++ ch :: rest) = some x.length := by
  apply indexOf?_eq_some_of
  · rw [OccAt, List.drop_left]
    exact ⟨rest, rfl⟩
  · intro q hq hocc
    obtain ⟨r, hr⟩ := hocc
    have h0 : ((x ++ ch :: rest).drop q)[0]? = some ch := by
      rw [← hr]
      exact List.getElem?_cons_zero
    rw [List.getElem?_drop, Nat.add_zero, List.getElem?_append_left hq] at h0
    have h2 := all_getElem? hx h0
    simp at h2

theorem linksEndMarker_ne_nil (k : Str) : linksEndMarker k ≠ [] := by
  intro h
  have h2 := congrArg List.length h
  rw [linksEndMarker, List.length_append, List.length_append] at h2
  have e1 : (str "<!-- ").length = 5 := rfl
  have e2 : (str "_LINKS_END -->").length = 14 := rfl
  simp only [List.length_nil] at h2
  omega

theorem linksEndMarker_head (k : Str) : (linksEndMarker k)[0]? = some '<' := by
  rw [linksEndMarker, List.append_assoc]
  exact lit_head

theorem linksEndMarker_noNl {k : Str} (hk : k.all isKeyCharB = true) :
    (linksEndMarker k).all (fun ch => !(ch = '\n')) = true := by
  have hU : (jsToUpper k).all (fun ch => !(ch = '\n')) = true := by
    refine all_mono ?_ (jsToUpper_all_ukey hk)
    intro ch hch
    rcases eq_or_ne ch '\n' with rfl | hne
    · exact absurd hch (by decide)
    · simp [hne]
  rw [linksEndMarker, List.all_append, List.all_append, hU,
    show (str "<!-- ").all (fun ch => !(ch = '\n')) = true from by decide,
    show (str "_LINKS_END -->").all (fun ch => !(ch = '\n')) = true from by decide]
  rfl

theorem wrapperOf_decomp (layout : Str) :
    ∃ wrb, wrapperOf layout = wrb ++ ['>'] ∧
      wrb.all (fun ch => !(ch = '>')) = true ∧
      (wrb ++ ['>']).all (fun ch => !(ch = '\n')) = true ∧
      (wrb ++ ['>'])[0]? = some '<' := by
  by_cases h1 : layout = str "compact"
  · rw [wrapperOf, if_pos h1]
    exact ⟨str "<div class=\"compact-links\"", by decide, by decide, by decide, by decide⟩
  · by_cases h2 : layout = str "large"
    · rw [wrapperOf, if_neg h1, if_pos h2]
      exact ⟨str "<div class=\"large-links\"", by decide, by decide, by decide, by decide⟩
    · rw [wrapperOf, if_neg h1, if_neg h2]
      exact ⟨str "<div class=\"links\"", by decide, by decide, by decide, by decide⟩

theorem removeLinksStep_none1 (c : Str) (cat : Category)
    (h : indexOf? (linksEndMarker cat.key) c = none) : removeLinksStep c cat = c := by
  simp only [removeLinksStep, h]

theorem removeLinksStep_none2 (c : Str) (cat : Category) {mp : Nat}
    (h1 : indexOf? (linksEndMarker cat.key) c = some mp)
    (h2 : lastIndexOf? (wrapperOf cat.layout) (c.take mp) = none) :
    removeLinksStep c cat = c := by
  simp only [removeLinksStep, h1, h2]

theorem removeLinksStep_some (c : Str) (cat : Category) {mp ws i : Nat}
    (h1 : indexOf? (linksEndMarker cat.key) c = some mp)
    (h2 : lastIndexOf? (wrapperOf cat.layout) (c.take mp) = some ws)
    (h3 : indexOfCharFrom? '>' ws c = some i) :
    removeLinksStep c cat = c.take (i + 1) ++ str "\n      " ++ c.drop mp := by
  simp only [removeLinksStep, h1, h2, h3]

/-- Core normalization facts behind the idempotence of one
`removeAllLinks` iteration: after the region between the last wrapper and
the first end-marker is replaced by `"\n      "`, the first marker, the
last wrapper and the following `>` are all found at the corresponding
positions again, so a second pass reproduces the same document. -/
theorem step_core {c M wrb : Str} {mp ws : Nat}
    (hMne : M ≠ []) (hMlt : M[0]? = some '<')
    (hMnl : M.all (fun ch => !(ch = '\n')) = true)
    (hwrb : wrb.all (fun ch => !(ch = '>')) = true)
    (hwrnl : (wrb ++ ['>']).all (fun ch => !(ch = '\n')) = true)
    (hwrlt : (wrb ++ ['>'])[0]? = some '<')
    (hidx : indexOf? M c = some mp)
    (hlast : lastIndexOf? (wrb ++ ['>']) (c.take mp) = some ws) :
    indexOfCharFrom? '>' ws c = some (wrb.length + ws) ∧
    indexOf? M (c.take (wrb.length + ws + 1) ++ (str "\n      " ++ c.drop mp)) =
      some (wrb.length + ws + 8) ∧
    lastIndexOf? (wrb ++ ['>'])
      ((c.take (wrb.length + ws + 1) ++ (str "\n      " ++ c.drop mp)).take
        (wrb.length + ws + 8)) = some ws ∧
    indexOfCharFrom? '>' ws (c.take (wrb.length + ws + 1) ++ (str "\n      " ++ c.drop mp)) =
      some (wrb.length + ws) ∧
    (c.take (wrb.length + ws + 1) ++ (str "\n      " ++ c.drop mp)).take
      (wrb.length + ws + 1) = c.take (wrb.length + ws + 1) ∧
    (c.take (wrb.length + ws + 1) ++ (str "\n      " ++ c.drop mp)).drop
      (wrb.length + ws + 8) = c.drop mp := by
  obtain ⟨hoccM, hminM⟩ := indexOf?_spec hidx
  have hone : (['>'] : Str).length = 1 := rfl
  have hwrne : wrb ++ ['>'] ≠ [] := List.append_ne_nil_of_right_ne_nil wrb (by simp)
  obtain ⟨hoccW, hmaxW⟩ := lastIndexOf?_spec hwrne hlast
  have hmp : mp < c.length := occAt_lt_length hMne hoccM
  have hwslen : ws + (wrb.length + 1) ≤ mp := by
    have h1 : (wrb ++ ['>']).length ≤ ((c.take mp).drop ws).length := IsPref.length_le hoccW
    rw [List.length_append, List.length_drop, List.length_take, hone] at h1
    omega
  have hdropws : ∃ tl, wrb ++ '>' :: tl = c.drop ws := by
    have h1 : IsPref (wrb ++ ['>']) ((c.drop ws).take (mp - ws)) := by
      have h0 : IsPref (wrb ++ ['>']) ((c.take mp).drop ws) := hoccW
      rw [List.drop_take] at h0
      exact h0
    obtain ⟨tl, htl⟩ := isPref_of_take h1
    exact ⟨tl, by rw [← htl, List.append_assoc, List.singleton_append]⟩
  obtain ⟨tl, htl⟩ := hdropws
  have hlenA : (c.take (wrb.length + ws + 1)).length = wrb.length + ws + 1 := by
    rw [List.length_take]
    omega
  have hlenS : (str "\n      ").length = 7 := rfl
  have hC1 : indexOfCharFrom? '>' ws c = some (wrb.length + ws) := by
    have h1 : indexOf? ['>'] (c.drop ws) = some wrb.length := by
      rw [← htl]
      exact indexOf?_char hwrb
    rw [indexOfCharFrom?, h1]
    rfl
  have hC5 : (c.take (wrb.length + ws + 1) ++ (str "\n      " ++ c.drop mp)).take
      (wrb.length + ws + 1) = c.take (wrb.length + ws + 1) := List.take_left' hlenA
  have hC6 : (c.take (wrb.length + ws + 1) ++ (str "\n      " ++ c.drop mp)).drop
      (wrb.length + ws + 8) = c.drop mp := by
    rw [List.drop_append_eq_append_drop,
      List.drop_eq_nil_of_le (show (c.take (wrb.length + ws + 1)).length ≤
        wrb.length + ws + 8 by rw [hlenA]; omega),
      List.nil_append, hlenA,
      show wrb.length + ws + 8 - (wrb.length + ws + 1) = 7 from by omega]
    exact List.drop_left' hlenS
  have hC2 : indexOf? M (c.take (wrb.length + ws + 1) ++ (str "\n      " ++ c.drop mp)) =
      some (wrb.length + ws + 8) := by
    apply indexOf?_eq_some_of
    · show IsPref M ((c.take (wrb.length + ws + 1) ++
        (str "\n      " ++ c.drop mp)).drop (wrb.length + ws + 8))
      rw [hC6]
      exact hoccM
    · intro q hq hocc
      have hI : IsPref M ((c.take (wrb.length + ws + 1) ++
          (str "\n      " ++ c.drop mp)).drop q) := hocc
      have h0 : 0 < M.length := List.length_pos.mpr hMne
      rcases Nat.lt_or_ge q (wrb.length + ws + 1) with hq1 | hq1
      · rcases le_or_lt (q + M.length) (wrb.length + ws + 1) with hfit | hfit
        · rw [List.drop_append_eq_append_drop, Nat.sub_eq_zero_of_le (by omega),
            List.drop_zero] at hI
          have h2 := isPref_append_left hI (by rw [List.length_drop, hlenA]; omega)
          rw [List.drop_take] at h2
          have h3 := isPref_of_take h2
          exact hminM q (by omega) h3
        · have hb : wrb.length + ws + 1 - q < M.length := by omega
          have h1 := hI.getElem_eq (i := wrb.length + ws + 1 - q) hb
          rw [List.getElem?_drop,
            show q + (wrb.length + ws + 1 - q) = wrb.length + ws + 1 from by omega] at h1
          have h2 : (c.take (wrb.length + ws + 1) ++
              (str "\n      " ++ c.drop mp))[wrb.length + ws + 1]? = some '\n' := by
            rw [List.getElem?_append_right (le_of_eq hlenA), hlenA, Nat.sub_self]
            exact lit_head
          rw [h2] at h1
          have h3 := all_getElem? hMnl h1.symm
          simp at h3
      · have h1 := hI.getElem_eq (i := 0) h0
        rw [List.getElem?_drop, Nat.add_zero, hMlt] at h1
        have e1 : (c.take (wrb.length + ws + 1) ++ (str "\n      " ++ c.drop mp))[q]? =
            (str "\n      " ++ c.drop mp)[q - (c.take (wrb.length + ws + 1)).length]? :=
          List.getElem?_append_right (by rw [hlenA]; omega)
        rw [hlenA] at e1
        have e2 : (str "\n      " ++ c.drop mp)[q - (wrb.length + ws + 1)]? =
            (str "\n      ")[q - (wrb.length + ws + 1)]? :=
          List.getElem?_append_left (by rw [hlenS]; omega)
        have h2 : (str "\n      ")[q - (wrb.length + ws + 1)]? = some '<' := by
          rw [← e2, ← e1]
          exact h1
        have h3 := all_getElem?
          (show (str "\n      ").all (fun ch => !(ch = '<')) = true from by decide) h2
        simp at h3
  have htake7 : (c.take (wrb.length + ws + 1) ++ (str "\n      " ++ c.drop mp)).take
      (wrb.length + ws + 8) = c.take (wrb.length + ws + 1) ++ str "\n      " := by
    rw [List.take_append_eq_append_take,
      List.take_of_length_le (show (c.take (wrb.length + ws + 1)).length ≤
        wrb.length + ws + 8 by rw [hlenA]; omega),
      hlenA, show wrb.length + ws + 8 - (wrb.length + ws + 1) = 7 from by omega,
      List.take_append_eq_append_take, List.take_of_length_le (le_of_eq hlenS),
      hlenS, Nat.sub_self, List.take_zero, List.append_nil]
  have hAws : (c.take (wrb.length + ws + 1)).drop ws = wrb ++ ['>'] := by
    rw [List.drop_take, ← htl,
      show wrb.length + ws + 1 - ws = wrb.length + 1 from by omega,
      List.take_append_eq_append_take, List.take_of_length_le (by omega),
      show wrb.length + 1 - wrb.length = 1 from by omega,
      List.take_succ_cons, List.take_zero]
  have hC3 : lastIndexOf? (wrb ++ ['>'])
      ((c.take (wrb.length + ws + 1) ++ (str "\n      " ++ c.drop mp)).take
        (wrb.length + ws + 8)) = some ws := by
    rw [htake7]
    apply lastIndexOf?_eq_some_of hwrne
    · apply occAt_extend (by rw [hlenA]; omega)
      rw [OccAt, hAws]
      exact ⟨[], List.append_nil _⟩
    · intro q hq
      by_contra hgt
      push_neg at hgt
      have hqlt : q < wrb.length + ws + 8 := by
        have h1 := occAt_lt_length hwrne hq
        rw [List.length_append, hlenA, hlenS] at h1
        omega
      have hI : IsPref (wrb ++ ['>'])
          ((c.take (wrb.length + ws + 1) ++ str "\n      ").drop q) := hq
      rcases Nat.lt_or_ge q (wrb.length + ws + 1) with hq1 | hq1
      · rcases le_or_lt (q + (wrb.length + 1)) (wrb.length + ws + 1) with hfit | hfit
        · rw [List.drop_append_eq_append_drop, Nat.sub_eq_zero_of_le (by omega),
            List.drop_zero] at hI
          have h2 := isPref_append_left hI
            (by rw [List.length_append, List.length_drop, hlenA, hone]; omega)
          have e1 : c.take (wrb.length + ws + 1) = (c.take mp).take (wrb.length + ws + 1) := by
            rw [List.take_take, Nat.min_eq_left (by omega)]
          rw [e1, List.drop_take] at h2
          have h3 := isPref_of_take h2
          have h4 := hmaxW q h3
          omega
        · have hb : wrb.length + ws + 1 - q < (wrb ++ ['>']).length := by
            rw [List.length_append, hone]
            omega
          have h1 := hI.getElem_eq (i := wrb.length + ws + 1 - q) hb
          rw [List.getElem?_drop,
            show q + (wrb.length + ws + 1 - q) = wrb.length + ws + 1 from by omega] at h1
          have h2 : (c.take (wrb.length + ws + 1) ++ str "\n      ")[wrb.length + ws + 1]? =
              some '\n' := by
            rw [List.getElem?_append_right (le_of_eq hlenA), hlenA, Nat.sub_self]
            rfl
          rw [h2] at h1
          have h3 := all_getElem? hwrnl h1.symm
          simp at h3
      · have h0 : 0 < (wrb ++ ['>']).length := by
          rw [List.length_append, hone]
          omega
        have h1 := hI.getElem_eq (i := 0) h0
        rw [List.getElem?_drop, Nat.add_zero, hwrlt] at h1
        have e1 : (c.take (wrb.length + ws + 1) ++ str "\n      ")[q]? =
            (str "\n      ")[q - (c.take (wrb.length + ws + 1)).length]? :=
          List.getElem?_append_right (by rw [hlenA]; omega)
        rw [hlenA] at e1
        have h2 : (str "\n      ")[q - (wrb.length + ws + 1)]? = some '<' := by
          rw [← e1]
          exact h1
        have h3 := all_getElem?
          (show (str "\n      ").all (fun ch => !(ch = '<')) = true from by decide) h2
        simp at h3
  have hC4 : indexOfCharFrom? '>' ws
      (c.take (wrb.length + ws + 1) ++ (str "\n      " ++ c.drop mp)) =
      some (wrb.length + ws) := by
    have e1 : (c.take (wrb.length + ws + 1) ++ (str "\n      " ++ c.drop mp)).drop ws =
        wrb ++ '>' :: (str "\n      " ++ c.drop mp) := by
      rw [List.drop_append_eq_append_drop,
        Nat.sub_eq_zero_of_le (show ws ≤ (c.take (wrb.length + ws + 1)).length by
          rw [hlenA]; omega),
        List.drop_zero, hAws, List.append_assoc, List.singleton_append]
    have h1 : indexOf? ['>']
        ((c.take (wrb.length + ws + 1) ++ (str "\n      " ++ c.drop mp)).drop ws) =
        some wrb.length := by
      rw [e1]
      exact indexOf?_char hwrb
    rw [indexOfCharFrom?, h1]
    rfl
  exact ⟨hC1, hC2, hC3, hC4, hC5, hC6⟩

/-- Each individual per-category removal of `removeAllLinks` is
idempotent: running the step a second time for the same category is a
no-op. -/
theorem removeLinksStep_idem (c : Str) (cat : Category)
    (hkey : cat.key.all isKeyCharB = true) :
    removeLinksStep (removeLinksStep c cat) cat = removeLinksStep c cat := by
  cases hidx : indexOf? (linksEndMarker cat.key) c with
  | none =>
    have h0 := removeLinksStep_none1 c cat hidx
    rw [h0]
    exact h0
  | some mp =>
    cases hlast : lastIndexOf? (wrapperOf cat.layout) (c.take mp) with
    | none =>
      have h0 := removeLinksStep_none2 c cat hidx hlast
      rw [h0]
      exact h0
    | some ws =>
      obtain ⟨wrb, hwr, hwrb, hwrnl, hwrlt⟩ := wrapperOf_decomp cat.layout
      rw [hwr] at hlast
      obtain ⟨hC1, hC2, hC3, hC4, hC5, hC6⟩ := step_core (linksEndMarker_ne_nil cat.key)
        (linksEndMarker_head cat.key) (linksEndMarker_noNl hkey) hwrb hwrnl hwrlt hidx hlast
      have hs1 : removeLinksStep c cat =
          c.take (wrb.length + ws + 1) ++ str "\n      " ++ c.drop mp :=
        removeLinksStep_some c cat hidx (by rw [hwr]; exact hlast) hC1
      have hassoc : c.take (wrb.length + ws + 1) ++ str "\n      " ++ c.drop mp =
          c.take (wrb.length + ws + 1) ++ (str "\n      " ++ c.drop mp) :=
        List.append_assoc _ _ _
      have hs2 : removeLinksStep
          (c.take (wrb.length + ws + 1) ++ str "\n      " ++ c.drop mp) cat =
          c.take (wrb.length + ws + 1) ++ str "\n      " ++ c.drop mp := by
        rw [hassoc]
        rw [removeLinksStep_some _ cat hC2 (by rw [hwr]; exact hC3) hC4]
        rw [hC5, hC6]
        exact List.append_assoc _ _ _
      rw [hs1, hs2]

/-- A document holding a stray duplicate of the end-of-links marker of
category `a` (and a stray `b` marker) ahead of the genuine rendered
sections: the first `removeAllLinks` pass works on the stray markers (the
`b` pass even deletes the stray `a` marker), leaving the junk in the
genuine links area of `a` untouched; a second pass then finds the genuine
marker and removes that junk, so the two results differ. -/
def c3doc : Str :=
  str "<div class=\"links\">xx<!-- A_LINKS_END -->yy<!-- B_LINKS_END -->" ++
  str "<section class=\"section-card accent-blue\" id=\"a-section\"><div class=\"links\">JUNK<!-- A_LINKS_END -->" ++
  str "<section class=\"section-card accent-red\" id=\"b-section\">"

/-- Claim C3 counterexample: `removeAllLinks` is not idempotent for every
document; on `c3doc` the second application changes the content again. -/
theorem c3_counterexample :
    removeAllLinks (removeAllLinks (mkManager c3doc)) ≠ removeAllLinks (mkManager c3doc) := by
  decide

/-- Claim C3 (amended): `removeAllLinks` is idempotent on every document
on which the analyzer finds a single category (with a well-formed key)
and still finds exactly that category after the first pass — in
particular the stray-duplicate-marker interference of the counterexample
is the only failure mode; each per-category step is idempotent by
`removeLinksStep_idem`. -/
theorem c3_amended_idempotent_single_category
    (m : WikiContentManager) (cat : Category)
    (hkey : cat.key.all isKeyCharB = true)
    (hcats : extractCategories m.analyzerContent = [cat])
    (hstab : extractCategories (removeAllLinks m).analyzerContent = [cat]) :
    removeAllLinks (removeAllLinks m) = removeAllLinks m := by
  have h1 : removeAllLinks m =
      ⟨removeLinksStep m.content cat, removeLinksStep m.content cat⟩ := by
    simp only [removeAllLinks, hcats, List.foldl_cons, List.foldl_nil]
  have hstab' : extractCategories (removeLinksStep m.content cat) = [cat] := by
    rw [h1] at hstab
    exact hstab
  calc removeAllLinks (removeAllLinks m)
      = removeAllLinks ⟨removeLinksStep m.content cat, removeLinksStep m.content cat⟩ := by
        rw [h1]
    _ = ⟨removeLinksStep (removeLinksStep m.content cat) cat,
         removeLinksStep (removeLinksStep m.content cat) cat⟩ := by
        simp only [removeAllLinks, hstab', List.foldl_cons, List.foldl_nil]
    _ = ⟨removeLinksStep m.content cat, removeLinksStep m.content cat⟩ := by
        rw [removeLinksStep_idem m.content cat hkey]
    _ = removeAllLinks m := h1.symm

/-- A clean single-category document for the amended C3 witness. -/
def c3wdoc : Str :=
  str "<section class=\"section-card accent-blue\" id=\"a-section\"><div class=\"links\">JUNK<!-- A_LINKS_END -->"

/-- The category the analyzer extracts from `c3wdoc`. -/
def c3wcat : Category :=
  ⟨str "a", str "a", [], str "cards", str "blue", str "unknown", 0⟩

/-- Witness for the amended C3 theorem at a concrete document. -/
theorem c3_amended_witness :
    ((c3wcat.key.all isKeyCharB = true) ∧
      extractCategories (mkManager c3wdoc).analyzerContent = [c3wcat] ∧
      extractCategories (removeAllLinks (mkManager c3wdoc)).analyzerContent = [c3wcat]) ∧
    removeAllLinks (removeAllLinks (mkManager c3wdoc)) = removeAllLinks (mkManager c3wdoc) := by
  refine ⟨⟨by decide, by decide, by decide⟩, ?_⟩
  exact c3_amended_idempotent_single_category (mkManager c3wdoc) c3wcat
    (by decide) (by decide) (by decide)

/-! ### Symbolic evaluation of the analyzer scanners (claim C1 support) -/

theorem hasPref_eq_false_iff {pat s : Str} : hasPref pat s = false ↔ ¬ IsPref pat s := by
  constructor
  · intro h hI
    have h2 := hasPref_iff.mpr hI
    rw [h] at h2
    cases h2
  · intro h
    cases hb : hasPref pat s with
    | false => rfl
    | true => exact absurd (hasPref_iff.mp hb) h

theorem takeWhile_exact {p : Char → Bool} {x : Str} {c : Char} {y : Str}
    (hx : x.all p = true) (hc : p c = false) :
    (x ++ c :: y).takeWhile p = x := by
  induction x with
  | nil => simp [List.takeWhile_cons, hc]
  | cons a t ih =>
    rw [List.all_cons, Bool.and_eq_true] at hx
    simp [List.takeWhile_cons, hx.1, ih hx.2]

theorem dropLit_prefix (lit x : Str) : dropLit lit (lit ++ x) = some x :=
  dropLit_eq_some.mpr rfl

theorem isEmpty_false_of_ne_nil {l : Str} (h : l ≠ []) : l.isEmpty = false := by
  cases hb : l.isEmpty with
  | false => rfl
  | true => exact absurd (List.isEmpty_iff.mp hb) h

theorem isPref_ne_at {t s : Str} {i : Nat} {a b : Char}
    (ht : t[i]? = some a) (hs : s[i]? = some b) (hne : (a = b) → False) : ¬ IsPref t s := by
  intro h
  have hi : i < t.length := by
    by_contra hx
    rw [List.getElem?_eq_none (by omega)] at ht
    cases ht
  have h1 := h.getElem_eq (i := i) hi
  rw [ht, hs] at h1
  injection h1 with h1
  exact hne h1.symm

theorem cleanChunk_elim_lit {T x : Str} (hclean : cleanChunkB T x = true) {y : Str} {p : Nat}
    (hp : p < x.length) : ¬ IsPref T ((x ++ y).drop p) := by
  intro h
  have h2 : IsPref (T ++ []) ((x ++ y).drop p) := by rwa [List.append_nil]
  exact cleanChunk_elim hclean hp h2

theorem varChunk_elim_lit {C : Char → Bool} {v : Str} (hv : v.all C = true) {T y : Str}
    {chi : Char} (hT : T[0]? = some chi) (hchi : C chi = false) {p : Nat}
    (hp : p < v.length) : ¬ IsPref T ((v ++ y).drop p) := by
  intro h
  have h0 : 0 < T.length := by
    by_contra hx
    rw [List.getElem?_eq_none (by omega)] at hT
    cases hT
  have h1 := h.getElem_eq (i := 0) h0
  rw [List.getElem?_drop, Nat.add_zero, hT, List.getElem?_append_left hp] at h1
  have h2 := all_getElem? hv h1
  rw [hchi] at h2
  cases h2

theorem pref_chunks {t c m y : Str}
    (hc : ∀ p, p < c.length → ¬ IsPref t ((c ++ (m ++ y)).drop p))
    (hm : ∀ p, p < m.length → ¬ IsPref t ((m ++ y).drop p)) :
    ∀ p, p < (c ++ m).length → ¬ IsPref t (((c ++ m) ++ y).drop p) := by
  intro p hp
  rw [List.append_assoc]
  rcases Nat.lt_or_ge p c.length with h1 | h1
  · exact hc p h1
  · intro hI
    rw [List.drop_append_eq_append_drop, List.drop_eq_nil_of_le h1, List.nil_append] at hI
    refine hm (p - c.length) ?_ hI
    rw [List.length_append] at hp
    omega

theorem occAt_at_split {t X Y : Str} (h : IsPref t Y) : OccAt t (X ++ Y) X.length := by
  rw [OccAt, List.drop_left]
  exact h

theorem bool_class_mono {p : Char → Bool} {bad : Char} (hbad : p bad = false) :
    ∀ c, p c = true → (!(c = bad)) = true := by
  intro c hc
  rcases eq_or_ne c bad with rfl | hne
  · rw [hbad] at hc
    cases hc
  · simp [hne]

/-- Characters that keep a raw URL inert for the analyzer: no `<`. -/
def noTagB (c : Char) : Bool := !(c = '<')

theorem hexDigitChar_noTag {m : Nat} (hm : m < 16) : noTagB (hexDigitChar m) = true := by
  interval_cases m <;> decide

theorem char_toNat_lt (c : Char) : c.toNat < 1114112 := by
  have h : c.val.toNat < 55296 ∨ (57344 ≤ c.val.toNat ∧ c.val.toNat < 1114112) := c.valid
  show c.val.toNat < 1114112
  omega

theorem utf8Bytes_lt (c : Char) : ∀ b ∈ utf8Bytes c, b < 256 := by
  intro b hb
  have hc := char_toNat_lt c
  rw [utf8Bytes] at hb
  split at hb
  · simp only [List.mem_singleton] at hb
    omega
  · split at hb
    · simp only [List.mem_cons, List.not_mem_nil, or_false] at hb
      rcases hb with rfl | rfl <;> omega
    · split at hb
      · simp only [List.mem_cons, List.not_mem_nil, or_false] at hb
        rcases hb with rfl | rfl | rfl <;> omega
      · simp only [List.mem_cons, List.not_mem_nil, or_false] at hb
        rcases hb with rfl | rfl | rfl | rfl <;> omega

theorem foldr_percent_noTag {bs : List Nat} (hb : ∀ b ∈ bs, b < 256) :
    (bs.foldr (fun b acc => percentByte b ++ acc) []).all noTagB = true := by
  induction bs with
  | nil => rfl
  | cons b bt ih =>
    rw [List.foldr_cons, List.all_append,
      ih (fun x hx => hb x (List.mem_cons_of_mem b hx)), Bool.and_true]
    have hblt := hb b (List.mem_cons_self b bt)
    show (noTagB '%' && (noTagB (hexDigitChar (b / 16)) &&
      (noTagB (hexDigitChar (b % 16)) && true))) = true
    rw [hexDigitChar_noTag (by omega), hexDigitChar_noTag (by omega)]
    rfl

theorem encodeURIComponent_noTag (s : Str) : (encodeURIComponent s).all noTagB = true := by
  induction s with
  | nil => rfl
  | cons c t ih =>
    rw [encodeURIComponent, List.all_append, ih, Bool.and_true]
    by_cases h : uriUnreservedB c = true
    · rw [if_pos h]
      show (noTagB c && true) = true
      rw [Bool.and_true, noTagB]
      rcases eq_or_ne c '<' with rfl | hne
      · exact absurd h (by decide)
      · simp [hne]
    · rw [if_neg h]
      exact foldr_percent_noTag (utf8Bytes_lt c)

theorem tryContainerAt_none {s : Str}
    (h : hasPref (str "<div class=\"layout-container layout-") s = false) :
    tryContainerAt s = none := by
  simp [tryContainerAt, dropLit, h]

theorem trySectionAt_none {s : Str}
    (h : hasPref (str "<section class=\"") s = false) : trySectionAt s = none := by
  simp [trySectionAt, dropLit, h]

theorem scanContainersAux_nil {s : Str}
    (h : ∀ p, ¬ OccAt (str "<div class=\"layout-container layout-") s p) :
    ∀ f, scanContainersAux f s = [] := by
  intro f
  induction f generalizing s with
  | zero => rfl
  | succ f ih =>
    have h0 : hasPref (str "<div class=\"layout-container layout-") s = false :=
      hasPref_eq_false_iff.mpr (h 0)
    cases s with
    | nil => simp [scanContainersAux, tryContainerAt_none h0]
    | cons c t =>
      rw [scanContainersAux, tryContainerAt_none h0]
      exact ih (fun p => h (p + 1))

theorem scanSectionsAux_nil {s : Str}
    (h : ∀ p, ¬ OccAt (str "<section class=\"") s p) :
    ∀ f, scanSectionsAux f s = [] := by
  intro f
  induction f generalizing s with
  | zero => rfl
  | succ f ih =>
    have h0 : hasPref (str "<section class=\"") s = false :=
      hasPref_eq_false_iff.mpr (h 0)
    cases s with
    | nil => simp [scanSectionsAux, trySectionAt_none h0]
    | cons c t =>
      rw [scanSectionsAux, trySectionAt_none h0]
      exact ih (fun p => h (p + 1))

theorem scanSectionsAux_skip {x y : Str}
    (h : ∀ p, p < x.length → ¬ IsPref (str "<section class=\"") ((x ++ y).drop p)) (f : Nat) :
    scanSectionsAux (x.length + f) (x ++ y) = scanSectionsAux f y := by
  induction x generalizing f with
  | nil => simp
  | cons c t ih =>
    have h0 : hasPref (str "<section class=\"") (c :: (t ++ y)) = false :=
      hasPref_eq_false_iff.mpr (h 0 (by simp))
    rw [show (c :: t).length + f = (t.length + f) + 1 from by rw [List.length_cons]; omega,
      show ((c :: t) ++ y) = c :: (t ++ y) from rfl,
      scanSectionsAux, trySectionAt_none h0]
    exact ih (fun p hp => h (p + 1) (by rw [List.length_cons]; omega)) f

theorem scanContainersAux_succ_some {f : Nat} {s : Str} {i : Nat × Str} {r : Str}
    (h : tryContainerAt s = some (i, r)) :
    scanContainersAux (f + 1) s = i :: scanContainersAux f r := by
  simp only [scanContainersAux, h]

theorem scanSectionsAux_succ_some {f : Nat} {s : Str} {i : Str × Str × Str} {r : Str}
    (h : trySectionAt s = some (i, r)) :
    scanSectionsAux (f + 1) s = i :: scanSectionsAux f r := by
  simp only [scanSectionsAux, h]

theorem findDivTextAux_skip {a : Bool} {pat x y : Str}
    (h : ∀ p, p < x.length → ¬ IsPref pat ((x ++ y).drop p)) (f : Nat) :
    findDivTextAux a pat (x.length + f) (x ++ y) = findDivTextAux a pat f y := by
  induction x generalizing f with
  | nil => simp
  | cons c t ih =>
    have h0 : hasPref pat (c :: (t ++ y)) = false :=
      hasPref_eq_false_iff.mpr (h 0 (by simp))
    rw [show (c :: t).length + f = (t.length + f) + 1 from by rw [List.length_cons]; omega,
      show ((c :: t) ++ y) = c :: (t ++ y) from rfl]
    rw [findDivTextAux, show dropLit pat (c :: (t ++ y)) = none from by simp [dropLit, h0]]
    exact ih (fun p hp => h (p + 1) (by rw [List.length_cons]; omega)) f

theorem findDivTextAux_hit {a : Bool} {pat run rest : Str}
    (hrun : run.all (fun c => !(c = '<')) = true)
    (hcond : (a || !run.isEmpty) = true) (f : Nat) :
    findDivTextAux a pat (f + 1) (pat ++ (run ++ (str "</div>" ++ rest))) = some run := by
  have e1 : ((run ++ (str "</div>" ++ rest)).takeWhile (fun c => !(c = '<'))) = run :=
    takeWhile_exact (c := '<') (y := str "/div>" ++ rest) hrun (by decide)
  have e2 : (run ++ (str "</div>" ++ rest)).drop run.length = str "</div>" ++ rest :=
    List.drop_left _ _
  have e3 : hasPref (str "</div>") (str "</div>" ++ rest) = true := hasPref_iff.mpr ⟨rest, rfl⟩
  simp [findDivTextAux, dropLit_prefix, e1, e2, e3, hcond]

theorem tryContainerAt_eval {dg ck rest : Str}
    (hdg : dg.all isDigitB = true) (hdgn : dg ≠ [])
    (hckq : (ck ++ str "-container").all (fun c => !(c = '"')) = true)
    (hckn : ck ≠ []) :
    tryContainerAt (str "<div class=\"layout-container layout-" ++
      (dg ++ (str "col\" id=\"" ++ (ck ++ (str "-container" ++ (str "\">" ++ rest)))))) =
    some ((parseDigits dg, ck), rest) := by
  have e2 : (dg ++ (str "col\" id=\"" ++ (ck ++ (str "-container" ++
      (str "\">" ++ rest))))).takeWhile isDigitB = dg :=
    takeWhile_exact (c := 'c')
      (y := str "ol\" id=\"" ++ (ck ++ (str "-container" ++ (str "\">" ++ rest))))
      hdg (by decide)
  have e3 : dg.isEmpty = false := isEmpty_false_of_ne_nil hdgn
  have e4 : (dg ++ (str "col\" id=\"" ++ (ck ++ (str "-container" ++
      (str "\">" ++ rest))))).drop dg.length =
      str "col\" id=\"" ++ (ck ++ (str "-container" ++ (str "\">" ++ rest))) :=
    List.drop_left _ _
  have e6 : (ck ++ (str "-container" ++ (str "\">" ++ rest))).takeWhile
      (fun c => !(c = '"')) = ck ++ str "-container" := by
    rw [← List.append_assoc]
    exact takeWhile_exact (c := '"') (y := str ">" ++ rest) hckq (by decide)
  have e7 : str "-container" <:+ ck ++ str "-container" := List.suffix_append _ _
  have e8 : 10 < (ck ++ str "-container").length := by
    rw [List.length_append, show (str "-container").length = 10 from rfl]
    have := List.length_pos.mpr hckn
    omega
  have e9 : (ck ++ str "-container").take ((ck ++ str "-container").length - 10) = ck := by
    rw [List.length_append, show (str "-container").length = 10 from rfl,
      Nat.add_sub_cancel]
    exact List.take_left _ _
  have e10 : (ck ++ (str "-container" ++ (str "\">" ++ rest))).drop
      (ck ++ str "-container").length = str "\">" ++ rest := by
    rw [← List.append_assoc]
    exact List.drop_left _ _
  simp [tryContainerAt, dropLit_prefix, e2, e3, e4, e6, e7, e8, e9, e10]
  constructor
  · have h1 := List.length_pos.mpr hckn
    have h2 : (str "-container").length = 10 := rfl
    omega
  · rw [show ck.length + (str "-container").length - 10 = ck.length from by
      rw [show (str "-container").length = 10 from rfl]; omega]
    exact List.take_left _ _

theorem trySectionAt_eval {w acc key rest : Str}
    (hw : w.all isWordCharB = true) (hwn : w ≠ [])
    (hacc : acc.all isWordCharB = true) (haccn : acc ≠ [])
    (hkeyq : (key ++ str "-section").all (fun c => !(c = '"')) = true)
    (hkeyn : key ≠ []) :
    trySectionAt (str "<section class=\"" ++ (str "section-" ++ (w ++ (str " accent-" ++
      (acc ++ (str "\" id=\"" ++ (key ++ (str "-section" ++ (str "\">" ++ rest))))))))) =
    some ((str "section-" ++ w, acc, key), rest) := by
  have e2 : (w ++ (str " accent-" ++ (acc ++ (str "\" id=\"" ++ (key ++ (str "-section" ++
      (str "\">" ++ rest))))))).takeWhile isWordCharB = w :=
    takeWhile_exact (c := ' ')
      (y := str "accent-" ++ (acc ++ (str "\" id=\"" ++ (key ++ (str "-section" ++
        (str "\">" ++ rest)))))) hw (by decide)
  have e3 : w.isEmpty = false := isEmpty_false_of_ne_nil hwn
  have e4 : (w ++ (str " accent-" ++ (acc ++ (str "\" id=\"" ++ (key ++ (str "-section" ++
      (str "\">" ++ rest))))))).drop w.length =
      str " accent-" ++ (acc ++ (str "\" id=\"" ++ (key ++ (str "-section" ++
        (str "\">" ++ rest))))) := List.drop_left _ _
  have e5 : (str " accent-" ++ (acc ++ (str "\" id=\"" ++ (key ++ (str "-section" ++
      (str "\">" ++ rest)))))).takeWhile jsIsSpaceB = [' '] :=
    takeWhile_exact (x := [' ']) (c := 'a')
      (y := str "ccent-" ++ (acc ++ (str "\" id=\"" ++ (key ++ (str "-section" ++
        (str "\">" ++ rest)))))) (by decide) (by decide)
  have e7 : (str " accent-" ++ (acc ++ (str "\" id=\"" ++ (key ++ (str "-section" ++
      (str "\">" ++ rest)))))).drop 1 =
      str "accent-" ++ (acc ++ (str "\" id=\"" ++ (key ++ (str "-section" ++
        (str "\">" ++ rest))))) := rfl
  have e8 : (acc ++ (str "\" id=\"" ++ (key ++ (str "-section" ++
      (str "\">" ++ rest))))).takeWhile isWordCharB = acc :=
    takeWhile_exact (c := '"')
      (y := str " id=\"" ++ (key ++ (str "-section" ++ (str "\">" ++ rest))))
      hacc (by decide)
  have e9 : acc.isEmpty = false := isEmpty_false_of_ne_nil haccn
  have e10 : (acc ++ (str "\" id=\"" ++ (key ++ (str "-section" ++
      (str "\">" ++ rest))))).drop acc.length =
      str "\" id=\"" ++ (key ++ (str "-section" ++ (str "\">" ++ rest))) :=
    List.drop_left _ _
  have e11 : (key ++ (str "-section" ++ (str "\">" ++ rest))).takeWhile
      (fun c => !(c = '"')) = key ++ str "-section" := by
    rw [← List.append_assoc]
    exact takeWhile_exact (c := '"') (y := str ">" ++ rest) hkeyq (by decide)
  have e12 : str "-section" <:+ key ++ str "-section" := List.suffix_append _ _
  have e13 : 8 < (key ++ str "-section").length := by
    rw [List.length_append, show (str "-section").length = 8 from rfl]
    have := List.length_pos.mpr hkeyn
    omega
  have e14 : (key ++ str "-section").take ((key ++ str "-section").length - 8) = key := by
    rw [List.length_append, show (str "-section").length = 8 from rfl, Nat.add_sub_cancel]
    exact List.take_left _ _
  have e15 : (key ++ (str "-section" ++ (str "\">" ++ rest))).drop
      (key ++ str "-section").length = str "\">" ++ rest := by
    rw [← List.append_assoc]
    exact List.drop_left _ _
  simp [trySectionAt, dropLit_prefix, e2, e3, e4, e5, e7, e8, e9, e10, e11, e12, e13,
    e14, e15]
  constructor
  · have h1 := List.length_pos.mpr hkeyn
    have h2 : (str "-section").length = 8 := rfl
    omega
  · rw [show key.length + (str "-section").length - 8 = key.length from by
      rw [show (str "-section").length = 8 from rfl]; omega]
    exact List.take_left _ _

/-- The rendered category block holding one rendered link, exactly as the
category template nests the link template: the link fragment sits where
`addLinkToCategory` inserts it, immediately before the end-of-links
marker, followed by the indentation the editor adds. -/
def catWithLink (cat : Category) (tab : TabInfo) : Str :=
  let lc := layoutClassOf cat.layout
  let cc := contentClassOf cat.layout
  str "  <section class=\"" ++ lc ++ str " accent-" ++ cat.accent ++
  str "\" id=\"" ++ cat.key ++
  str "-section\">\n    <header class=\"" ++ lc ++
  str "__header\">\n      <div class=\"" ++ lc ++
  str "__title\">" ++ escapeHtml cat.name ++
  str "</div>\n      <div class=\"" ++ lc ++
  str "__meta\">" ++ escapeHtml cat.description ++
  str "</div>\n    </header>\n    <div class=\"" ++ cc ++
  str "\">\n      " ++ linkTpl tab cat.layout ++ str "\n      " ++
  str "<!-- " ++ jsToUpper cat.key ++
  str "_LINKS_END -->\n    </div>\n  </section>"

/-- A document composed from the three Renderer templates: the container
template with the rendered category block (holding one rendered link)
spliced between the container content markers. -/
def composeDoc (ck : Str) (cols : Nat) (cat : Category) (tab : TabInfo) : Str :=
  str "<div class=\"layout-container layout-" ++ natToChars cols ++
  str "col\" id=\"" ++ ck ++
  str "-container\">\n  <!-- Container: " ++ ck ++
  str " -->\n  <!-- CONTAINER_" ++ jsToUpper ck ++
  str "_CONTENT_START -->\n" ++
  catWithLink cat tab ++
  str "\n  <!-- CONTAINER_" ++ jsToUpper ck ++
  str "_CONTENT_END -->\n</div>\n\n"

/-- The concrete category input of the C1 counterexample: its display
name contains an ampersand. -/
def c1cat : Category :=
  ⟨str "k1", str "A&B", str "dsc", str "cards", str "blue", str "p", 0⟩

def c1tab : TabInfo :=
  ⟨str "https://x.test/", str "T", str "x.test", str "https://i.test/i.png"⟩

/-- Claim C1 counterexample: the round-trip does not recover the category
name exactly for every input: rendering escapes the name (`A&B` becomes
`A&amp;B`) and the analyzer extracts the escaped text without unescaping
it. -/
theorem c1_counterexample :
    (extractCategories (composeDoc (str "p") 2 c1cat c1tab)).map (fun c => c.name) ≠
      [c1cat.name] := by
  decide

/-- Round-trip recovery for a rendered document whose category uses the
cards layout: the composed document yields back exactly the container key
and column count and the category key, layout, accent, name and
description, provided the inputs are well-formed (keys from the key
character class, accent a word, name and description free of HTML
metacharacters, tab URLs free of the tag opener, and the category block
short enough to fit the 500-character analyzer window). -/
theorem c1_roundtrip_cards
    (ck : Str) (cols : Nat) (cat : Category) (tab : TabInfo)
    (hck : ck.all isKeyCharB = true) (hckn : ck ≠ [])
    (hkey : cat.key.all isKeyCharB = true) (hkeyn : cat.key ≠ [])
    (hacc : cat.accent.all isWordCharB = true) (haccn : cat.accent ≠ [])
    (hnm : cat.name.all benignB = true) (hnmn : cat.name ≠ [])
    (hds : cat.description.all benignB = true)
    (hurl : tab.url.all noTagB = true) (hicon : tab.iconUrl.all noTagB = true)
    (hwin : cat.key.length + cat.name.length + cat.description.length ≤ 344)
    (hcase : cat.layout = str "cards") :
    (extractContainers (composeDoc ck cols cat tab)).map (fun c => (c.key, c.columns)) =
      [(ck, cols)] ∧
    (extractCategories (composeDoc ck cols cat tab)).map
      (fun c => (c.key, c.layout, c.accent, c.name, c.description)) =
      [(cat.key, cat.layout, cat.accent, cat.name, cat.description)] := by
  have hckq : (ck ++ str "-container").all (fun c => !(c = '"')) = true := by
    rw [List.all_append, all_mono (bool_class_mono (by decide)) hck]
    rfl
  have hkeyq : (cat.key ++ str "-section").all (fun c => !(c = '"')) = true := by
    rw [List.all_append, all_mono (bool_class_mono (by decide)) hkey]
    rfl
  have hs0 : composeDoc ck cols cat tab =
      str "<div class=\"layout-container layout-" ++ (natToChars cols ++ (str "col\" id=\"" ++ (ck ++ (str "-container" ++ (str "\">" ++ (str "\n  <!-- Container: " ++ (ck ++ (str " -->\n  <!-- CONTAINER_" ++ (jsToUpper ck ++ (str "_CONTENT_START -->\n  <section class=\"section-card accent-" ++ (cat.accent ++ (str "\" id=\"" ++ (cat.key ++ (str "-section\">\n    <header class=\"section-card__header\">\n      <div class=\"section-card__title\">" ++ (cat.name ++ (str "</div>\n      <div class=\"section-card__meta\">" ++ (cat.description ++ (str "</div>\n    </header>\n    <div class=\"links\">\n            <a class=\"linkcard\" href=\"" ++ (tab.url ++ (str "\" target=\"_blank\" rel=\"noopener\">\n        <img src=\"" ++ (tab.iconUrl ++ (str "\" alt=\"\">\n        <div>\n          <div class=\"title\">" ++ (escapeHtml tab.title ++ (str "</div>\n          <div class=\"url\">" ++ (escapeHtml tab.host ++ (str "</div>\n        </div>\n      </a>\n      <!-- " ++ (jsToUpper cat.key ++ (str "_LINKS_END -->\n    </div>\n  </section>\n  <!-- CONTAINER_" ++ (jsToUpper ck ++ (str "_CONTENT_END -->\n</div>\n\n" ++ (([] : Str)))))))))))))))))))))))))))))))) := by
    simp only [composeDoc, catWithLink, hcase, linkTpl_cards, layoutClassOf_cards, contentClassOf_cards,
      escapeHtml_id_of_benign hnm, escapeHtml_id_of_benign hds, List.append_assoc]
    rfl
  have hTry : tryContainerAt (str "<div class=\"layout-container layout-" ++ (natToChars cols ++ (str "col\" id=\"" ++ (ck ++ (str "-container" ++ (str "\">" ++ (str "\n  <!-- Container: " ++ (ck ++ (str " -->\n  <!-- CONTAINER_" ++ (jsToUpper ck ++ (str "_CONTENT_START -->\n  <section class=\"section-card accent-" ++ (cat.accent ++ (str "\" id=\"" ++ (cat.key ++ (str "-section\">\n    <header class=\"section-card__header\">\n      <div class=\"section-card__title\">" ++ (cat.name ++ (str "</div>\n      <div class=\"section-card__meta\">" ++ (cat.description ++ (str "</div>\n    </header>\n    <div class=\"links\">\n            <a class=\"linkcard\" href=\"" ++ (tab.url ++ (str "\" target=\"_blank\" rel=\"noopener\">\n        <img src=\"" ++ (tab.iconUrl ++ (str "\" alt=\"\">\n        <div>\n          <div class=\"title\">" ++ (escapeHtml tab.title ++ (str "</div>\n          <div class=\"url\">" ++ (escapeHtml tab.host ++ (str "</div>\n        </div>\n      </a>\n      <!-- " ++ (jsToUpper cat.key ++ (str "_LINKS_END -->\n    </div>\n  </section>\n  <!-- CONTAINER_" ++ (jsToUpper ck ++ (str "_CONTENT_END -->\n</div>\n\n" ++ (([] : Str))))))))))))))))))))))))))))))))) = some ((parseDigits (natToChars cols), ck), str "\n  <!-- Container: " ++ (ck ++ (str " -->\n  <!-- CONTAINER_" ++ (jsToUpper ck ++ (str "_CONTENT_START -->\n  <section class=\"section-card accent-" ++ (cat.accent ++ (str "\" id=\"" ++ (cat.key ++ (str "-section\">\n    <header class=\"section-card__header\">\n      <div class=\"section-card__title\">" ++ (cat.name ++ (str "</div>\n      <div class=\"section-card__meta\">" ++ (cat.description ++ (str "</div>\n    </header>\n    <div class=\"links\">\n            <a class=\"linkcard\" href=\"" ++ (tab.url ++ (str "\" target=\"_blank\" rel=\"noopener\">\n        <img src=\"" ++ (tab.iconUrl ++ (str "\" alt=\"\">\n        <div>\n          <div class=\"title\">" ++ (escapeHtml tab.title ++ (str "</div>\n          <div class=\"url\">" ++ (escapeHtml tab.host ++ (str "</div>\n        </div>\n      </a>\n      <!-- " ++ (jsToUpper cat.key ++ (str "_LINKS_END -->\n    </div>\n  </section>\n  <!-- CONTAINER_" ++ (jsToUpper ck ++ (str "_CONTENT_END -->\n</div>\n\n" ++ (([] : Str))))))))))))))))))))))))))) :=
    tryContainerAt_eval (natToChars_all_digits cols) (natToChars_ne_nil cols) hckq hckn
  have hnil1 : ∀ p, ¬ OccAt (str "<div class=\"layout-container layout-") (str "\n  <!-- Container: " ++ (ck ++ (str " -->\n  <!-- CONTAINER_" ++ (jsToUpper ck ++ (str "_CONTENT_START -->\n  <section class=\"section-card accent-" ++ (cat.accent ++ (str "\" id=\"" ++ (cat.key ++ (str "-section\">\n    <header class=\"section-card__header\">\n      <div class=\"section-card__title\">" ++ (cat.name ++ (str "</div>\n      <div class=\"section-card__meta\">" ++ (cat.description ++ (str "</div>\n    </header>\n    <div class=\"links\">\n            <a class=\"linkcard\" href=\"" ++ (tab.url ++ (str "\" target=\"_blank\" rel=\"noopener\">\n        <img src=\"" ++ (tab.iconUrl ++ (str "\" alt=\"\">\n        <div>\n          <div class=\"title\">" ++ (escapeHtml tab.title ++ (str "</div>\n          <div class=\"url\">" ++ (escapeHtml tab.host ++ (str "</div>\n        </div>\n      </a>\n      <!-- " ++ (jsToUpper cat.key ++ (str "_LINKS_END -->\n    </div>\n  </section>\n  <!-- CONTAINER_" ++ (jsToUpper ck ++ (str "_CONTENT_END -->\n</div>\n\n" ++ (([] : Str))))))))))))))))))))))))))) p := by
    apply noOcc_append
    · intro p hp
      exact cleanChunk_elim_lit (by decide) hp
    apply noOcc_append
    · intro p hp
      exact varChunk_elim_lit hck (show (str "<div class=\"layout-container layout-")[0]? = some '<' from rfl) (by decide) hp
    apply noOcc_append
    · intro p hp
      exact cleanChunk_elim_lit (by decide) hp
    apply noOcc_append
    · intro p hp
      exact varChunk_elim_lit (jsToUpper_all_ukey hck) (show (str "<div class=\"layout-container layout-")[0]? = some '<' from rfl) (by decide) hp
    apply noOcc_append
    · intro p hp
      exact cleanChunk_elim_lit (by decide) hp
    apply noOcc_append
    · intro p hp
      exact varChunk_elim_lit hacc (show (str "<div class=\"layout-container layout-")[0]? = some '<' from rfl) (by decide) hp
    apply noOcc_append
    · intro p hp
      exact cleanChunk_elim_lit (by decide) hp
    apply noOcc_append
    · intro p hp
      exact varChunk_elim_lit hkey (show (str "<div class=\"layout-container layout-")[0]? = some '<' from rfl) (by decide) hp
    apply noOcc_append
    · intro p hp
      exact cleanChunk_elim_lit (by decide) hp
    apply noOcc_append
    · intro p hp
      exact varChunk_elim_lit hnm (show (str "<div class=\"layout-container layout-")[0]? = some '<' from rfl) (by decide) hp
    apply noOcc_append
    · intro p hp
      exact cleanChunk_elim_lit (by decide) hp
    apply noOcc_append
    · intro p hp
      exact varChunk_elim_lit hds (show (str "<div class=\"layout-container layout-")[0]? = some '<' from rfl) (by decide) hp
    apply noOcc_append
    · intro p hp
      exact cleanChunk_elim_lit (by decide) hp
    apply noOcc_append
    · intro p hp
      exact varChunk_elim_lit hurl (show (str "<div class=\"layout-container layout-")[0]? = some '<' from rfl) (by decide) hp
    apply noOcc_append
    · intro p hp
      exact cleanChunk_elim_lit (by decide) hp
    apply noOcc_append
    · intro p hp
      exact varChunk_elim_lit hicon (show (str "<div class=\"layout-container layout-")[0]? = some '<' from rfl) (by decide) hp
    apply noOcc_append
    · intro p hp
      exact cleanChunk_elim_lit (by decide) hp
    apply noOcc_append
    · intro p hp
      exact varChunk_elim_lit (escapeHtml_all_safe tab.title) (show (str "<div class=\"layout-container layout-")[0]? = some '<' from rfl) (by decide) hp
    apply noOcc_append
    · intro p hp
      exact cleanChunk_elim_lit (by decide) hp
    apply noOcc_append
    · intro p hp
      exact varChunk_elim_lit (escapeHtml_all_safe tab.host) (show (str "<div class=\"layout-container layout-")[0]? = some '<' from rfl) (by decide) hp
    apply noOcc_append
    · intro p hp
      exact cleanChunk_elim_lit (by decide) hp
    apply noOcc_append
    · intro p hp
      exact varChunk_elim_lit (jsToUpper_all_ukey hkey) (show (str "<div class=\"layout-container layout-")[0]? = some '<' from rfl) (by decide) hp
    apply noOcc_append
    · intro p hp
      exact cleanChunk_elim_lit (by decide) hp
    apply noOcc_append
    · intro p hp
      exact varChunk_elim_lit (jsToUpper_all_ukey hck) (show (str "<div class=\"layout-container layout-")[0]? = some '<' from rfl) (by decide) hp
    apply noOcc_append
    · intro p hp
      exact cleanChunk_elim_lit (by decide) hp
    exact noOcc_nil (by decide)
  have hscanC : scanContainers (composeDoc ck cols cat tab) = [(parseDigits (natToChars cols), ck)] := by
    rw [hs0, scanContainers, scanContainersAux_succ_some hTry, scanContainersAux_nil hnil1]
  have hs1 : composeDoc ck cols cat tab = (str "<div class=\"layout-container layout-" ++ (natToChars cols ++ (str "col\" id=\"" ++ (ck ++ (str "-container\">\n  <!-- Container: " ++ (ck ++ (str " -->\n  <!-- CONTAINER_" ++ (jsToUpper ck ++ (str "_CONTENT_START -->\n  "))))))))) ++ (str "<section class=\"" ++ (str "section-" ++ (str "card" ++ (str " accent-" ++ (cat.accent ++ (str "\" id=\"" ++ (cat.key ++ (str "-section" ++ (str "\">" ++ (str "\n    <header class=\"section-card__header\">\n      <div class=\"section-card__title\">" ++ (cat.name ++ (str "</div>\n      <div class=\"section-card__meta\">" ++ (cat.description ++ (str "</div>\n    </header>\n    <div class=\"links\">\n            <a class=\"linkcard\" href=\"" ++ (tab.url ++ (str "\" target=\"_blank\" rel=\"noopener\">\n        <img src=\"" ++ (tab.iconUrl ++ (str "\" alt=\"\">\n        <div>\n          <div class=\"title\">" ++ (escapeHtml tab.title ++ (str "</div>\n          <div class=\"url\">" ++ (escapeHtml tab.host ++ (str "</div>\n        </div>\n      </a>\n      <!-- " ++ (jsToUpper cat.key ++ (str "_LINKS_END -->\n    </div>\n  </section>\n  <!-- CONTAINER_" ++ (jsToUpper ck ++ (str "_CONTENT_END -->\n</div>\n\n" ++ (([] : Str)))))))))))))))))))))))))))) := by
    rw [hs0]
    simp only [List.append_assoc]
    rfl
  have hskip1 : ∀ p, p < (str "<div class=\"layout-container layout-" ++ (natToChars cols ++ (str "col\" id=\"" ++ (ck ++ (str "-container\">\n  <!-- Container: " ++ (ck ++ (str " -->\n  <!-- CONTAINER_" ++ (jsToUpper ck ++ (str "_CONTENT_START -->\n  "))))))))).length → ¬ IsPref (str "<section class=\"") (((str "<div class=\"layout-container layout-" ++ (natToChars cols ++ (str "col\" id=\"" ++ (ck ++ (str "-container\">\n  <!-- Container: " ++ (ck ++ (str " -->\n  <!-- CONTAINER_" ++ (jsToUpper ck ++ (str "_CONTENT_START -->\n  "))))))))) ++ (str "<section class=\"" ++ (str "section-" ++ (str "card" ++ (str " accent-" ++ (cat.accent ++ (str "\" id=\"" ++ (cat.key ++ (str "-section" ++ (str "\">" ++ (str "\n    <header class=\"section-card__header\">\n      <div class=\"section-card__title\">" ++ (cat.name ++ (str "</div>\n      <div class=\"section-card__meta\">" ++ (cat.description ++ (str "</div>\n    </header>\n    <div class=\"links\">\n            <a class=\"linkcard\" href=\"" ++ (tab.url ++ (str "\" target=\"_blank\" rel=\"noopener\">\n        <img src=\"" ++ (tab.iconUrl ++ (str "\" alt=\"\">\n        <div>\n          <div class=\"title\">" ++ (escapeHtml tab.title ++ (str "</div>\n          <div class=\"url\">" ++ (escapeHtml tab.host ++ (str "</div>\n        </div>\n      </a>\n      <!-- " ++ (jsToUpper cat.key ++ (str "_LINKS_END -->\n    </div>\n  </section>\n  <!-- CONTAINER_" ++ (jsToUpper ck ++ (str "_CONTENT_END -->\n</div>\n\n" ++ (([] : Str))))))))))))))))))))))))))))).drop p) := by
    refine pref_chunks ?_ (pref_chunks ?_ (pref_chunks ?_ (pref_chunks ?_ (pref_chunks ?_ (pref_chunks ?_ (pref_chunks ?_ (pref_chunks ?_ (?_))))))))
    · intro p hp
      exact cleanChunk_elim_lit (by decide) hp
    · intro p hp
      exact varChunk_elim_lit (natToChars_all_digits cols) (show (str "<section class=\"")[0]? = some '<' from rfl) (by decide) hp
    · intro p hp
      exact cleanChunk_elim_lit (by decide) hp
    · intro p hp
      exact varChunk_elim_lit hck (show (str "<section class=\"")[0]? = some '<' from rfl) (by decide) hp
    · intro p hp
      exact cleanChunk_elim_lit (by decide) hp
    · intro p hp
      exact varChunk_elim_lit hck (show (str "<section class=\"")[0]? = some '<' from rfl) (by decide) hp
    · intro p hp
      exact cleanChunk_elim_lit (by decide) hp
    · intro p hp
      exact varChunk_elim_lit (jsToUpper_all_ukey hck) (show (str "<section class=\"")[0]? = some '<' from rfl) (by decide) hp
    · intro p hp
      exact cleanChunk_elim_lit (by decide) hp
  have hTryS : trySectionAt (str "<section class=\"" ++ (str "section-" ++ (str "card" ++ (str " accent-" ++ (cat.accent ++ (str "\" id=\"" ++ (cat.key ++ (str "-section" ++ (str "\">" ++ (str "\n    <header class=\"section-card__header\">\n      <div class=\"section-card__title\">" ++ (cat.name ++ (str "</div>\n      <div class=\"section-card__meta\">" ++ (cat.description ++ (str "</div>\n    </header>\n    <div class=\"links\">\n            <a class=\"linkcard\" href=\"" ++ (tab.url ++ (str "\" target=\"_blank\" rel=\"noopener\">\n        <img src=\"" ++ (tab.iconUrl ++ (str "\" alt=\"\">\n        <div>\n          <div class=\"title\">" ++ (escapeHtml tab.title ++ (str "</div>\n          <div class=\"url\">" ++ (escapeHtml tab.host ++ (str "</div>\n        </div>\n      </a>\n      <!-- " ++ (jsToUpper cat.key ++ (str "_LINKS_END -->\n    </div>\n  </section>\n  <!-- CONTAINER_" ++ (jsToUpper ck ++ (str "_CONTENT_END -->\n</div>\n\n" ++ (([] : Str)))))))))))))))))))))))))))) = some ((str "section-" ++ str "card", cat.accent, cat.key), str "\n    <header class=\"section-card__header\">\n      <div class=\"section-card__title\">" ++ (cat.name ++ (str "</div>\n      <div class=\"section-card__meta\">" ++ (cat.description ++ (str "</div>\n    </header>\n    <div class=\"links\">\n            <a class=\"linkcard\" href=\"" ++ (tab.url ++ (str "\" target=\"_blank\" rel=\"noopener\">\n        <img src=\"" ++ (tab.iconUrl ++ (str "\" alt=\"\">\n        <div>\n          <div class=\"title\">" ++ (escapeHtml tab.title ++ (str "</div>\n          <div class=\"url\">" ++ (escapeHtml tab.host ++ (str "</div>\n        </div>\n      </a>\n      <!-- " ++ (jsToUpper cat.key ++ (str "_LINKS_END -->\n    </div>\n  </section>\n  <!-- CONTAINER_" ++ (jsToUpper ck ++ (str "_CONTENT_END -->\n</div>\n\n" ++ (([] : Str))))))))))))))))))) :=
    trySectionAt_eval (by decide) (by decide) hacc haccn hkeyq hkeyn
  have hnil2 : ∀ p, ¬ OccAt (str "<section class=\"") (str "\n    <header class=\"section-card__header\">\n      <div class=\"section-card__title\">" ++ (cat.name ++ (str "</div>\n      <div class=\"section-card__meta\">" ++ (cat.description ++ (str "</div>\n    </header>\n    <div class=\"links\">\n            <a class=\"linkcard\" href=\"" ++ (tab.url ++ (str "\" target=\"_blank\" rel=\"noopener\">\n        <img src=\"" ++ (tab.iconUrl ++ (str "\" alt=\"\">\n        <div>\n          <div class=\"title\">" ++ (escapeHtml tab.title ++ (str "</div>\n          <div class=\"url\">" ++ (escapeHtml tab.host ++ (str "</div>\n        </div>\n      </a>\n      <!-- " ++ (jsToUpper cat.key ++ (str "_LINKS_END -->\n    </div>\n  </section>\n  <!-- CONTAINER_" ++ (jsToUpper ck ++ (str "_CONTENT_END -->\n</div>\n\n" ++ (([] : Str))))))))))))))))))) p := by
    apply noOcc_append
    · intro p hp
      exact cleanChunk_elim_lit (by decide) hp
    apply noOcc_append
    · intro p hp
      exact varChunk_elim_lit hnm (show (str "<section class=\"")[0]? = some '<' from rfl) (by decide) hp
    apply noOcc_append
    · intro p hp
      exact cleanChunk_elim_lit (by decide) hp
    apply noOcc_append
    · intro p hp
      exact varChunk_elim_lit hds (show (str "<section class=\"")[0]? = some '<' from rfl) (by decide) hp
    apply noOcc_append
    · intro p hp
      exact cleanChunk_elim_lit (by decide) hp
    apply noOcc_append
    · intro p hp
      exact varChunk_elim_lit hurl (show (str "<section class=\"")[0]? = some '<' from rfl) (by decide) hp
    apply noOcc_append
    · intro p hp
      exact cleanChunk_elim_lit (by decide) hp
    apply noOcc_append
    · intro p hp
      exact varChunk_elim_lit hicon (show (str "<section class=\"")[0]? = some '<' from rfl) (by decide) hp
    apply noOcc_append
    · intro p hp
      exact cleanChunk_elim_lit (by decide) hp
    apply noOcc_append
    · intro p hp
      exact varChunk_elim_lit (escapeHtml_all_safe tab.title) (show (str "<section class=\"")[0]? = some '<' from rfl) (by decide) hp
    apply noOcc_append
    · intro p hp
      exact cleanChunk_elim_lit (by decide) hp
    apply noOcc_append
    · intro p hp
      exact varChunk_elim_lit (escapeHtml_all_safe tab.host) (show (str "<section class=\"")[0]? = some '<' from rfl) (by decide) hp
    apply noOcc_append
    · intro p hp
      exact cleanChunk_elim_lit (by decide) hp
    apply noOcc_append
    · intro p hp
      exact varChunk_elim_lit (jsToUpper_all_ukey hkey) (show (str "<section class=\"")[0]? = some '<' from rfl) (by decide) hp
    apply noOcc_append
    · intro p hp
      exact cleanChunk_elim_lit (by decide) hp
    apply noOcc_append
    · intro p hp
      exact varChunk_elim_lit (jsToUpper_all_ukey hck) (show (str "<section class=\"")[0]? = some '<' from rfl) (by decide) hp
    apply noOcc_append
    · intro p hp
      exact cleanChunk_elim_lit (by decide) hp
    exact noOcc_nil (by decide)
  have hscanS : scanSections (composeDoc ck cols cat tab) =
      [(str "section-" ++ str "card", cat.accent, cat.key)] := by
    rw [hs1, scanSections, List.length_append, Nat.add_assoc,
      scanSectionsAux_skip hskip1, scanSectionsAux_succ_some hTryS,
      scanSectionsAux_nil hnil2]
  have hs2 : composeDoc ck cols cat tab = (str "<div class=\"layout-container layout-" ++ (natToChars cols ++ (str "col\" id=\"" ++ (ck ++ (str "-container\">\n  <!-- Container: " ++ (ck ++ (str " -->\n  <!-- CONTAINER_" ++ (jsToUpper ck ++ (str "_CONTENT_START -->\n  <section class=\"section-card accent-" ++ (cat.accent ++ (str "\" "))))))))))) ++ (str "id=\"" ++ (cat.key ++ (str "-section\"" ++ (str ">" ++ (str "\n    <header class=\"section-card__header\">\n      <div class=\"section-card__title\">" ++ (cat.name ++ (str "</div>\n      <div class=\"section-card__meta\">" ++ (cat.description ++ (str "</div>\n    </header>\n    <div class=\"links\">\n            <a class=\"linkcard\" href=\"" ++ (tab.url ++ (str "\" target=\"_blank\" rel=\"noopener\">\n        <img src=\"" ++ (tab.iconUrl ++ (str "\" alt=\"\">\n        <div>\n          <div class=\"title\">" ++ (escapeHtml tab.title ++ (str "</div>\n          <div class=\"url\">" ++ (escapeHtml tab.host ++ (str "</div>\n        </div>\n      </a>\n      <!-- " ++ (jsToUpper cat.key ++ (str "_LINKS_END -->\n    </div>\n  </section>\n  <!-- CONTAINER_" ++ (jsToUpper ck ++ (str "_CONTENT_END -->\n</div>\n\n" ++ (([] : Str))))))))))))))))))))))) := by
    rw [hs0]
    simp only [List.append_assoc]
    rfl
  have hTokPref : IsPref (sectionToken cat.key) (str "id=\"" ++ (cat.key ++ (str "-section\"" ++ (str ">" ++ (str "\n    <header class=\"section-card__header\">\n      <div class=\"section-card__title\">" ++ (cat.name ++ (str "</div>\n      <div class=\"section-card__meta\">" ++ (cat.description ++ (str "</div>\n    </header>\n    <div class=\"links\">\n            <a class=\"linkcard\" href=\"" ++ (tab.url ++ (str "\" target=\"_blank\" rel=\"noopener\">\n        <img src=\"" ++ (tab.iconUrl ++ (str "\" alt=\"\">\n        <div>\n          <div class=\"title\">" ++ (escapeHtml tab.title ++ (str "</div>\n          <div class=\"url\">" ++ (escapeHtml tab.host ++ (str "</div>\n        </div>\n      </a>\n      <!-- " ++ (jsToUpper cat.key ++ (str "_LINKS_END -->\n    </div>\n  </section>\n  <!-- CONTAINER_" ++ (jsToUpper ck ++ (str "_CONTENT_END -->\n</div>\n\n" ++ (([] : Str))))))))))))))))))))))) := by
    refine ⟨str ">" ++ (str "\n    <header class=\"section-card__header\">\n      <div class=\"section-card__title\">" ++ (cat.name ++ (str "</div>\n      <div class=\"section-card__meta\">" ++ (cat.description ++ (str "</div>\n    </header>\n    <div class=\"links\">\n            <a class=\"linkcard\" href=\"" ++ (tab.url ++ (str "\" target=\"_blank\" rel=\"noopener\">\n        <img src=\"" ++ (tab.iconUrl ++ (str "\" alt=\"\">\n        <div>\n          <div class=\"title\">" ++ (escapeHtml tab.title ++ (str "</div>\n          <div class=\"url\">" ++ (escapeHtml tab.host ++ (str "</div>\n        </div>\n      </a>\n      <!-- " ++ (jsToUpper cat.key ++ (str "_LINKS_END -->\n    </div>\n  </section>\n  <!-- CONTAINER_" ++ (jsToUpper ck ++ (str "_CONTENT_END -->\n</div>\n\n" ++ (([] : Str))))))))))))))))))), ?_⟩
    simp only [sectionToken, List.append_assoc]
  have hskip2 : ∀ p, p < (str "<div class=\"layout-container layout-" ++ (natToChars cols ++ (str "col\" id=\"" ++ (ck ++ (str "-container\">\n  <!-- Container: " ++ (ck ++ (str " -->\n  <!-- CONTAINER_" ++ (jsToUpper ck ++ (str "_CONTENT_START -->\n  <section class=\"section-card accent-" ++ (cat.accent ++ (str "\" "))))))))))).length → ¬ IsPref (str "id=\"" ++ (cat.key ++ str "-section\"")) (((str "<div class=\"layout-container layout-" ++ (natToChars cols ++ (str "col\" id=\"" ++ (ck ++ (str "-container\">\n  <!-- Container: " ++ (ck ++ (str " -->\n  <!-- CONTAINER_" ++ (jsToUpper ck ++ (str "_CONTENT_START -->\n  <section class=\"section-card accent-" ++ (cat.accent ++ (str "\" "))))))))))) ++ (str "id=\"" ++ (cat.key ++ (str "-section\"" ++ (str ">" ++ (str "\n    <header class=\"section-card__header\">\n      <div class=\"section-card__title\">" ++ (cat.name ++ (str "</div>\n      <div class=\"section-card__meta\">" ++ (cat.description ++ (str "</div>\n    </header>\n    <div class=\"links\">\n            <a class=\"linkcard\" href=\"" ++ (tab.url ++ (str "\" target=\"_blank\" rel=\"noopener\">\n        <img src=\"" ++ (tab.iconUrl ++ (str "\" alt=\"\">\n        <div>\n          <div class=\"title\">" ++ (escapeHtml tab.title ++ (str "</div>\n          <div class=\"url\">" ++ (escapeHtml tab.host ++ (str "</div>\n        </div>\n      </a>\n      <!-- " ++ (jsToUpper cat.key ++ (str "_LINKS_END -->\n    </div>\n  </section>\n  <!-- CONTAINER_" ++ (jsToUpper ck ++ (str "_CONTENT_END -->\n</div>\n\n" ++ (([] : Str)))))))))))))))))))))))).drop p) := by
    refine pref_chunks ?_ (pref_chunks ?_ (pref_chunks ?_ (pref_chunks ?_ (pref_chunks ?_ (pref_chunks ?_ (pref_chunks ?_ (pref_chunks ?_ (pref_chunks ?_ (pref_chunks ?_ (?_))))))))))
    · intro p hp
      exact cleanChunk_elim (by decide) hp
    · intro p hp
      refine varChunk_elim (natToChars_all_digits cols) idlit_0 (by decide) ?_ hp
      intro m h1 h2
      exact absurd (Nat.le_trans h1 h2) (by decide)
    · intro p hp
      have hp9 : p < 9 := hp
      interval_cases p
      · exact isPref_head_ne pat_head
          (lit_drop_head (show (str "col\" id=\"")[0]? = some 'c' from rfl) (by decide))
          (by decide)
      · exact isPref_head_ne pat_head
          (lit_drop_head (show (str "col\" id=\"")[1]? = some 'o' from rfl) (by decide))
          (by decide)
      · exact isPref_head_ne pat_head
          (lit_drop_head (show (str "col\" id=\"")[2]? = some 'l' from rfl) (by decide))
          (by decide)
      · exact isPref_head_ne pat_head
          (lit_drop_head (show (str "col\" id=\"")[3]? = some '\x22' from rfl) (by decide))
          (by decide)
      · exact isPref_head_ne pat_head
          (lit_drop_head (show (str "col\" id=\"")[4]? = some ' ' from rfl) (by decide))
          (by decide)
      · intro h
        have h2 := isPref_cancel_left h
        simp only [List.append_assoc] at h2
        have h3 := (key_align (K := isKeyCharB) (L := str "-container\">\n  <!-- Container: ") hkey hck
          (show (str "-section\"")[8]? = some '"' by decide)
          (by decide) (by decide) (by decide) (by decide) h2).2
        exact isPref_ne_at (show (str "-section\"")[1]? = some 's' from rfl)
          (lit_head2) (by decide) h3
      · exact isPref_head_ne pat_head
          (lit_drop_head (show (str "col\" id=\"")[6]? = some 'd' from rfl) (by decide))
          (by decide)
      · exact isPref_head_ne pat_head
          (lit_drop_head (show (str "col\" id=\"")[7]? = some '=' from rfl) (by decide))
          (by decide)
      · exact isPref_head_ne pat_head
          (lit_drop_head (show (str "col\" id=\"")[8]? = some '\x22' from rfl) (by decide))
          (by decide)
    · intro p hp
      refine varChunk_elim hck idlit_2 (by decide) ?_ hp
      intro m h1 h2
      rcases (by omega : m = 1 ∨ m = 2) with rfl | rfl
      · exact isPref_head_ne pat_drop1 lit_head (by decide)
      · exact isPref_head_ne pat_drop2 lit_head (by decide)
    · intro p hp
      exact cleanChunk_elim (by decide) hp
    · intro p hp
      refine varChunk_elim hck idlit_2 (by decide) ?_ hp
      intro m h1 h2
      rcases (by omega : m = 1 ∨ m = 2) with rfl | rfl
      · exact isPref_head_ne pat_drop1 lit_head (by decide)
      · exact isPref_head_ne pat_drop2 lit_head (by decide)
    · intro p hp
      exact cleanChunk_elim (by decide) hp
    · intro p hp
      refine varChunk_elim (jsToUpper_all_ukey hck) idlit_0 (by decide) ?_ hp
      intro m h1 h2
      exact absurd (Nat.le_trans h1 h2) (by decide)
    · intro p hp
      exact cleanChunk_elim (by decide) hp
    · intro p hp
      refine varChunk_elim hacc idlit_2 (by decide) ?_ hp
      intro m h1 h2
      rcases (by omega : m = 1 ∨ m = 2) with rfl | rfl
      · exact isPref_head_ne pat_drop1 lit_head (by decide)
      · exact isPref_head_ne pat_drop2 lit_head (by decide)
    · intro p hp
      exact cleanChunk_elim (by decide) hp
  have hTok : sectionToken cat.key = str "id=\"" ++ (cat.key ++ str "-section\"") := by
    rw [sectionToken, List.append_assoc]
  have hidxTok : indexOf? (sectionToken cat.key) (composeDoc ck cols cat tab) =
      some ((str "<div class=\"layout-container layout-" ++ (natToChars cols ++ (str "col\" id=\"" ++ (ck ++ (str "-container\">\n  <!-- Container: " ++ (ck ++ (str " -->\n  <!-- CONTAINER_" ++ (jsToUpper ck ++ (str "_CONTENT_START -->\n  <section class=\"section-card accent-" ++ (cat.accent ++ (str "\" ")))))))))))).length := by
    rw [hs2]
    refine indexOf?_eq_some_of (occAt_at_split hTokPref) ?_
    intro q hq hocc
    rw [hTok] at hocc
    exact hskip2 q hq hocc
  have hdrop2 : (composeDoc ck cols cat tab).drop ((str "<div class=\"layout-container layout-" ++ (natToChars cols ++ (str "col\" id=\"" ++ (ck ++ (str "-container\">\n  <!-- Container: " ++ (ck ++ (str " -->\n  <!-- CONTAINER_" ++ (jsToUpper ck ++ (str "_CONTENT_START -->\n  <section class=\"section-card accent-" ++ (cat.accent ++ (str "\" ")))))))))))).length = str "id=\"" ++ (cat.key ++ (str "-section\"" ++ (str ">" ++ (str "\n    <header class=\"section-card__header\">\n      <div class=\"section-card__title\">" ++ (cat.name ++ (str "</div>\n      <div class=\"section-card__meta\">" ++ (cat.description ++ (str "</div>\n    </header>\n    <div class=\"links\">\n            <a class=\"linkcard\" href=\"" ++ (tab.url ++ (str "\" target=\"_blank\" rel=\"noopener\">\n        <img src=\"" ++ (tab.iconUrl ++ (str "\" alt=\"\">\n        <div>\n          <div class=\"title\">" ++ (escapeHtml tab.title ++ (str "</div>\n          <div class=\"url\">" ++ (escapeHtml tab.host ++ (str "</div>\n        </div>\n      </a>\n      <!-- " ++ (jsToUpper cat.key ++ (str "_LINKS_END -->\n    </div>\n  </section>\n  <!-- CONTAINER_" ++ (jsToUpper ck ++ (str "_CONTENT_END -->\n</div>\n\n" ++ (([] : Str)))))))))))))))))))))) := by
    rw [hs2]
    exact List.drop_left _ _
  have hs3 : (str "id=\"" ++ (cat.key ++ (str "-section\"" ++ (str ">" ++ (str "\n    <header class=\"section-card__header\">\n      <div class=\"section-card__title\">" ++ (cat.name ++ (str "</div>\n      <div class=\"section-card__meta\">" ++ (cat.description ++ (str "</div>\n    </header>\n    <div class=\"links\">\n            <a class=\"linkcard\" href=\"" ++ (tab.url ++ (str "\" target=\"_blank\" rel=\"noopener\">\n        <img src=\"" ++ (tab.iconUrl ++ (str "\" alt=\"\">\n        <div>\n          <div class=\"title\">" ++ (escapeHtml tab.title ++ (str "</div>\n          <div class=\"url\">" ++ (escapeHtml tab.host ++ (str "</div>\n        </div>\n      </a>\n      <!-- " ++ (jsToUpper cat.key ++ (str "_LINKS_END -->\n    </div>\n  </section>\n  <!-- CONTAINER_" ++ (jsToUpper ck ++ (str "_CONTENT_END -->\n</div>\n\n" ++ (([] : Str))))))))))))))))))))))) = (str "id=\"" ++ (cat.key ++ (str "-section\">\n    <header class=\"section-card__header\">\n      " ++ (str "<div class=\"section-card__title\">" ++ (cat.name ++ (str "</div>\n      " ++ (str "<div class=\"section-card__meta\">" ++ (cat.description ++ (str "</div>"))))))))) ++ (str "\n    </header>\n    <div class=\"links\">\n            <a class=\"linkcard\" href=\"" ++ (tab.url ++ (str "\" target=\"_blank\" rel=\"noopener\">\n        <img src=\"" ++ (tab.iconUrl ++ (str "\" alt=\"\">\n        <div>\n          <div class=\"title\">" ++ (escapeHtml tab.title ++ (str "</div>\n          <div class=\"url\">" ++ (escapeHtml tab.host ++ (str "</div>\n        </div>\n      </a>\n      <!-- " ++ (jsToUpper cat.key ++ (str "_LINKS_END -->\n    </div>\n  </section>\n  <!-- CONTAINER_" ++ (jsToUpper ck ++ (str "_CONTENT_END -->\n</div>\n\n" ++ (([] : Str))))))))))))))) := by
    simp only [List.append_assoc]
    rfl
  have hF1len : (str "id=\"" ++ (cat.key ++ (str "-section\">\n    <header class=\"section-card__header\">\n      " ++ (str "<div class=\"section-card__title\">" ++ (cat.name ++ (str "</div>\n      " ++ (str "<div class=\"section-card__meta\">" ++ (cat.description ++ (str "</div>"))))))))).length = cat.key.length + cat.name.length + cat.description.length + 147 := by
    simp only [List.length_append]
    rw [show (str "id=\"").length = 4 from rfl, show (str "-section\">\n    <header class=\"section-card__header\">\n      ").length = 59 from rfl,
      show (str "<div class=\"section-card__title\">").length = 33 from rfl, show (str "</div>\n      ").length = 13 from rfl,
      show (str "<div class=\"section-card__meta\">").length = 32 from rfl, show (str "</div>").length = 6 from rfl]
    omega
  have htake : ((str "id=\"" ++ (cat.key ++ (str "-section\">\n    <header class=\"section-card__header\">\n      " ++ (str "<div class=\"section-card__title\">" ++ (cat.name ++ (str "</div>\n      " ++ (str "<div class=\"section-card__meta\">" ++ (cat.description ++ (str "</div>"))))))))) ++ (str "\n    </header>\n    <div class=\"links\">\n            <a class=\"linkcard\" href=\"" ++ (tab.url ++ (str "\" target=\"_blank\" rel=\"noopener\">\n        <img src=\"" ++ (tab.iconUrl ++ (str "\" alt=\"\">\n        <div>\n          <div class=\"title\">" ++ (escapeHtml tab.title ++ (str "</div>\n          <div class=\"url\">" ++ (escapeHtml tab.host ++ (str "</div>\n        </div>\n      </a>\n      <!-- " ++ (jsToUpper cat.key ++ (str "_LINKS_END -->\n    </div>\n  </section>\n  <!-- CONTAINER_" ++ (jsToUpper ck ++ (str "_CONTENT_END -->\n</div>\n\n" ++ (([] : Str)))))))))))))))).take 500 = str "id=\"" ++ (cat.key ++ (str "-section\">\n    <header class=\"section-card__header\">\n      " ++ (str "<div class=\"section-card__title\">" ++ (cat.name ++ (str "</div>\n      " ++ (str "<div class=\"section-card__meta\">" ++ (cat.description ++ (str "</div>")))))))) ++ (str "\n    </header>\n    <div class=\"links\">\n            <a class=\"linkcard\" href=\"" ++ (tab.url ++ (str "\" target=\"_blank\" rel=\"noopener\">\n        <img src=\"" ++ (tab.iconUrl ++ (str "\" alt=\"\">\n        <div>\n          <div class=\"title\">" ++ (escapeHtml tab.title ++ (str "</div>\n          <div class=\"url\">" ++ (escapeHtml tab.host ++ (str "</div>\n        </div>\n      </a>\n      <!-- " ++ (jsToUpper cat.key ++ (str "_LINKS_END -->\n    </div>\n  </section>\n  <!-- CONTAINER_" ++ (jsToUpper ck ++ (str "_CONTENT_END -->\n</div>\n\n" ++ (([] : Str))))))))))))))).take (500 - (str "id=\"" ++ (cat.key ++ (str "-section\">\n    <header class=\"section-card__header\">\n      " ++ (str "<div class=\"section-card__title\">" ++ (cat.name ++ (str "</div>\n      " ++ (str "<div class=\"section-card__meta\">" ++ (cat.description ++ (str "</div>"))))))))).length) := by
    rw [List.take_append_eq_append_take, List.take_of_length_le (by rw [hF1len]; omega)]
  have hsw1 : (str "id=\"" ++ (cat.key ++ (str "-section\">\n    <header class=\"section-card__header\">\n      " ++ (str "<div class=\"section-card__title\">" ++ (cat.name ++ (str "</div>\n      " ++ (str "<div class=\"section-card__meta\">" ++ (cat.description ++ (str "</div>")))))))) ++ (str "\n    </header>\n    <div class=\"links\">\n            <a class=\"linkcard\" href=\"" ++ (tab.url ++ (str "\" target=\"_blank\" rel=\"noopener\">\n        <img src=\"" ++ (tab.iconUrl ++ (str "\" alt=\"\">\n        <div>\n          <div class=\"title\">" ++ (escapeHtml tab.title ++ (str "</div>\n          <div class=\"url\">" ++ (escapeHtml tab.host ++ (str "</div>\n        </div>\n      </a>\n      <!-- " ++ (jsToUpper cat.key ++ (str "_LINKS_END -->\n    </div>\n  </section>\n  <!-- CONTAINER_" ++ (jsToUpper ck ++ (str "_CONTENT_END -->\n</div>\n\n" ++ (([] : Str))))))))))))))).take (500 - (str "id=\"" ++ (cat.key ++ (str "-section\">\n    <header class=\"section-card__header\">\n      " ++ (str "<div class=\"section-card__title\">" ++ (cat.name ++ (str "</div>\n      " ++ (str "<div class=\"section-card__meta\">" ++ (cat.description ++ (str "</div>"))))))))).length)) = (str "id=\"" ++ (cat.key ++ (str "-section\">\n    <header class=\"section-card__header\">\n      "))) ++ ((str "<div class=\"" ++ (str "section-" ++ str "card") ++ str "__title\">") ++ (cat.name ++ (str "</div>" ++ (str "\n      " ++ (str "<div class=\"section-card__meta\">" ++ (cat.description ++ (str "</div>" ++ (str "\n    </header>\n    <div class=\"links\">\n            <a class=\"linkcard\" href=\"" ++ (tab.url ++ (str "\" target=\"_blank\" rel=\"noopener\">\n        <img src=\"" ++ (tab.iconUrl ++ (str "\" alt=\"\">\n        <div>\n          <div class=\"title\">" ++ (escapeHtml tab.title ++ (str "</div>\n          <div class=\"url\">" ++ (escapeHtml tab.host ++ (str "</div>\n        </div>\n      </a>\n      <!-- " ++ (jsToUpper cat.key ++ (str "_LINKS_END -->\n    </div>\n  </section>\n  <!-- CONTAINER_" ++ (jsToUpper ck ++ (str "_CONTENT_END -->\n</div>\n\n" ++ (([] : Str))))))))))))))).take (500 - (str "id=\"" ++ (cat.key ++ (str "-section\">\n    <header class=\"section-card__header\">\n      " ++ (str "<div class=\"section-card__title\">" ++ (cat.name ++ (str "</div>\n      " ++ (str "<div class=\"section-card__meta\">" ++ (cat.description ++ (str "</div>"))))))))).length)))))))) := by
    simp only [List.append_assoc]
    rfl
  have hskipT : ∀ p, p < (str "id=\"" ++ (cat.key ++ (str "-section\">\n    <header class=\"section-card__header\">\n      "))).length → ¬ IsPref (str "<div class=\"" ++ (str "section-" ++ str "card") ++ str "__title\">")
      (((str "id=\"" ++ (cat.key ++ (str "-section\">\n    <header class=\"section-card__header\">\n      "))) ++ ((str "<div class=\"" ++ (str "section-" ++ str "card") ++ str "__title\">") ++ (cat.name ++ (str "</div>" ++ (str "\n      " ++ (str "<div class=\"section-card__meta\">" ++ (cat.description ++ (str "</div>" ++ (str "\n    </header>\n    <div class=\"links\">\n            <a class=\"linkcard\" href=\"" ++ (tab.url ++ (str "\" target=\"_blank\" rel=\"noopener\">\n        <img src=\"" ++ (tab.iconUrl ++ (str "\" alt=\"\">\n        <div>\n          <div class=\"title\">" ++ (escapeHtml tab.title ++ (str "</div>\n          <div class=\"url\">" ++ (escapeHtml tab.host ++ (str "</div>\n        </div>\n      </a>\n      <!-- " ++ (jsToUpper cat.key ++ (str "_LINKS_END -->\n    </div>\n  </section>\n  <!-- CONTAINER_" ++ (jsToUpper ck ++ (str "_CONTENT_END -->\n</div>\n\n" ++ (([] : Str))))))))))))))).take (500 - (str "id=\"" ++ (cat.key ++ (str "-section\">\n    <header class=\"section-card__header\">\n      " ++ (str "<div class=\"section-card__title\">" ++ (cat.name ++ (str "</div>\n      " ++ (str "<div class=\"section-card__meta\">" ++ (cat.description ++ (str "</div>"))))))))).length))))))))).drop p) := by
    refine pref_chunks ?_ (pref_chunks ?_ (?_))
    · intro p hp
      exact cleanChunk_elim_lit (by decide) hp
    · intro p hp
      exact varChunk_elim_lit hkey (show (str "<div class=\"" ++ (str "section-" ++ str "card") ++ str "__title\">")[0]? = some '<' from rfl) (by decide) hp
    · intro p hp
      exact cleanChunk_elim_lit (by decide) hp
  have hTitle : findDivText false (str "<div class=\"" ++ (str "section-" ++ str "card") ++ str "__title\">") (str "id=\"" ++ (cat.key ++ (str "-section\">\n    <header class=\"section-card__header\">\n      " ++ (str "<div class=\"section-card__title\">" ++ (cat.name ++ (str "</div>\n      " ++ (str "<div class=\"section-card__meta\">" ++ (cat.description ++ (str "</div>")))))))) ++ (str "\n    </header>\n    <div class=\"links\">\n            <a class=\"linkcard\" href=\"" ++ (tab.url ++ (str "\" target=\"_blank\" rel=\"noopener\">\n        <img src=\"" ++ (tab.iconUrl ++ (str "\" alt=\"\">\n        <div>\n          <div class=\"title\">" ++ (escapeHtml tab.title ++ (str "</div>\n          <div class=\"url\">" ++ (escapeHtml tab.host ++ (str "</div>\n        </div>\n      </a>\n      <!-- " ++ (jsToUpper cat.key ++ (str "_LINKS_END -->\n    </div>\n  </section>\n  <!-- CONTAINER_" ++ (jsToUpper ck ++ (str "_CONTENT_END -->\n</div>\n\n" ++ (([] : Str))))))))))))))).take (500 - (str "id=\"" ++ (cat.key ++ (str "-section\">\n    <header class=\"section-card__header\">\n      " ++ (str "<div class=\"section-card__title\">" ++ (cat.name ++ (str "</div>\n      " ++ (str "<div class=\"section-card__meta\">" ++ (cat.description ++ (str "</div>"))))))))).length)) = some cat.name := by
    rw [findDivText, hsw1, List.length_append, Nat.add_assoc, findDivTextAux_skip hskipT,
      findDivTextAux_hit (a := false) (all_mono (bool_class_mono (by decide)) hnm)
        (by rw [isEmpty_false_of_ne_nil hnmn]; rfl)]
  have hsw2 : (str "id=\"" ++ (cat.key ++ (str "-section\">\n    <header class=\"section-card__header\">\n      " ++ (str "<div class=\"section-card__title\">" ++ (cat.name ++ (str "</div>\n      " ++ (str "<div class=\"section-card__meta\">" ++ (cat.description ++ (str "</div>")))))))) ++ (str "\n    </header>\n    <div class=\"links\">\n            <a class=\"linkcard\" href=\"" ++ (tab.url ++ (str "\" target=\"_blank\" rel=\"noopener\">\n        <img src=\"" ++ (tab.iconUrl ++ (str "\" alt=\"\">\n        <div>\n          <div class=\"title\">" ++ (escapeHtml tab.title ++ (str "</div>\n          <div class=\"url\">" ++ (escapeHtml tab.host ++ (str "</div>\n        </div>\n      </a>\n      <!-- " ++ (jsToUpper cat.key ++ (str "_LINKS_END -->\n    </div>\n  </section>\n  <!-- CONTAINER_" ++ (jsToUpper ck ++ (str "_CONTENT_END -->\n</div>\n\n" ++ (([] : Str))))))))))))))).take (500 - (str "id=\"" ++ (cat.key ++ (str "-section\">\n    <header class=\"section-card__header\">\n      " ++ (str "<div class=\"section-card__title\">" ++ (cat.name ++ (str "</div>\n      " ++ (str "<div class=\"section-card__meta\">" ++ (cat.description ++ (str "</div>"))))))))).length)) = (str "id=\"" ++ (cat.key ++ (str "-section\">\n    <header class=\"section-card__header\">\n      " ++ (str "<div class=\"section-card__title\">" ++ (cat.name ++ (str "</div>\n      ")))))) ++ ((str "<div class=\"" ++ (str "section-" ++ str "card") ++ str "__meta\">") ++ (cat.description ++ (str "</div>" ++ ((str "\n    </header>\n    <div class=\"links\">\n            <a class=\"linkcard\" href=\"" ++ (tab.url ++ (str "\" target=\"_blank\" rel=\"noopener\">\n        <img src=\"" ++ (tab.iconUrl ++ (str "\" alt=\"\">\n        <div>\n          <div class=\"title\">" ++ (escapeHtml tab.title ++ (str "</div>\n          <div class=\"url\">" ++ (escapeHtml tab.host ++ (str "</div>\n        </div>\n      </a>\n      <!-- " ++ (jsToUpper cat.key ++ (str "_LINKS_END -->\n    </div>\n  </section>\n  <!-- CONTAINER_" ++ (jsToUpper ck ++ (str "_CONTENT_END -->\n</div>\n\n" ++ (([] : Str))))))))))))))).take (500 - (str "id=\"" ++ (cat.key ++ (str "-section\">\n    <header class=\"section-card__header\">\n      " ++ (str "<div class=\"section-card__title\">" ++ (cat.name ++ (str "</div>\n      " ++ (str "<div class=\"section-card__meta\">" ++ (cat.description ++ (str "</div>"))))))))).length))))) := by
    simp only [List.append_assoc]
    rfl
  have hskipM : ∀ p, p < (str "id=\"" ++ (cat.key ++ (str "-section\">\n    <header class=\"section-card__header\">\n      " ++ (str "<div class=\"section-card__title\">" ++ (cat.name ++ (str "</div>\n      ")))))).length → ¬ IsPref (str "<div class=\"" ++ (str "section-" ++ str "card") ++ str "__meta\">")
      (((str "id=\"" ++ (cat.key ++ (str "-section\">\n    <header class=\"section-card__header\">\n      " ++ (str "<div class=\"section-card__title\">" ++ (cat.name ++ (str "</div>\n      ")))))) ++ ((str "<div class=\"" ++ (str "section-" ++ str "card") ++ str "__meta\">") ++ (cat.description ++ (str "</div>" ++ ((str "\n    </header>\n    <div class=\"links\">\n            <a class=\"linkcard\" href=\"" ++ (tab.url ++ (str "\" target=\"_blank\" rel=\"noopener\">\n        <img src=\"" ++ (tab.iconUrl ++ (str "\" alt=\"\">\n        <div>\n          <div class=\"title\">" ++ (escapeHtml tab.title ++ (str "</div>\n          <div class=\"url\">" ++ (escapeHtml tab.host ++ (str "</div>\n        </div>\n      </a>\n      <!-- " ++ (jsToUpper cat.key ++ (str "_LINKS_END -->\n    </div>\n  </section>\n  <!-- CONTAINER_" ++ (jsToUpper ck ++ (str "_CONTENT_END -->\n</div>\n\n" ++ (([] : Str))))))))))))))).take (500 - (str "id=\"" ++ (cat.key ++ (str "-section\">\n    <header class=\"section-card__header\">\n      " ++ (str "<div class=\"section-card__title\">" ++ (cat.name ++ (str "</div>\n      " ++ (str "<div class=\"section-card__meta\">" ++ (cat.description ++ (str "</div>"))))))))).length)))))).drop p) := by
    refine pref_chunks ?_ (pref_chunks ?_ (pref_chunks ?_ (pref_chunks ?_ (pref_chunks ?_ (?_)))))
    · intro p hp
      exact cleanChunk_elim_lit (by decide) hp
    · intro p hp
      exact varChunk_elim_lit hkey (show (str "<div class=\"" ++ (str "section-" ++ str "card") ++ str "__meta\">")[0]? = some '<' from rfl) (by decide) hp
    · intro p hp
      exact cleanChunk_elim_lit (by decide) hp
    · intro p hp
      exact cleanChunk_elim_lit (by decide) hp
    · intro p hp
      exact varChunk_elim_lit hnm (show (str "<div class=\"" ++ (str "section-" ++ str "card") ++ str "__meta\">")[0]? = some '<' from rfl) (by decide) hp
    · intro p hp
      exact cleanChunk_elim_lit (by decide) hp
  have hMeta : findDivText true (str "<div class=\"" ++ (str "section-" ++ str "card") ++ str "__meta\">") (str "id=\"" ++ (cat.key ++ (str "-section\">\n    <header class=\"section-card__header\">\n      " ++ (str "<div class=\"section-card__title\">" ++ (cat.name ++ (str "</div>\n      " ++ (str "<div class=\"section-card__meta\">" ++ (cat.description ++ (str "</div>")))))))) ++ (str "\n    </header>\n    <div class=\"links\">\n            <a class=\"linkcard\" href=\"" ++ (tab.url ++ (str "\" target=\"_blank\" rel=\"noopener\">\n        <img src=\"" ++ (tab.iconUrl ++ (str "\" alt=\"\">\n        <div>\n          <div class=\"title\">" ++ (escapeHtml tab.title ++ (str "</div>\n          <div class=\"url\">" ++ (escapeHtml tab.host ++ (str "</div>\n        </div>\n      </a>\n      <!-- " ++ (jsToUpper cat.key ++ (str "_LINKS_END -->\n    </div>\n  </section>\n  <!-- CONTAINER_" ++ (jsToUpper ck ++ (str "_CONTENT_END -->\n</div>\n\n" ++ (([] : Str))))))))))))))).take (500 - (str "id=\"" ++ (cat.key ++ (str "-section\">\n    <header class=\"section-card__header\">\n      " ++ (str "<div class=\"section-card__title\">" ++ (cat.name ++ (str "</div>\n      " ++ (str "<div class=\"section-card__meta\">" ++ (cat.description ++ (str "</div>"))))))))).length)) = some cat.description := by
    rw [findDivText, hsw2, List.length_append, Nat.add_assoc, findDivTextAux_skip hskipM,
      findDivTextAux_hit (a := true) (all_mono (bool_class_mono (by decide)) hds) rfl]
  constructor
  · rw [extractContainers, hscanC]
    simp [parseDigits_natToChars]
  · rw [extractCategories, hscanS]
    simp only [List.map_cons, List.map_nil]
    rw [hidxTok]
    simp only [Option.getD_some]
    rw [hdrop2, hs3, htake, hTitle, hMeta]
    simp only [Option.getD_some]
    rw [show occursB (str "compact") (str "section-" ++ str "card") = false from by decide,
      show occursB (str "large") (str "section-" ++ str "card") = false from by decide]
    simp [hcase]
    all_goals rfl

/-- Round-trip recovery for the compact layout, under the same
well-formedness conditions as the cards case. -/
theorem c1_roundtrip_compact
    (ck : Str) (cols : Nat) (cat : Category) (tab : TabInfo)
    (hck : ck.all isKeyCharB = true) (hckn : ck ≠ [])
    (hkey : cat.key.all isKeyCharB = true) (hkeyn : cat.key ≠ [])
    (hacc : cat.accent.all isWordCharB = true) (haccn : cat.accent ≠ [])
    (hnm : cat.name.all benignB = true) (hnmn : cat.name ≠ [])
    (hds : cat.description.all benignB = true)
    (hurl : tab.url.all noTagB = true) (hicon : tab.iconUrl.all noTagB = true)
    (hwin : cat.key.length + cat.name.length + cat.description.length ≤ 344)
    (hcase : cat.layout = str "compact") :
    (extractContainers (composeDoc ck cols cat tab)).map (fun c => (c.key, c.columns)) =
      [(ck, cols)] ∧
    (extractCategories (composeDoc ck cols cat tab)).map
      (fun c => (c.key, c.layout, c.accent, c.name, c.description)) =
      [(cat.key, cat.layout, cat.accent, cat.name, cat.description)] := by
  have hckq : (ck ++ str "-container").all (fun c => !(c = '"')) = true := by
    rw [List.all_append, all_mono (bool_class_mono (by decide)) hck]
    rfl
  have hkeyq : (cat.key ++ str "-section").all (fun c => !(c = '"')) = true := by
    rw [List.all_append, all_mono (bool_class_mono (by decide)) hkey]
    rfl
  have hs0 : composeDoc ck cols cat tab =
      str "<div class=\"layout-container layout-" ++ (natToChars cols ++ (str "col\" id=\"" ++ (ck ++ (str "-container" ++ (str "\">" ++ (str "\n  <!-- Container: " ++ (ck ++ (str " -->\n  <!-- CONTAINER_" ++ (jsToUpper ck ++ (str "_CONTENT_START -->\n  <section class=\"section-compact accent-" ++ (cat.accent ++ (str "\" id=\"" ++ (cat.key ++ (str "-section\">\n    <header class=\"section-compact__header\">\n      <div class=\"section-compact__title\">" ++ (cat.name ++ (str "</div>\n      <div class=\"section-compact__meta\">" ++ (cat.description ++ (str "</div>\n    </header>\n    <div class=\"compact-links\">\n            <a class=\"compact-link\" href=\"" ++ (tab.url ++ (str "\" target=\"_blank\" rel=\"noopener\">\n        <img src=\"" ++ (tab.iconUrl ++ (str "\" alt=\"\" class=\"compact-icon\">\n        <span class=\"compact-title\">" ++ (escapeHtml tab.title ++ (str "</span>\n        <span class=\"compact-url\">" ++ (escapeHtml tab.host ++ (str "</span>\n      </a>\n      <!-- " ++ (jsToUpper cat.key ++ (str "_LINKS_END -->\n    </div>\n  </section>\n  <!-- CONTAINER_" ++ (jsToUpper ck ++ (str "_CONTENT_END -->\n</div>\n\n" ++ (([] : Str)))))))))))))))))))))))))))))))) := by
    simp only [composeDoc, catWithLink, hcase, linkTpl_compact, layoutClassOf_compact, contentClassOf_compact,
      escapeHtml_id_of_benign hnm, escapeHtml_id_of_benign hds, List.append_assoc]
    rfl
  have hTry : tryContainerAt (str "<div class=\"layout-container layout-" ++ (natToChars cols ++ (str "col\" id=\"" ++ (ck ++ (str "-container" ++ (str "\">" ++ (str "\n  <!-- Container: " ++ (ck ++ (str " -->\n  <!-- CONTAINER_" ++ (jsToUpper ck ++ (str "_CONTENT_START -->\n  <section class=\"section-compact accent-" ++ (cat.accent ++ (str "\" id=\"" ++ (cat.key ++ (str "-section\">\n    <header class=\"section-compact__header\">\n      <div class=\"section-compact__title\">" ++ (cat.name ++ (str "</div>\n      <div class=\"section-compact__meta\">" ++ (cat.description ++ (str "</div>\n    </header>\n    <div class=\"compact-links\">\n            <a class=\"compact-link\" href=\"" ++ (tab.url ++ (str "\" target=\"_blank\" rel=\"noopener\">\n        <img src=\"" ++ (tab.iconUrl ++ (str "\" alt=\"\" class=\"compact-icon\">\n        <span class=\"compact-title\">" ++ (escapeHtml tab.title ++ (str "</span>\n        <span class=\"compact-url\">" ++ (escapeHtml tab.host ++ (str "</span>\n      </a>\n      <!-- " ++ (jsToUpper cat.key ++ (str "_LINKS_END -->\n    </div>\n  </section>\n  <!-- CONTAINER_" ++ (jsToUpper ck ++ (str "_CONTENT_END -->\n</div>\n\n" ++ (([] : Str))))))))))))))))))))))))))))))))) = some ((parseDigits (natToChars cols), ck), str "\n  <!-- Container: " ++ (ck ++ (str " -->\n  <!-- CONTAINER_" ++ (jsToUpper ck ++ (str "_CONTENT_START -->\n  <section class=\"section-compact accent-" ++ (cat.accent ++ (str "\" id=\"" ++ (cat.key ++ (str "-section\">\n    <header class=\"section-compact__header\">\n      <div class=\"section-compact__title\">" ++ (cat.name ++ (str "</div>\n      <div class=\"section-compact__meta\">" ++ (cat.description ++ (str "</div>\n    </header>\n    <div class=\"compact-links\">\n            <a class=\"compact-link\" href=\"" ++ (tab.url ++ (str "\" target=\"_blank\" rel=\"noopener\">\n        <img src=\"" ++ (tab.iconUrl ++ (str "\" alt=\"\" class=\"compact-icon\">\n        <span class=\"compact-title\">" ++ (escapeHtml tab.title ++ (str "</span>\n        <span class=\"compact-url\">" ++ (escapeHtml tab.host ++ (str "</span>\n      </a>\n      <!-- " ++ (jsToUpper cat.key ++ (str "_LINKS_END -->\n    </div>\n  </section>\n  <!-- CONTAINER_" ++ (jsToUpper ck ++ (str "_CONTENT_END -->\n</div>\n\n" ++ (([] : Str))))))))))))))))))))))))))) :=
    tryContainerAt_eval (natToChars_all_digits cols) (natToChars_ne_nil cols) hckq hckn
  have hnil1 : ∀ p, ¬ OccAt (str "<div class=\"layout-container layout-") (str "\n  <!-- Container: " ++ (ck ++ (str " -->\n  <!-- CONTAINER_" ++ (jsToUpper ck ++ (str "_CONTENT_START -->\n  <section class=\"section-compact accent-" ++ (cat.accent ++ (str "\" id=\"" ++ (cat.key ++ (str "-section\">\n    <header class=\"section-compact__header\">\n      <div class=\"section-compact__title\">" ++ (cat.name ++ (str "</div>\n      <div class=\"section-compact__meta\">" ++ (cat.description ++ (str "</div>\n    </header>\n    <div class=\"compact-links\">\n            <a class=\"compact-link\" href=\"" ++ (tab.url ++ (str "\" target=\"_blank\" rel=\"noopener\">\n        <img src=\"" ++ (tab.iconUrl ++ (str "\" alt=\"\" class=\"compact-icon\">\n        <span class=\"compact-title\">" ++ (escapeHtml tab.title ++ (str "</span>\n        <span class=\"compact-url\">" ++ (escapeHtml tab.host ++ (str "</span>\n      </a>\n      <!-- " ++ (jsToUpper cat.key ++ (str "_LINKS_END -->\n    </div>\n  </section>\n  <!-- CONTAINER_" ++ (jsToUpper ck ++ (str "_CONTENT_END -->\n</div>\n\n" ++ (([] : Str))))))))))))))))))))))))))) p := by
    apply noOcc_append
    · intro p hp
      exact cleanChunk_elim_lit (by decide) hp
    apply noOcc_append
    · intro p hp
      exact varChunk_elim_lit hck (show (str "<div class=\"layout-container layout-")[0]? = some '<' from rfl) (by decide) hp
    apply noOcc_append
    · intro p hp
      exact cleanChunk_elim_lit (by decide) hp
    apply noOcc_append
    · intro p hp
      exact varChunk_elim_lit (jsToUpper_all_ukey hck) (show (str "<div class=\"layout-container layout-")[0]? = some '<' from rfl) (by decide) hp
    apply noOcc_append
    · intro p hp
      exact cleanChunk_elim_lit (by decide) hp
    apply noOcc_append
    · intro p hp
      exact varChunk_elim_lit hacc (show (str "<div class=\"layout-container layout-")[0]? = some '<' from rfl) (by decide) hp
    apply noOcc_append
    · intro p hp
      exact cleanChunk_elim_lit (by decide) hp
    apply noOcc_append
    · intro p hp
      exact varChunk_elim_lit hkey (show (str "<div class=\"layout-container layout-")[0]? = some '<' from rfl) (by decide) hp
    apply noOcc_append
    · intro p hp
      exact cleanChunk_elim_lit (by decide) hp
    apply noOcc_append
    · intro p hp
      exact varChunk_elim_lit hnm (show (str "<div class=\"layout-container layout-")[0]? = some '<' from rfl) (by decide) hp
    apply noOcc_append
    · intro p hp
      exact cleanChunk_elim_lit (by decide) hp
    apply noOcc_append
    · intro p hp
      exact varChunk_elim_lit hds (show (str "<div class=\"layout-container layout-")[0]? = some '<' from rfl) (by decide) hp
    apply noOcc_append
    · intro p hp
      exact cleanChunk_elim_lit (by decide) hp
    apply noOcc_append
    · intro p hp
      exact varChunk_elim_lit hurl (show (str "<div class=\"layout-container layout-")[0]? = some '<' from rfl) (by decide) hp
    apply noOcc_append
    · intro p hp
      exact cleanChunk_elim_lit (by decide) hp
    apply noOcc_append
    · intro p hp
      exact varChunk_elim_lit hicon (show (str "<div class=\"layout-container layout-")[0]? = some '<' from rfl) (by decide) hp
    apply noOcc_append
    · intro p hp
      exact cleanChunk_elim_lit (by decide) hp
    apply noOcc_append
    · intro p hp
      exact varChunk_elim_lit (escapeHtml_all_safe tab.title) (show (str "<div class=\"layout-container layout-")[0]? = some '<' from rfl) (by decide) hp
    apply noOcc_append
    · intro p hp
      exact cleanChunk_elim_lit (by decide) hp
    apply noOcc_append
    · intro p hp
      exact varChunk_elim_lit (escapeHtml_all_safe tab.host) (show (str "<div class=\"layout-container layout-")[0]? = some '<' from rfl) (by decide) hp
    apply noOcc_append
    · intro p hp
      exact cleanChunk_elim_lit (by decide) hp
    apply noOcc_append
    · intro p hp
      exact varChunk_elim_lit (jsToUpper_all_ukey hkey) (show (str "<div class=\"layout-container layout-")[0]? = some '<' from rfl) (by decide) hp
    apply noOcc_append
    · intro p hp
      exact cleanChunk_elim_lit (by decide) hp
    apply noOcc_append
    · intro p hp
      exact varChunk_elim_lit (jsToUpper_all_ukey hck) (show (str "<div class=\"layout-container layout-")[0]? = some '<' from rfl) (by decide) hp
    apply noOcc_append
    · intro p hp
      exact cleanChunk_elim_lit (by decide) hp
    exact noOcc_nil (by decide)
  have hscanC : scanContainers (composeDoc ck cols cat tab) = [(parseDigits (natToChars cols), ck)] := by
    rw [hs0, scanContainers, scanContainersAux_succ_some hTry, scanContainersAux_nil hnil1]
  have hs1 : composeDoc ck cols cat tab = (str "<div class=\"layout-container layout-" ++ (natToChars cols ++ (str "col\" id=\"" ++ (ck ++ (str "-container\">\n  <!-- Container: " ++ (ck ++ (str " -->\n  <!-- CONTAINER_" ++ (jsToUpper ck ++ (str "_CONTENT_START -->\n  "))))))))) ++ (str "<section class=\"" ++ (str "section-" ++ (str "compact" ++ (str " accent-" ++ (cat.accent ++ (str "\" id=\"" ++ (cat.key ++ (str "-section" ++ (str "\">" ++ (str "\n    <header class=\"section-compact__header\">\n      <div class=\"section-compact__title\">" ++ (cat.name ++ (str "</div>\n      <div class=\"section-compact__meta\">" ++ (cat.description ++ (str "</div>\n    </header>\n    <div class=\"compact-links\">\n            <a class=\"compact-link\" href=\"" ++ (tab.url ++ (str "\" target=\"_blank\" rel=\"noopener\">\n        <img src=\"" ++ (tab.iconUrl ++ (str "\" alt=\"\" class=\"compact-icon\">\n        <span class=\"compact-title\">" ++ (escapeHtml tab.title ++ (str "</span>\n        <span class=\"compact-url\">" ++ (escapeHtml tab.host ++ (str "</span>\n      </a>\n      <!-- " ++ (jsToUpper cat.key ++ (str "_LINKS_END -->\n    </div>\n  </section>\n  <!-- CONTAINER_" ++ (jsToUpper ck ++ (str "_CONTENT_END -->\n</div>\n\n" ++ (([] : Str)))))))))))))))))))))))))))) := by
    rw [hs0]
    simp only [List.append_assoc]
    rfl
  have hskip1 : ∀ p, p < (str "<div class=\"layout-container layout-" ++ (natToChars cols ++ (str "col\" id=\"" ++ (ck ++ (str "-container\">\n  <!-- Container: " ++ (ck ++ (str " -->\n  <!-- CONTAINER_" ++ (jsToUpper ck ++ (str "_CONTENT_START -->\n  "))))))))).length → ¬ IsPref (str "<section class=\"") (((str "<div class=\"layout-container layout-" ++ (natToChars cols ++ (str "col\" id=\"" ++ (ck ++ (str "-container\">\n  <!-- Container: " ++ (ck ++ (str " -->\n  <!-- CONTAINER_" ++ (jsToUpper ck ++ (str "_CONTENT_START -->\n  "))))))))) ++ (str "<section class=\"" ++ (str "section-" ++ (str "compact" ++ (str " accent-" ++ (cat.accent ++ (str "\" id=\"" ++ (cat.key ++ (str "-section" ++ (str "\">" ++ (str "\n    <header class=\"section-compact__header\">\n      <div class=\"section-compact__title\">" ++ (cat.name ++ (str "</div>\n      <div class=\"section-compact__meta\">" ++ (cat.description ++ (str "</div>\n    </header>\n    <div class=\"compact-links\">\n            <a class=\"compact-link\" href=\"" ++ (tab.url ++ (str "\" target=\"_blank\" rel=\"noopener\">\n        <img src=\"" ++ (tab.iconUrl ++ (str "\" alt=\"\" class=\"compact-icon\">\n        <span class=\"compact-title\">" ++ (escapeHtml tab.title ++ (str "</span>\n        <span class=\"compact-url\">" ++ (escapeHtml tab.host ++ (str "</span>\n      </a>\n      <!-- " ++ (jsToUpper cat.key ++ (str "_LINKS_END -->\n    </div>\n  </section>\n  <!-- CONTAINER_" ++ (jsToUpper ck ++ (str "_CONTENT_END -->\n</div>\n\n" ++ (([] : Str))))))))))))))))))))))))))))).drop p) := by
    refine pref_chunks ?_ (pref_chunks ?_ (pref_chunks ?_ (pref_chunks ?_ (pref_chunks ?_ (pref_chunks ?_ (pref_chunks ?_ (pref_chunks ?_ (?_))))))))
    · intro p hp
      exact cleanChunk_elim_lit (by decide) hp
    · intro p hp
      exact varChunk_elim_lit (natToChars_all_digits cols) (show (str "<section class=\"")[0]? = some '<' from rfl) (by decide) hp
    · intro p hp
      exact cleanChunk_elim_lit (by decide) hp
    · intro p hp
      exact varChunk_elim_lit hck (show (str "<section class=\"")[0]? = some '<' from rfl) (by decide) hp
    · intro p hp
      exact cleanChunk_elim_lit (by decide) hp
    · intro p hp
      exact varChunk_elim_lit hck (show (str "<section class=\"")[0]? = some '<' from rfl) (by decide) hp
    · intro p hp
      exact cleanChunk_elim_lit (by decide) hp
    · intro p hp
      exact varChunk_elim_lit (jsToUpper_all_ukey hck) (show (str "<section class=\"")[0]? = some '<' from rfl) (by decide) hp
    · intro p hp
      exact cleanChunk_elim_lit (by decide) hp
  have hTryS : trySectionAt (str "<section class=\"" ++ (str "section-" ++ (str "compact" ++ (str " accent-" ++ (cat.accent ++ (str "\" id=\"" ++ (cat.key ++ (str "-section" ++ (str "\">" ++ (str "\n    <header class=\"section-compact__header\">\n      <div class=\"section-compact__title\">" ++ (cat.name ++ (str "</div>\n      <div class=\"section-compact__meta\">" ++ (cat.description ++ (str "</div>\n    </header>\n    <div class=\"compact-links\">\n            <a class=\"compact-link\" href=\"" ++ (tab.url ++ (str "\" target=\"_blank\" rel=\"noopener\">\n        <img src=\"" ++ (tab.iconUrl ++ (str "\" alt=\"\" class=\"compact-icon\">\n        <span class=\"compact-title\">" ++ (escapeHtml tab.title ++ (str "</span>\n        <span class=\"compact-url\">" ++ (escapeHtml tab.host ++ (str "</span>\n      </a>\n      <!-- " ++ (jsToUpper cat.key ++ (str "_LINKS_END -->\n    </div>\n  </section>\n  <!-- CONTAINER_" ++ (jsToUpper ck ++ (str "_CONTENT_END -->\n</div>\n\n" ++ (([] : Str)))))))))))))))))))))))))))) = some ((str "section-" ++ str "compact", cat.accent, cat.key), str "\n    <header class=\"section-compact__header\">\n      <div class=\"section-compact__title\">" ++ (cat.name ++ (str "</div>\n      <div class=\"section-compact__meta\">" ++ (cat.description ++ (str "</div>\n    </header>\n    <div class=\"compact-links\">\n            <a class=\"compact-link\" href=\"" ++ (tab.url ++ (str "\" target=\"_blank\" rel=\"noopener\">\n        <img src=\"" ++ (tab.iconUrl ++ (str "\" alt=\"\" class=\"compact-icon\">\n        <span class=\"compact-title\">" ++ (escapeHtml tab.title ++ (str "</span>\n        <span class=\"compact-url\">" ++ (escapeHtml tab.host ++ (str "</span>\n      </a>\n      <!-- " ++ (jsToUpper cat.key ++ (str "_LINKS_END -->\n    </div>\n  </section>\n  <!-- CONTAINER_" ++ (jsToUpper ck ++ (str "_CONTENT_END -->\n</div>\n\n" ++ (([] : Str))))))))))))))))))) :=
    trySectionAt_eval (by decide) (by decide) hacc haccn hkeyq hkeyn
  have hnil2 : ∀ p, ¬ OccAt (str "<section class=\"") (str "\n    <header class=\"section-compact__header\">\n      <div class=\"section-compact__title\">" ++ (cat.name ++ (str "</div>\n      <div class=\"section-compact__meta\">" ++ (cat.description ++ (str "</div>\n    </header>\n    <div class=\"compact-links\">\n            <a class=\"compact-link\" href=\"" ++ (tab.url ++ (str "\" target=\"_blank\" rel=\"noopener\">\n        <img src=\"" ++ (tab.iconUrl ++ (str "\" alt=\"\" class=\"compact-icon\">\n        <span class=\"compact-title\">" ++ (escapeHtml tab.title ++ (str "</span>\n        <span class=\"compact-url\">" ++ (escapeHtml tab.host ++ (str "</span>\n      </a>\n      <!-- " ++ (jsToUpper cat.key ++ (str "_LINKS_END -->\n    </div>\n  </section>\n  <!-- CONTAINER_" ++ (jsToUpper ck ++ (str "_CONTENT_END -->\n</div>\n\n" ++ (([] : Str))))))))))))))))))) p := by
    apply noOcc_append
    · intro p hp
      exact cleanChunk_elim_lit (by decide) hp
    apply noOcc_append
    · intro p hp
      exact varChunk_elim_lit hnm (show (str "<section class=\"")[0]? = some '<' from rfl) (by decide) hp
    apply noOcc_append
    · intro p hp
      exact cleanChunk_elim_lit (by decide) hp
    apply noOcc_append
    · intro p hp
      exact varChunk_elim_lit hds (show (str "<section class=\"")[0]? = some '<' from rfl) (by decide) hp
    apply noOcc_append
    · intro p hp
      exact cleanChunk_elim_lit (by decide) hp
    apply noOcc_append
    · intro p hp
      exact varChunk_elim_lit hurl (show (str "<section class=\"")[0]? = some '<' from rfl) (by decide) hp
    apply noOcc_append
    · intro p hp
      exact cleanChunk_elim_lit (by decide) hp
    apply noOcc_append
    · intro p hp
      exact varChunk_elim_lit hicon (show (str "<section class=\"")[0]? = some '<' from rfl) (by decide) hp
    apply noOcc_append
    · intro p hp
      exact cleanChunk_elim_lit (by decide) hp
    apply noOcc_append
    · intro p hp
      exact varChunk_elim_lit (escapeHtml_all_safe tab.title) (show (str "<section class=\"")[0]? = some '<' from rfl) (by decide) hp
    apply noOcc_append
    · intro p hp
      exact cleanChunk_elim_lit (by decide) hp
    apply noOcc_append
    · intro p hp
      exact varChunk_elim_lit (escapeHtml_all_safe tab.host) (show (str "<section class=\"")[0]? = some '<' from rfl) (by decide) hp
    apply noOcc_append
    · intro p hp
      exact cleanChunk_elim_lit (by decide) hp
    apply noOcc_append
    · intro p hp
      exact varChunk_elim_lit (jsToUpper_all_ukey hkey) (show (str "<section class=\"")[0]? = some '<' from rfl) (by decide) hp
    apply noOcc_append
    · intro p hp
      exact cleanChunk_elim_lit (by decide) hp
    apply noOcc_append
    · intro p hp
      exact varChunk_elim_lit (jsToUpper_all_ukey hck) (show (str "<section class=\"")[0]? = some '<' from rfl) (by decide) hp
    apply noOcc_append
    · intro p hp
      exact cleanChunk_elim_lit (by decide) hp
    exact noOcc_nil (by decide)
  have hscanS : scanSections (composeDoc ck cols cat tab) =
      [(str "section-" ++ str "compact", cat.accent, cat.key)] := by
    rw [hs1, scanSections, List.length_append, Nat.add_assoc,
      scanSectionsAux_skip hskip1, scanSectionsAux_succ_some hTryS,
      scanSectionsAux_nil hnil2]
  have hs2 : composeDoc ck cols cat tab = (str "<div class=\"layout-container layout-" ++ (natToChars cols ++ (str "col\" id=\"" ++ (ck ++ (str "-container\">\n  <!-- Container: " ++ (ck ++ (str " -->\n  <!-- CONTAINER_" ++ (jsToUpper ck ++ (str "_CONTENT_START -->\n  <section class=\"section-compact accent-" ++ (cat.accent ++ (str "\" "))))))))))) ++ (str "id=\"" ++ (cat.key ++ (str "-section\"" ++ (str ">" ++ (str "\n    <header class=\"section-compact__header\">\n      <div class=\"section-compact__title\">" ++ (cat.name ++ (str "</div>\n      <div class=\"section-compact__meta\">" ++ (cat.description ++ (str "</div>\n    </header>\n    <div class=\"compact-links\">\n            <a class=\"compact-link\" href=\"" ++ (tab.url ++ (str "\" target=\"_blank\" rel=\"noopener\">\n        <img src=\"" ++ (tab.iconUrl ++ (str "\" alt=\"\" class=\"compact-icon\">\n        <span class=\"compact-title\">" ++ (escapeHtml tab.title ++ (str "</span>\n        <span class=\"compact-url\">" ++ (escapeHtml tab.host ++ (str "</span>\n      </a>\n      <!-- " ++ (jsToUpper cat.key ++ (str "_LINKS_END -->\n    </div>\n  </section>\n  <!-- CONTAINER_" ++ (jsToUpper ck ++ (str "_CONTENT_END -->\n</div>\n\n" ++ (([] : Str))))))))))))))))))))))) := by
    rw [hs0]
    simp only [List.append_assoc]
    rfl
  have hTokPref : IsPref (sectionToken cat.key) (str "id=\"" ++ (cat.key ++ (str "-section\"" ++ (str ">" ++ (str "\n    <header class=\"section-compact__header\">\n      <div class=\"section-compact__title\">" ++ (cat.name ++ (str "</div>\n      <div class=\"section-compact__meta\">" ++ (cat.description ++ (str "</div>\n    </header>\n    <div class=\"compact-links\">\n            <a class=\"compact-link\" href=\"" ++ (tab.url ++ (str "\" target=\"_blank\" rel=\"noopener\">\n        <img src=\"" ++ (tab.iconUrl ++ (str "\" alt=\"\" class=\"compact-icon\">\n        <span class=\"compact-title\">" ++ (escapeHtml tab.title ++ (str "</span>\n        <span class=\"compact-url\">" ++ (escapeHtml tab.host ++ (str "</span>\n      </a>\n      <!-- " ++ (jsToUpper cat.key ++ (str "_LINKS_END -->\n    </div>\n  </section>\n  <!-- CONTAINER_" ++ (jsToUpper ck ++ (str "_CONTENT_END -->\n</div>\n\n" ++ (([] : Str))))))))))))))))))))))) := by
    refine ⟨str ">" ++ (str "\n    <header class=\"section-compact__header\">\n      <div class=\"section-compact__title\">" ++ (cat.name ++ (str "</div>\n      <div class=\"section-compact__meta\">" ++ (cat.description ++ (str "</div>\n    </header>\n    <div class=\"compact-links\">\n            <a class=\"compact-link\" href=\"" ++ (tab.url ++ (str "\" target=\"_blank\" rel=\"noopener\">\n        <img src=\"" ++ (tab.iconUrl ++ (str "\" alt=\"\" class=\"compact-icon\">\n        <span class=\"compact-title\">" ++ (escapeHtml tab.title ++ (str "</span>\n        <span class=\"compact-url\">" ++ (escapeHtml tab.host ++ (str "</span>\n      </a>\n      <!-- " ++ (jsToUpper cat.key ++ (str "_LINKS_END -->\n    </div>\n  </section>\n  <!-- CONTAINER_" ++ (jsToUpper ck ++ (str "_CONTENT_END -->\n</div>\n\n" ++ (([] : Str))))))))))))))))))), ?_⟩
    simp only [sectionToken, List.append_assoc]
  have hskip2 : ∀ p, p < (str "<div class=\"layout-container layout-" ++ (natToChars cols ++ (str "col\" id=\"" ++ (ck ++ (str "-container\">\n  <!-- Container: " ++ (ck ++ (str " -->\n  <!-- CONTAINER_" ++ (jsToUpper ck ++ (str "_CONTENT_START -->\n  <section class=\"section-compact accent-" ++ (cat.accent ++ (str "\" "))))))))))).length → ¬ IsPref (str "id=\"" ++ (cat.key ++ str "-section\"")) (((str "<div class=\"layout-container layout-" ++ (natToChars cols ++ (str "col\" id=\"" ++ (ck ++ (str "-container\">\n  <!-- Container: " ++ (ck ++ (str " -->\n  <!-- CONTAINER_" ++ (jsToUpper ck ++ (str "_CONTENT_START -->\n  <section class=\"section-compact accent-" ++ (cat.accent ++ (str "\" "))))))))))) ++ (str "id=\"" ++ (cat.key ++ (str "-section\"" ++ (str ">" ++ (str "\n    <header class=\"section-compact__header\">\n      <div class=\"section-compact__title\">" ++ (cat.name ++ (str "</div>\n      <div class=\"section-compact__meta\">" ++ (cat.description ++ (str "</div>\n    </header>\n    <div class=\"compact-links\">\n            <a class=\"compact-link\" href=\"" ++ (tab.url ++ (str "\" target=\"_blank\" rel=\"noopener\">\n        <img src=\"" ++ (tab.iconUrl ++ (str "\" alt=\"\" class=\"compact-icon\">\n        <span class=\"compact-title\">" ++ (escapeHtml tab.title ++ (str "</span>\n        <span class=\"compact-url\">" ++ (escapeHtml tab.host ++ (str "</span>\n      </a>\n      <!-- " ++ (jsToUpper cat.key ++ (str "_LINKS_END -->\n    </div>\n  </section>\n  <!-- CONTAINER_" ++ (jsToUpper ck ++ (str "_CONTENT_END -->\n</div>\n\n" ++ (([] : Str)))))))))))))))))))))))).drop p) := by
    refine pref_chunks ?_ (pref_chunks ?_ (pref_chunks ?_ (pref_chunks ?_ (pref_chunks ?_ (pref_chunks ?_ (pref_chunks ?_ (pref_chunks ?_ (pref_chunks ?_ (pref_chunks ?_ (?_))))))))))
    · intro p hp
      exact cleanChunk_elim (by decide) hp
    · intro p hp
      refine varChunk_elim (natToChars_all_digits cols) idlit_0 (by decide) ?_ hp
      intro m h1 h2
      exact absurd (Nat.le_trans h1 h2) (by decide)
    · intro p hp
      have hp9 : p < 9 := hp
      interval_cases p
      · exact isPref_head_ne pat_head
          (lit_drop_head (show (str "col\" id=\"")[0]? = some 'c' from rfl) (by decide))
          (by decide)
      · exact isPref_head_ne pat_head
          (lit_drop_head (show (str "col\" id=\"")[1]? = some 'o' from rfl) (by decide))
          (by decide)
      · exact isPref_head_ne pat_head
          (lit_drop_head (show (str "col\" id=\"")[2]? = some 'l' from rfl) (by decide))
          (by decide)
      · exact isPref_head_ne pat_head
          (lit_drop_head (show (str "col\" id=\"")[3]? = some '\x22' from rfl) (by decide))
          (by decide)
      · exact isPref_head_ne pat_head
          (lit_drop_head (show (str "col\" id=\"")[4]? = some ' ' from rfl) (by decide))
          (by decide)
      · intro h
        have h2 := isPref_cancel_left h
        simp only [List.append_assoc] at h2
        have h3 := (key_align (K := isKeyCharB) (L := str "-container\">\n  <!-- Container: ") hkey hck
          (show (str "-section\"")[8]? = some '"' by decide)
          (by decide) (by decide) (by decide) (by decide) h2).2
        exact isPref_ne_at (show (str "-section\"")[1]? = some 's' from rfl)
          (lit_head2) (by decide) h3
      · exact isPref_head_ne pat_head
          (lit_drop_head (show (str "col\" id=\"")[6]? = some 'd' from rfl) (by decide))
          (by decide)
      · exact isPref_head_ne pat_head
          (lit_drop_head (show (str "col\" id=\"")[7]? = some '=' from rfl) (by decide))
          (by decide)
      · exact isPref_head_ne pat_head
          (lit_drop_head (show (str "col\" id=\"")[8]? = some '\x22' from rfl) (by decide))
          (by decide)
    · intro p hp
      refine varChunk_elim hck idlit_2 (by decide) ?_ hp
      intro m h1 h2
      rcases (by omega : m = 1 ∨ m = 2) with rfl | rfl
      · exact isPref_head_ne pat_drop1 lit_head (by decide)
      · exact isPref_head_ne pat_drop2 lit_head (by decide)
    · intro p hp
      exact cleanChunk_elim (by decide) hp
    · intro p hp
      refine varChunk_elim hck idlit_2 (by decide) ?_ hp
      intro m h1 h2
      rcases (by omega : m = 1 ∨ m = 2) with rfl | rfl
      · exact isPref_head_ne pat_drop1 lit_head (by decide)
      · exact isPref_head_ne pat_drop2 lit_head (by decide)
    · intro p hp
      exact cleanChunk_elim (by decide) hp
    · intro p hp
      refine varChunk_elim (jsToUpper_all_ukey hck) idlit_0 (by decide) ?_ hp
      intro m h1 h2
      exact absurd (Nat.le_trans h1 h2) (by decide)
    · intro p hp
      exact cleanChunk_elim (by decide) hp
    · intro p hp
      refine varChunk_elim hacc idlit_2 (by decide) ?_ hp
      intro m h1 h2
      rcases (by omega : m = 1 ∨ m = 2) with rfl | rfl
      · exact isPref_head_ne pat_drop1 lit_head (by decide)
      · exact isPref_head_ne pat_drop2 lit_head (by decide)
    · intro p hp
      exact cleanChunk_elim (by decide) hp
  have hTok : sectionToken cat.key = str "id=\"" ++ (cat.key ++ str "-section\"") := by
    rw [sectionToken, List.append_assoc]
  have hidxTok : indexOf? (sectionToken cat.key) (composeDoc ck cols cat tab) =
      some ((str "<div class=\"layout-container layout-" ++ (natToChars cols ++ (str "col\" id=\"" ++ (ck ++ (str "-container\">\n  <!-- Container: " ++ (ck ++ (str " -->\n  <!-- CONTAINER_" ++ (jsToUpper ck ++ (str "_CONTENT_START -->\n  <section class=\"section-compact accent-" ++ (cat.accent ++ (str "\" ")))))))))))).length := by
    rw [hs2]
    refine indexOf?_eq_some_of (occAt_at_split hTokPref) ?_
    intro q hq hocc
    rw [hTok] at hocc
    exact hskip2 q hq hocc
  have hdrop2 : (composeDoc ck cols cat tab).drop ((str "<div class=\"layout-container layout-" ++ (natToChars cols ++ (str "col\" id=\"" ++ (ck ++ (str "-container\">\n  <!-- Container: " ++ (ck ++ (str " -->\n  <!-- CONTAINER_" ++ (jsToUpper ck ++ (str "_CONTENT_START -->\n  <section class=\"section-compact accent-" ++ (cat.accent ++ (str "\" ")))))))))))).length = str "id=\"" ++ (cat.key ++ (str "-section\"" ++ (str ">" ++ (str "\n    <header class=\"section-compact__header\">\n      <div class=\"section-compact__title\">" ++ (cat.name ++ (str "</div>\n      <div class=\"section-compact__meta\">" ++ (cat.description ++ (str "</div>\n    </header>\n    <div class=\"compact-links\">\n            <a class=\"compact-link\" href=\"" ++ (tab.url ++ (str "\" target=\"_blank\" rel=\"noopener\">\n        <img src=\"" ++ (tab.iconUrl ++ (str "\" alt=\"\" class=\"compact-icon\">\n        <span class=\"compact-title\">" ++ (escapeHtml tab.title ++ (str "</span>\n        <span class=\"compact-url\">" ++ (escapeHtml tab.host ++ (str "</span>\n      </a>\n      <!-- " ++ (jsToUpper cat.key ++ (str "_LINKS_END -->\n    </div>\n  </section>\n  <!-- CONTAINER_" ++ (jsToUpper ck ++ (str "_CONTENT_END -->\n</div>\n\n" ++ (([] : Str)))))))))))))))))))))) := by
    rw [hs2]
    exact List.drop_left _ _
  have hs3 : (str "id=\"" ++ (cat.key ++ (str "-section\"" ++ (str ">" ++ (str "\n    <header class=\"section-compact__header\">\n      <div class=\"section-compact__title\">" ++ (cat.name ++ (str "</div>\n      <div class=\"section-compact__meta\">" ++ (cat.description ++ (str "</div>\n    </header>\n    <div class=\"compact-links\">\n            <a class=\"compact-link\" href=\"" ++ (tab.url ++ (str "\" target=\"_blank\" rel=\"noopener\">\n        <img src=\"" ++ (tab.iconUrl ++ (str "\" alt=\"\" class=\"compact-icon\">\n        <span class=\"compact-title\">" ++ (escapeHtml tab.title ++ (str "</span>\n        <span class=\"compact-url\">" ++ (escapeHtml tab.host ++ (str "</span>\n      </a>\n      <!-- " ++ (jsToUpper cat.key ++ (str "_LINKS_END -->\n    </div>\n  </section>\n  <!-- CONTAINER_" ++ (jsToUpper ck ++ (str "_CONTENT_END -->\n</div>\n\n" ++ (([] : Str))))))))))))))))))))))) = (str "id=\"" ++ (cat.key ++ (str "-section\">\n    <header class=\"section-compact__header\">\n      " ++ (str "<div class=\"section-compact__title\">" ++ (cat.name ++ (str "</div>\n      " ++ (str "<div class=\"section-compact__meta\">" ++ (cat.description ++ (str "</div>"))))))))) ++ (str "\n    </header>\n    <div class=\"compact-links\">\n            <a class=\"compact-link\" href=\"" ++ (tab.url ++ (str "\" target=\"_blank\" rel=\"noopener\">\n        <img src=\"" ++ (tab.iconUrl ++ (str "\" alt=\"\" class=\"compact-icon\">\n        <span class=\"compact-title\">" ++ (escapeHtml tab.title ++ (str "</span>\n        <span class=\"compact-url\">" ++ (escapeHtml tab.host ++ (str "</span>\n      </a>\n      <!-- " ++ (jsToUpper cat.key ++ (str "_LINKS_END -->\n    </div>\n  </section>\n  <!-- CONTAINER_" ++ (jsToUpper ck ++ (str "_CONTENT_END -->\n</div>\n\n" ++ (([] : Str))))))))))))))) := by
    simp only [List.append_assoc]
    rfl
  have hF1len : (str "id=\"" ++ (cat.key ++ (str "-section\">\n    <header class=\"section-compact__header\">\n      " ++ (str "<div class=\"section-compact__title\">" ++ (cat.name ++ (str "</div>\n      " ++ (str "<div class=\"section-compact__meta\">" ++ (cat.description ++ (str "</div>"))))))))).length = cat.key.length + cat.name.length + cat.description.length + 156 := by
    simp only [List.length_append]
    rw [show (str "id=\"").length = 4 from rfl, show (str "-section\">\n    <header class=\"section-compact__header\">\n      ").length = 62 from rfl,
      show (str "<div class=\"section-compact__title\">").length = 36 from rfl, show (str "</div>\n      ").length = 13 from rfl,
      show (str "<div class=\"section-compact__meta\">").length = 35 from rfl, show (str "</div>").length = 6 from rfl]
    omega
  have htake : ((str "id=\"" ++ (cat.key ++ (str "-section\">\n    <header class=\"section-compact__header\">\n      " ++ (str "<div class=\"section-compact__title\">" ++ (cat.name ++ (str "</div>\n      " ++ (str "<div class=\"section-compact__meta\">" ++ (cat.description ++ (str "</div>"))))))))) ++ (str "\n    </header>\n    <div class=\"compact-links\">\n            <a class=\"compact-link\" href=\"" ++ (tab.url ++ (str "\" target=\"_blank\" rel=\"noopener\">\n        <img src=\"" ++ (tab.iconUrl ++ (str "\" alt=\"\" class=\"compact-icon\">\n        <span class=\"compact-title\">" ++ (escapeHtml tab.title ++ (str "</span>\n        <span class=\"compact-url\">" ++ (escapeHtml tab.host ++ (str "</span>\n      </a>\n      <!-- " ++ (jsToUpper cat.key ++ (str "_LINKS_END -->\n    </div>\n  </section>\n  <!-- CONTAINER_" ++ (jsToUpper ck ++ (str "_CONTENT_END -->\n</div>\n\n" ++ (([] : Str)))))))))))))))).take 500 = str "id=\"" ++ (cat.key ++ (str "-section\">\n    <header class=\"section-compact__header\">\n      " ++ (str "<div class=\"section-compact__title\">" ++ (cat.name ++ (str "</div>\n      " ++ (str "<div class=\"section-compact__meta\">" ++ (cat.description ++ (str "</div>")))))))) ++ (str "\n    </header>\n    <div class=\"compact-links\">\n            <a class=\"compact-link\" href=\"" ++ (tab.url ++ (str "\" target=\"_blank\" rel=\"noopener\">\n        <img src=\"" ++ (tab.iconUrl ++ (str "\" alt=\"\" class=\"compact-icon\">\n        <span class=\"compact-title\">" ++ (escapeHtml tab.title ++ (str "</span>\n        <span class=\"compact-url\">" ++ (escapeHtml tab.host ++ (str "</span>\n      </a>\n      <!-- " ++ (jsToUpper cat.key ++ (str "_LINKS_END -->\n    </div>\n  </section>\n  <!-- CONTAINER_" ++ (jsToUpper ck ++ (str "_CONTENT_END -->\n</div>\n\n" ++ (([] : Str))))))))))))))).take (500 - (str "id=\"" ++ (cat.key ++ (str "-section\">\n    <header class=\"section-compact__header\">\n      " ++ (str "<div class=\"section-compact__title\">" ++ (cat.name ++ (str "</div>\n      " ++ (str "<div class=\"section-compact__meta\">" ++ (cat.description ++ (str "</div>"))))))))).length) := by
    rw [List.take_append_eq_append_take, List.take_of_length_le (by rw [hF1len]; omega)]
  have hsw1 : (str "id=\"" ++ (cat.key ++ (str "-section\">\n    <header class=\"section-compact__header\">\n      " ++ (str "<div class=\"section-compact__title\">" ++ (cat.name ++ (str "</div>\n      " ++ (str "<div class=\"section-compact__meta\">" ++ (cat.description ++ (str "</div>")))))))) ++ (str "\n    </header>\n    <div class=\"compact-links\">\n            <a class=\"compact-link\" href=\"" ++ (tab.url ++ (str "\" target=\"_blank\" rel=\"noopener\">\n        <img src=\"" ++ (tab.iconUrl ++ (str "\" alt=\"\" class=\"compact-icon\">\n        <span class=\"compact-title\">" ++ (escapeHtml tab.title ++ (str "</span>\n        <span class=\"compact-url\">" ++ (escapeHtml tab.host ++ (str "</span>\n      </a>\n      <!-- " ++ (jsToUpper cat.key ++ (str "_LINKS_END -->\n    </div>\n  </section>\n  <!-- CONTAINER_" ++ (jsToUpper ck ++ (str "_CONTENT_END -->\n</div>\n\n" ++ (([] : Str))))))))))))))).take (500 - (str "id=\"" ++ (cat.key ++ (str "-section\">\n    <header class=\"section-compact__header\">\n      " ++ (str "<div class=\"section-compact__title\">" ++ (cat.name ++ (str "</div>\n      " ++ (str "<div class=\"section-compact__meta\">" ++ (cat.description ++ (str "</div>"))))))))).length)) = (str "id=\"" ++ (cat.key ++ (str "-section\">\n    <header class=\"section-compact__header\">\n      "))) ++ ((str "<div class=\"" ++ (str "section-" ++ str "compact") ++ str "__title\">") ++ (cat.name ++ (str "</div>" ++ (str "\n      " ++ (str "<div class=\"section-compact__meta\">" ++ (cat.description ++ (str "</div>" ++ (str "\n    </header>\n    <div class=\"compact-links\">\n            <a class=\"compact-link\" href=\"" ++ (tab.url ++ (str "\" target=\"_blank\" rel=\"noopener\">\n        <img src=\"" ++ (tab.iconUrl ++ (str "\" alt=\"\" class=\"compact-icon\">\n        <span class=\"compact-title\">" ++ (escapeHtml tab.title ++ (str "</span>\n        <span class=\"compact-url\">" ++ (escapeHtml tab.host ++ (str "</span>\n      </a>\n      <!-- " ++ (jsToUpper cat.key ++ (str "_LINKS_END -->\n    </div>\n  </section>\n  <!-- CONTAINER_" ++ (jsToUpper ck ++ (str "_CONTENT_END -->\n</div>\n\n" ++ (([] : Str))))))))))))))).take (500 - (str "id=\"" ++ (cat.key ++ (str "-section\">\n    <header class=\"section-compact__header\">\n      " ++ (str "<div class=\"section-compact__title\">" ++ (cat.name ++ (str "</div>\n      " ++ (str "<div class=\"section-compact__meta\">" ++ (cat.description ++ (str "</div>"))))))))).length)))))))) := by
    simp only [List.append_assoc]
    rfl
  have hskipT : ∀ p, p < (str "id=\"" ++ (cat.key ++ (str "-section\">\n    <header class=\"section-compact__header\">\n      "))).length → ¬ IsPref (str "<div class=\"" ++ (str "section-" ++ str "compact") ++ str "__title\">")
      (((str "id=\"" ++ (cat.key ++ (str "-section\">\n    <header class=\"section-compact__header\">\n      "))) ++ ((str "<div class=\"" ++ (str "section-" ++ str "compact") ++ str "__title\">") ++ (cat.name ++ (str "</div>" ++ (str "\n      " ++ (str "<div class=\"section-compact__meta\">" ++ (cat.description ++ (str "</div>" ++ (str "\n    </header>\n    <div class=\"compact-links\">\n            <a class=\"compact-link\" href=\"" ++ (tab.url ++ (str "\" target=\"_blank\" rel=\"noopener\">\n        <img src=\"" ++ (tab.iconUrl ++ (str "\" alt=\"\" class=\"compact-icon\">\n        <span class=\"compact-title\">" ++ (escapeHtml tab.title ++ (str "</span>\n        <span class=\"compact-url\">" ++ (escapeHtml tab.host ++ (str "</span>\n      </a>\n      <!-- " ++ (jsToUpper cat.key ++ (str "_LINKS_END -->\n    </div>\n  </section>\n  <!-- CONTAINER_" ++ (jsToUpper ck ++ (str "_CONTENT_END -->\n</div>\n\n" ++ (([] : Str))))))))))))))).take (500 - (str "id=\"" ++ (cat.key ++ (str "-section\">\n    <header class=\"section-compact__header\">\n      " ++ (str "<div class=\"section-compact__title\">" ++ (cat.name ++ (str "</div>\n      " ++ (str "<div class=\"section-compact__meta\">" ++ (cat.description ++ (str "</div>"))))))))).length))))))))).drop p) := by
    refine pref_chunks ?_ (pref_chunks ?_ (?_))
    · intro p hp
      exact cleanChunk_elim_lit (by decide) hp
    · intro p hp
      exact varChunk_elim_lit hkey (show (str "<div class=\"" ++ (str "section-" ++ str "compact") ++ str "__title\">")[0]? = some '<' from rfl) (by decide) hp
    · intro p hp
      exact cleanChunk_elim_lit (by decide) hp
  have hTitle : findDivText false (str "<div class=\"" ++ (str "section-" ++ str "compact") ++ str "__title\">") (str "id=\"" ++ (cat.key ++ (str "-section\">\n    <header class=\"section-compact__header\">\n      " ++ (str "<div class=\"section-compact__title\">" ++ (cat.name ++ (str "</div>\n      " ++ (str "<div class=\"section-compact__meta\">" ++ (cat.description ++ (str "</div>")))))))) ++ (str "\n    </header>\n    <div class=\"compact-links\">\n            <a class=\"compact-link\" href=\"" ++ (tab.url ++ (str "\" target=\"_blank\" rel=\"noopener\">\n        <img src=\"" ++ (tab.iconUrl ++ (str "\" alt=\"\" class=\"compact-icon\">\n        <span class=\"compact-title\">" ++ (escapeHtml tab.title ++ (str "</span>\n        <span class=\"compact-url\">" ++ (escapeHtml tab.host ++ (str "</span>\n      </a>\n      <!-- " ++ (jsToUpper cat.key ++ (str "_LINKS_END -->\n    </div>\n  </section>\n  <!-- CONTAINER_" ++ (jsToUpper ck ++ (str "_CONTENT_END -->\n</div>\n\n" ++ (([] : Str))))))))))))))).take (500 - (str "id=\"" ++ (cat.key ++ (str "-section\">\n    <header class=\"section-compact__header\">\n      " ++ (str "<div class=\"section-compact__title\">" ++ (cat.name ++ (str "</div>\n      " ++ (str "<div class=\"section-compact__meta\">" ++ (cat.description ++ (str "</div>"))))))))).length)) = some cat.name := by
    rw [findDivText, hsw1, List.length_append, Nat.add_assoc, findDivTextAux_skip hskipT,
      findDivTextAux_hit (a := false) (all_mono (bool_class_mono (by decide)) hnm)
        (by rw [isEmpty_false_of_ne_nil hnmn]; rfl)]
  have hsw2 : (str "id=\"" ++ (cat.key ++ (str "-section\">\n    <header class=\"section-compact__header\">\n      " ++ (str "<div class=\"section-compact__title\">" ++ (cat.name ++ (str "</div>\n      " ++ (str "<div class=\"section-compact__meta\">" ++ (cat.description ++ (str "</div>")))))))) ++ (str "\n    </header>\n    <div class=\"compact-links\">\n            <a class=\"compact-link\" href=\"" ++ (tab.url ++ (str "\" target=\"_blank\" rel=\"noopener\">\n        <img src=\"" ++ (tab.iconUrl ++ (str "\" alt=\"\" class=\"compact-icon\">\n        <span class=\"compact-title\">" ++ (escapeHtml tab.title ++ (str "</span>\n        <span class=\"compact-url\">" ++ (escapeHtml tab.host ++ (str "</span>\n      </a>\n      <!-- " ++ (jsToUpper cat.key ++ (str "_LINKS_END -->\n    </div>\n  </section>\n  <!-- CONTAINER_" ++ (jsToUpper ck ++ (str "_CONTENT_END -->\n</div>\n\n" ++ (([] : Str))))))))))))))).take (500 - (str "id=\"" ++ (cat.key ++ (str "-section\">\n    <header class=\"section-compact__header\">\n      " ++ (str "<div class=\"section-compact__title\">" ++ (cat.name ++ (str "</div>\n      " ++ (str "<div class=\"section-compact__meta\">" ++ (cat.description ++ (str "</div>"))))))))).length)) = (str "id=\"" ++ (cat.key ++ (str "-section\">\n    <header class=\"section-compact__header\">\n      " ++ (str "<div class=\"section-compact__title\">" ++ (cat.name ++ (str "</div>\n      ")))))) ++ ((str "<div class=\"" ++ (str "section-" ++ str "compact") ++ str "__meta\">") ++ (cat.description ++ (str "</div>" ++ ((str "\n    </header>\n    <div class=\"compact-links\">\n            <a class=\"compact-link\" href=\"" ++ (tab.url ++ (str "\" target=\"_blank\" rel=\"noopener\">\n        <img src=\"" ++ (tab.iconUrl ++ (str "\" alt=\"\" class=\"compact-icon\">\n        <span class=\"compact-title\">" ++ (escapeHtml tab.title ++ (str "</span>\n        <span class=\"compact-url\">" ++ (escapeHtml tab.host ++ (str "</span>\n      </a>\n      <!-- " ++ (jsToUpper cat.key ++ (str "_LINKS_END -->\n    </div>\n  </section>\n  <!-- CONTAINER_" ++ (jsToUpper ck ++ (str "_CONTENT_END -->\n</div>\n\n" ++ (([] : Str))))))))))))))).take (500 - (str "id=\"" ++ (cat.key ++ (str "-section\">\n    <header class=\"section-compact__header\">\n      " ++ (str "<div class=\"section-compact__title\">" ++ (cat.name ++ (str "</div>\n      " ++ (str "<div class=\"section-compact__meta\">" ++ (cat.description ++ (str "</div>"))))))))).length))))) := by
    simp only [List.append_assoc]
    rfl
  have hskipM : ∀ p, p < (str "id=\"" ++ (cat.key ++ (str "-section\">\n    <header class=\"section-compact__header\">\n      " ++ (str "<div class=\"section-compact__title\">" ++ (cat.name ++ (str "</div>\n      ")))))).length → ¬ IsPref (str "<div class=\"" ++ (str "section-" ++ str "compact") ++ str "__meta\">")
      (((str "id=\"" ++ (cat.key ++ (str "-section\">\n    <header class=\"section-compact__header\">\n      " ++ (str "<div class=\"section-compact__title\">" ++ (cat.name ++ (str "</div>\n      ")))))) ++ ((str "<div class=\"" ++ (str "section-" ++ str "compact") ++ str "__meta\">") ++ (cat.description ++ (str "</div>" ++ ((str "\n    </header>\n    <div class=\"compact-links\">\n            <a class=\"compact-link\" href=\"" ++ (tab.url ++ (str "\" target=\"_blank\" rel=\"noopener\">\n        <img src=\"" ++ (tab.iconUrl ++ (str "\" alt=\"\" class=\"compact-icon\">\n        <span class=\"compact-title\">" ++ (escapeHtml tab.title ++ (str "</span>\n        <span class=\"compact-url\">" ++ (escapeHtml tab.host ++ (str "</span>\n      </a>\n      <!-- " ++ (jsToUpper cat.key ++ (str "_LINKS_END -->\n    </div>\n  </section>\n  <!-- CONTAINER_" ++ (jsToUpper ck ++ (str "_CONTENT_END -->\n</div>\n\n" ++ (([] : Str))))))))))))))).take (500 - (str "id=\"" ++ (cat.key ++ (str "-section\">\n    <header class=\"section-compact__header\">\n      " ++ (str "<div class=\"section-compact__title\">" ++ (cat.name ++ (str "</div>\n      " ++ (str "<div class=\"section-compact__meta\">" ++ (cat.description ++ (str "</div>"))))))))).length)))))).drop p) := by
    refine pref_chunks ?_ (pref_chunks ?_ (pref_chunks ?_ (pref_chunks ?_ (pref_chunks ?_ (?_)))))
    · intro p hp
      exact cleanChunk_elim_lit (by decide) hp
    · intro p hp
      exact varChunk_elim_lit hkey (show (str "<div class=\"" ++ (str "section-" ++ str "compact") ++ str "__meta\">")[0]? = some '<' from rfl) (by decide) hp
    · intro p hp
      exact cleanChunk_elim_lit (by decide) hp
    · intro p hp
      exact cleanChunk_elim_lit (by decide) hp
    · intro p hp
      exact varChunk_elim_lit hnm (show (str "<div class=\"" ++ (str "section-" ++ str "compact") ++ str "__meta\">")[0]? = some '<' from rfl) (by decide) hp
    · intro p hp
      exact cleanChunk_elim_lit (by decide) hp
  have hMeta : findDivText true (str "<div class=\"" ++ (str "section-" ++ str "compact") ++ str "__meta\">") (str "id=\"" ++ (cat.key ++ (str "-section\">\n    <header class=\"section-compact__header\">\n      " ++ (str "<div class=\"section-compact__title\">" ++ (cat.name ++ (str "</div>\n      " ++ (str "<div class=\"section-compact__meta\">" ++ (cat.description ++ (str "</div>")))))))) ++ (str "\n    </header>\n    <div class=\"compact-links\">\n            <a class=\"compact-link\" href=\"" ++ (tab.url ++ (str "\" target=\"_blank\" rel=\"noopener\">\n        <img src=\"" ++ (tab.iconUrl ++ (str "\" alt=\"\" class=\"compact-icon\">\n        <span class=\"compact-title\">" ++ (escapeHtml tab.title ++ (str "</span>\n        <span class=\"compact-url\">" ++ (escapeHtml tab.host ++ (str "</span>\n      </a>\n      <!-- " ++ (jsToUpper cat.key ++ (str "_LINKS_END -->\n    </div>\n  </section>\n  <!-- CONTAINER_" ++ (jsToUpper ck ++ (str "_CONTENT_END -->\n</div>\n\n" ++ (([] : Str))))))))))))))).take (500 - (str "id=\"" ++ (cat.key ++ (str "-section\">\n    <header class=\"section-compact__header\">\n      " ++ (str "<div class=\"section-compact__title\">" ++ (cat.name ++ (str "</div>\n      " ++ (str "<div class=\"section-compact__meta\">" ++ (cat.description ++ (str "</div>"))))))))).length)) = some cat.description := by
    rw [findDivText, hsw2, List.length_append, Nat.add_assoc, findDivTextAux_skip hskipM,
      findDivTextAux_hit (a := true) (all_mono (bool_class_mono (by decide)) hds) rfl]
  constructor
  · rw [extractContainers, hscanC]
    simp [parseDigits_natToChars]
  · rw [extractCategories, hscanS]
    simp only [List.map_cons, List.map_nil]
    rw [hidxTok]
    simp only [Option.getD_some]
    rw [hdrop2, hs3, htake, hTitle, hMeta]
    simp only [Option.getD_some]
    rw [show occursB (str "compact") (str "section-" ++ str "compact") = true from by decide]
    simp [hcase]
    all_goals rfl

/-- Round-trip recovery for the large layout, under the same
well-formedness conditions as the cards case. -/
theorem c1_roundtrip_large
    (ck : Str) (cols : Nat) (cat : Category) (tab : TabInfo)
    (hck : ck.all isKeyCharB = true) (hckn : ck ≠ [])
    (hkey : cat.key.all isKeyCharB = true) (hkeyn : cat.key ≠ [])
    (hacc : cat.accent.all isWordCharB = true) (haccn : cat.accent ≠ [])
    (hnm : cat.name.all benignB = true) (hnmn : cat.name ≠ [])
    (hds : cat.description.all benignB = true)
    (hurl : tab.url.all noTagB = true) (hicon : tab.iconUrl.all noTagB = true)
    (hwin : cat.key.length + cat.name.length + cat.description.length ≤ 344)
    (hcase : cat.layout = str "large") :
    (extractContainers (composeDoc ck cols cat tab)).map (fun c => (c.key, c.columns)) =
      [(ck, cols)] ∧
    (extractCategories (composeDoc ck cols cat tab)).map
      (fun c => (c.key, c.layout, c.accent, c.name, c.description)) =
      [(cat.key, cat.layout, cat.accent, cat.name, cat.description)] := by
  have hckq : (ck ++ str "-container").all (fun c => !(c = '"')) = true := by
    rw [List.all_append, all_mono (bool_class_mono (by decide)) hck]
    rfl
  have hkeyq : (cat.key ++ str "-section").all (fun c => !(c = '"')) = true := by
    rw [List.all_append, all_mono (bool_class_mono (by decide)) hkey]
    rfl
  have hs0 : composeDoc ck cols cat tab =
      str "<div class=\"layout-container layout-" ++ (natToChars cols ++ (str "col\" id=\"" ++ (ck ++ (str "-container" ++ (str "\">" ++ (str "\n  <!-- Container: " ++ (ck ++ (str " -->\n  <!-- CONTAINER_" ++ (jsToUpper ck ++ (str "_CONTENT_START -->\n  <section class=\"section-large accent-" ++ (cat.accent ++ (str "\" id=\"" ++ (cat.key ++ (str "-section\">\n    <header class=\"section-large__header\">\n      <div class=\"section-large__title\">" ++ (cat.name ++ (str "</div>\n      <div class=\"section-large__meta\">" ++ (cat.description ++ (str "</div>\n    </header>\n    <div class=\"large-links\">\n            <a class=\"large-link\" href=\"" ++ (tab.url ++ (str "\" target=\"_blank\" rel=\"noopener\">\n        <div class=\"large-preview\">\n          <img src=\"https://mini.s-shot.ru/1024x768/JPEG/1024/Z100/?" ++ (encodeURIComponent tab.url ++ (str "\" alt=\"Preview\" class=\"large-screenshot\" onerror=\"this.style.display=\x27none\x27;\">\n          <img src=\"" ++ (tab.iconUrl ++ (str "\" alt=\"\" class=\"large-icon\">\n        </div>\n        <div class=\"large-content\">\n          <div class=\"large-title\">" ++ (escapeHtml tab.title ++ (str "</div>\n          <div class=\"large-url\">" ++ (escapeHtml tab.host ++ (str "</div>\n        </div>\n      </a>\n      <!-- " ++ (jsToUpper cat.key ++ (str "_LINKS_END -->\n    </div>\n  </section>\n  <!-- CONTAINER_" ++ (jsToUpper ck ++ (str "_CONTENT_END -->\n</div>\n\n" ++ (([] : Str)))))))))))))))))))))))))))))))))) := by
    simp only [composeDoc, catWithLink, hcase, linkTpl_large, layoutClassOf_large, contentClassOf_large,
      escapeHtml_id_of_benign hnm, escapeHtml_id_of_benign hds, List.append_assoc]
    rfl
  have hTry : tryContainerAt (str "<div class=\"layout-container layout-" ++ (natToChars cols ++ (str "col\" id=\"" ++ (ck ++ (str "-container" ++ (str "\">" ++ (str "\n  <!-- Container: " ++ (ck ++ (str " -->\n  <!-- CONTAINER_" ++ (jsToUpper ck ++ (str "_CONTENT_START -->\n  <section class=\"section-large accent-" ++ (cat.accent ++ (str "\" id=\"" ++ (cat.key ++ (str "-section\">\n    <header class=\"section-large__header\">\n      <div class=\"section-large__title\">" ++ (cat.name ++ (str "</div>\n      <div class=\"section-large__meta\">" ++ (cat.description ++ (str "</div>\n    </header>\n    <div class=\"large-links\">\n            <a class=\"large-link\" href=\"" ++ (tab.url ++ (str "\" target=\"_blank\" rel=\"noopener\">\n        <div class=\"large-preview\">\n          <img src=\"https://mini.s-shot.ru/1024x768/JPEG/1024/Z100/?" ++ (encodeURIComponent tab.url ++ (str "\" alt=\"Preview\" class=\"large-screenshot\" onerror=\"this.style.display=\x27none\x27;\">\n          <img src=\"" ++ (tab.iconUrl ++ (str "\" alt=\"\" class=\"large-icon\">\n        </div>\n        <div class=\"large-content\">\n          <div class=\"large-title\">" ++ (escapeHtml tab.title ++ (str "</div>\n          <div class=\"large-url\">" ++ (escapeHtml tab.host ++ (str "</div>\n        </div>\n      </a>\n      <!-- " ++ (jsToUpper cat.key ++ (str "_LINKS_END -->\n    </div>\n  </section>\n  <!-- CONTAINER_" ++ (jsToUpper ck ++ (str "_CONTENT_END -->\n</div>\n\n" ++ (([] : Str))))))))))))))))))))))))))))))))))) = some ((parseDigits (natToChars cols), ck), str "\n  <!-- Container: " ++ (ck ++ (str " -->\n  <!-- CONTAINER_" ++ (jsToUpper ck ++ (str "_CONTENT_START -->\n  <section class=\"section-large accent-" ++ (cat.accent ++ (str "\" id=\"" ++ (cat.key ++ (str "-section\">\n    <header class=\"section-large__header\">\n      <div class=\"section-large__title\">" ++ (cat.name ++ (str "</div>\n      <div class=\"section-large__meta\">" ++ (cat.description ++ (str "</div>\n    </header>\n    <div class=\"large-links\">\n            <a class=\"large-link\" href=\"" ++ (tab.url ++ (str "\" target=\"_blank\" rel=\"noopener\">\n        <div class=\"large-preview\">\n          <img src=\"https://mini.s-shot.ru/1024x768/JPEG/1024/Z100/?" ++ (encodeURIComponent tab.url ++ (str "\" alt=\"Preview\" class=\"large-screenshot\" onerror=\"this.style.display=\x27none\x27;\">\n          <img src=\"" ++ (tab.iconUrl ++ (str "\" alt=\"\" class=\"large-icon\">\n        </div>\n        <div class=\"large-content\">\n          <div class=\"large-title\">" ++ (escapeHtml tab.title ++ (str "</div>\n          <div class=\"large-url\">" ++ (escapeHtml tab.host ++ (str "</div>\n        </div>\n      </a>\n      <!-- " ++ (jsToUpper cat.key ++ (str "_LINKS_END -->\n    </div>\n  </section>\n  <!-- CONTAINER_" ++ (jsToUpper ck ++ (str "_CONTENT_END -->\n</div>\n\n" ++ (([] : Str))))))))))))))))))))))))))))) :=
    tryContainerAt_eval (natToChars_all_digits cols) (natToChars_ne_nil cols) hckq hckn
  have hnil1 : ∀ p, ¬ OccAt (str "<div class=\"layout-container layout-") (str "\n  <!-- Container: " ++ (ck ++ (str " -->\n  <!-- CONTAINER_" ++ (jsToUpper ck ++ (str "_CONTENT_START -->\n  <section class=\"section-large accent-" ++ (cat.accent ++ (str "\" id=\"" ++ (cat.key ++ (str "-section\">\n    <header class=\"section-large__header\">\n      <div class=\"section-large__title\">" ++ (cat.name ++ (str "</div>\n      <div class=\"section-large__meta\">" ++ (cat.description ++ (str "</div>\n    </header>\n    <div class=\"large-links\">\n            <a class=\"large-link\" href=\"" ++ (tab.url ++ (str "\" target=\"_blank\" rel=\"noopener\">\n        <div class=\"large-preview\">\n          <img src=\"https://mini.s-shot.ru/1024x768/JPEG/1024/Z100/?" ++ (encodeURIComponent tab.url ++ (str "\" alt=\"Preview\" class=\"large-screenshot\" onerror=\"this.style.display=\x27none\x27;\">\n          <img src=\"" ++ (tab.iconUrl ++ (str "\" alt=\"\" class=\"large-icon\">\n        </div>\n        <div class=\"large-content\">\n          <div class=\"large-title\">" ++ (escapeHtml tab.title ++ (str "</div>\n          <div class=\"large-url\">" ++ (escapeHtml tab.host ++ (str "</div>\n        </div>\n      </a>\n      <!-- " ++ (jsToUpper cat.key ++ (str "_LINKS_END -->\n    </div>\n  </section>\n  <!-- CONTAINER_" ++ (jsToUpper ck ++ (str "_CONTENT_END -->\n</div>\n\n" ++ (([] : Str))))))))))))))))))))))))))))) p := by
    apply noOcc_append
    · intro p hp
      exact cleanChunk_elim_lit (by decide) hp
    apply noOcc_append
    · intro p hp
      exact varChunk_elim_lit hck (show (str "<div class=\"layout-container layout-")[0]? = some '<' from rfl) (by decide) hp
    apply noOcc_append
    · intro p hp
      exact cleanChunk_elim_lit (by decide) hp
    apply noOcc_append
    · intro p hp
      exact varChunk_elim_lit (jsToUpper_all_ukey hck) (show (str "<div class=\"layout-container layout-")[0]? = some '<' from rfl) (by decide) hp
    apply noOcc_append
    · intro p hp
      exact cleanChunk_elim_lit (by decide) hp
    apply noOcc_append
    · intro p hp
      exact varChunk_elim_lit hacc (show (str "<div class=\"layout-container layout-")[0]? = some '<' from rfl) (by decide) hp
    apply noOcc_append
    · intro p hp
      exact cleanChunk_elim_lit (by decide) hp
    apply noOcc_append
    · intro p hp
      exact varChunk_elim_lit hkey (show (str "<div class=\"layout-container layout-")[0]? = some '<' from rfl) (by decide) hp
    apply noOcc_append
    · intro p hp
      exact cleanChunk_elim_lit (by decide) hp
    apply noOcc_append
    · intro p hp
      exact varChunk_elim_lit hnm (show (str "<div class=\"layout-container layout-")[0]? = some '<' from rfl) (by decide) hp
    apply noOcc_append
    · intro p hp
      exact cleanChunk_elim_lit (by decide) hp
    apply noOcc_append
    · intro p hp
      exact varChunk_elim_lit hds (show (str "<div class=\"layout-container layout-")[0]? = some '<' from rfl) (by decide) hp
    apply noOcc_append
    · intro p hp
      exact cleanChunk_elim_lit (by decide) hp
    apply noOcc_append
    · intro p hp
      exact varChunk_elim_lit hurl (show (str "<div class=\"layout-container layout-")[0]? = some '<' from rfl) (by decide) hp
    apply noOcc_append
    · intro p hp
      exact cleanChunk_elim_lit (by decide) hp
    apply noOcc_append
    · intro p hp
      exact varChunk_elim_lit (encodeURIComponent_noTag tab.url) (show (str "<div class=\"layout-container layout-")[0]? = some '<' from rfl) (by decide) hp
    apply noOcc_append
    · intro p hp
      exact cleanChunk_elim_lit (by decide) hp
    apply noOcc_append
    · intro p hp
      exact varChunk_elim_lit hicon (show (str "<div class=\"layout-container layout-")[0]? = some '<' from rfl) (by decide) hp
    apply noOcc_append
    · intro p hp
      exact cleanChunk_elim_lit (by decide) hp
    apply noOcc_append
    · intro p hp
      exact varChunk_elim_lit (escapeHtml_all_safe tab.title) (show (str "<div class=\"layout-container layout-")[0]? = some '<' from rfl) (by decide) hp
    apply noOcc_append
    · intro p hp
      exact cleanChunk_elim_lit (by decide) hp
    apply noOcc_append
    · intro p hp
      exact varChunk_elim_lit (escapeHtml_all_safe tab.host) (show (str "<div class=\"layout-container layout-")[0]? = some '<' from rfl) (by decide) hp
    apply noOcc_append
    · intro p hp
      exact cleanChunk_elim_lit (by decide) hp
    apply noOcc_append
    · intro p hp
      exact varChunk_elim_lit (jsToUpper_all_ukey hkey) (show (str "<div class=\"layout-container layout-")[0]? = some '<' from rfl) (by decide) hp
    apply noOcc_append
    · intro p hp
      exact cleanChunk_elim_lit (by decide) hp
    apply noOcc_append
    · intro p hp
      exact varChunk_elim_lit (jsToUpper_all_ukey hck) (show (str "<div class=\"layout-container layout-")[0]? = some '<' from rfl) (by decide) hp
    apply noOcc_append
    · intro p hp
      exact cleanChunk_elim_lit (by decide) hp
    exact noOcc_nil (by decide)
  have hscanC : scanContainers (composeDoc ck cols cat tab) = [(parseDigits (natToChars cols), ck)] := by
    rw [hs0, scanContainers, scanContainersAux_succ_some hTry, scanContainersAux_nil hnil1]
  have hs1 : composeDoc ck cols cat tab = (str "<div class=\"layout-container layout-" ++ (natToChars cols ++ (str "col\" id=\"" ++ (ck ++ (str "-container\">\n  <!-- Container: " ++ (ck ++ (str " -->\n  <!-- CONTAINER_" ++ (jsToUpper ck ++ (str "_CONTENT_START -->\n  "))))))))) ++ (str "<section class=\"" ++ (str "section-" ++ (str "large" ++ (str " accent-" ++ (cat.accent ++ (str "\" id=\"" ++ (cat.key ++ (str "-section" ++ (str "\">" ++ (str "\n    <header class=\"section-large__header\">\n      <div class=\"section-large__title\">" ++ (cat.name ++ (str "</div>\n      <div class=\"section-large__meta\">" ++ (cat.description ++ (str "</div>\n    </header>\n    <div class=\"large-links\">\n            <a class=\"large-link\" href=\"" ++ (tab.url ++ (str "\" target=\"_blank\" rel=\"noopener\">\n        <div class=\"large-preview\">\n          <img src=\"https://mini.s-shot.ru/1024x768/JPEG/1024/Z100/?" ++ (encodeURIComponent tab.url ++ (str "\" alt=\"Preview\" class=\"large-screenshot\" onerror=\"this.style.display=\x27none\x27;\">\n          <img src=\"" ++ (tab.iconUrl ++ (str "\" alt=\"\" class=\"large-icon\">\n        </div>\n        <div class=\"large-content\">\n          <div class=\"large-title\">" ++ (escapeHtml tab.title ++ (str "</div>\n          <div class=\"large-url\">" ++ (escapeHtml tab.host ++ (str "</div>\n        </div>\n      </a>\n      <!-- " ++ (jsToUpper cat.key ++ (str "_LINKS_END -->\n    </div>\n  </section>\n  <!-- CONTAINER_" ++ (jsToUpper ck ++ (str "_CONTENT_END -->\n</div>\n\n" ++ (([] : Str)))))))))))))))))))))))))))))) := by
    rw [hs0]
    simp only [List.append_assoc]
    rfl
  have hskip1 : ∀ p, p < (str "<div class=\"layout-container layout-" ++ (natToChars cols ++ (str "col\" id=\"" ++ (ck ++ (str "-container\">\n  <!-- Container: " ++ (ck ++ (str " -->\n  <!-- CONTAINER_" ++ (jsToUpper ck ++ (str "_CONTENT_START -->\n  "))))))))).length → ¬ IsPref (str "<section class=\"") (((str "<div class=\"layout-container layout-" ++ (natToChars cols ++ (str "col\" id=\"" ++ (ck ++ (str "-container\">\n  <!-- Container: " ++ (ck ++ (str " -->\n  <!-- CONTAINER_" ++ (jsToUpper ck ++ (str "_CONTENT_START -->\n  "))))))))) ++ (str "<section class=\"" ++ (str "section-" ++ (str "large" ++ (str " accent-" ++ (cat.accent ++ (str "\" id=\"" ++ (cat.key ++ (str "-section" ++ (str "\">" ++ (str "\n    <header class=\"section-large__header\">\n      <div class=\"section-large__title\">" ++ (cat.name ++ (str "</div>\n      <div class=\"section-large__meta\">" ++ (cat.description ++ (str "</div>\n    </header>\n    <div class=\"large-links\">\n            <a class=\"large-link\" href=\"" ++ (tab.url ++ (str "\" target=\"_blank\" rel=\"noopener\">\n        <div class=\"large-preview\">\n          <img src=\"https://mini.s-shot.ru/1024x768/JPEG/1024/Z100/?" ++ (encodeURIComponent tab.url ++ (str "\" alt=\"Preview\" class=\"large-screenshot\" onerror=\"this.style.display=\x27none\x27;\">\n          <img src=\"" ++ (tab.iconUrl ++ (str "\" alt=\"\" class=\"large-icon\">\n        </div>\n        <div class=\"large-content\">\n          <div class=\"large-title\">" ++ (escapeHtml tab.title ++ (str "</div>\n          <div class=\"large-url\">" ++ (escapeHtml tab.host ++ (str "</div>\n        </div>\n      </a>\n      <!-- " ++ (jsToUpper cat.key ++ (str "_LINKS_END -->\n    </div>\n  </section>\n  <!-- CONTAINER_" ++ (jsToUpper ck ++ (str "_CONTENT_END -->\n</div>\n\n" ++ (([] : Str))))))))))))))))))))))))))))))).drop p) := by
    refine pref_chunks ?_ (pref_chunks ?_ (pref_chunks ?_ (pref_chunks ?_ (pref_chunks ?_ (pref_chunks ?_ (pref_chunks ?_ (pref_chunks ?_ (?_))))))))
    · intro p hp
      exact cleanChunk_elim_lit (by decide) hp
    · intro p hp
      exact varChunk_elim_lit (natToChars_all_digits cols) (show (str "<section class=\"")[0]? = some '<' from rfl) (by decide) hp
    · intro p hp
      exact cleanChunk_elim_lit (by decide) hp
    · intro p hp
      exact varChunk_elim_lit hck (show (str "<section class=\"")[0]? = some '<' from rfl) (by decide) hp
    · intro p hp
      exact cleanChunk_elim_lit (by decide) hp
    · intro p hp
      exact varChunk_elim_lit hck (show (str "<section class=\"")[0]? = some '<' from rfl) (by decide) hp
    · intro p hp
      exact cleanChunk_elim_lit (by decide) hp
    · intro p hp
      exact varChunk_elim_lit (jsToUpper_all_ukey hck) (show (str "<section class=\"")[0]? = some '<' from rfl) (by decide) hp
    · intro p hp
      exact cleanChunk_elim_lit (by decide) hp
  have hTryS : trySectionAt (str "<section class=\"" ++ (str "section-" ++ (str "large" ++ (str " accent-" ++ (cat.accent ++ (str "\" id=\"" ++ (cat.key ++ (str "-section" ++ (str "\">" ++ (str "\n    <header class=\"section-large__header\">\n      <div class=\"section-large__title\">" ++ (cat.name ++ (str "</div>\n      <div class=\"section-large__meta\">" ++ (cat.description ++ (str "</div>\n    </header>\n    <div class=\"large-links\">\n            <a class=\"large-link\" href=\"" ++ (tab.url ++ (str "\" target=\"_blank\" rel=\"noopener\">\n        <div class=\"large-preview\">\n          <img src=\"https://mini.s-shot.ru/1024x768/JPEG/1024/Z100/?" ++ (encodeURIComponent tab.url ++ (str "\" alt=\"Preview\" class=\"large-screenshot\" onerror=\"this.style.display=\x27none\x27;\">\n          <img src=\"" ++ (tab.iconUrl ++ (str "\" alt=\"\" class=\"large-icon\">\n        </div>\n        <div class=\"large-content\">\n          <div class=\"large-title\">" ++ (escapeHtml tab.title ++ (str "</div>\n          <div class=\"large-url\">" ++ (escapeHtml tab.host ++ (str "</div>\n        </div>\n      </a>\n      <!-- " ++ (jsToUpper cat.key ++ (str "_LINKS_END -->\n    </div>\n  </section>\n  <!-- CONTAINER_" ++ (jsToUpper ck ++ (str "_CONTENT_END -->\n</div>\n\n" ++ (([] : Str)))))))))))))))))))))))))))))) = some ((str "section-" ++ str "large", cat.accent, cat.key), str "\n    <header class=\"section-large__header\">\n      <div class=\"section-large__title\">" ++ (cat.name ++ (str "</div>\n      <div class=\"section-large__meta\">" ++ (cat.description ++ (str "</div>\n    </header>\n    <div class=\"large-links\">\n            <a class=\"large-link\" href=\"" ++ (tab.url ++ (str "\" target=\"_blank\" rel=\"noopener\">\n        <div class=\"large-preview\">\n          <img src=\"https://mini.s-shot.ru/1024x768/JPEG/1024/Z100/?" ++ (encodeURIComponent tab.url ++ (str "\" alt=\"Preview\" class=\"large-screenshot\" onerror=\"this.style.display=\x27none\x27;\">\n          <img src=\"" ++ (tab.iconUrl ++ (str "\" alt=\"\" class=\"large-icon\">\n        </div>\n        <div class=\"large-content\">\n          <div class=\"large-title\">" ++ (escapeHtml tab.title ++ (str "</div>\n          <div class=\"large-url\">" ++ (escapeHtml tab.host ++ (str "</div>\n        </div>\n      </a>\n      <!-- " ++ (jsToUpper cat.key ++ (str "_LINKS_END -->\n    </div>\n  </section>\n  <!-- CONTAINER_" ++ (jsToUpper ck ++ (str "_CONTENT_END -->\n</div>\n\n" ++ (([] : Str))))))))))))))))))))) :=
    trySectionAt_eval (by decide) (by decide) hacc haccn hkeyq hkeyn
  have hnil2 : ∀ p, ¬ OccAt (str "<section class=\"") (str "\n    <header class=\"section-large__header\">\n      <div class=\"section-large__title\">" ++ (cat.name ++ (str "</div>\n      <div class=\"section-large__meta\">" ++ (cat.description ++ (str "</div>\n    </header>\n    <div class=\"large-links\">\n            <a class=\"large-link\" href=\"" ++ (tab.url ++ (str "\" target=\"_blank\" rel=\"noopener\">\n        <div class=\"large-preview\">\n          <img src=\"https://mini.s-shot.ru/1024x768/JPEG/1024/Z100/?" ++ (encodeURIComponent tab.url ++ (str "\" alt=\"Preview\" class=\"large-screenshot\" onerror=\"this.style.display=\x27none\x27;\">\n          <img src=\"" ++ (tab.iconUrl ++ (str "\" alt=\"\" class=\"large-icon\">\n        </div>\n        <div class=\"large-content\">\n          <div class=\"large-title\">" ++ (escapeHtml tab.title ++ (str "</div>\n          <div class=\"large-url\">" ++ (escapeHtml tab.host ++ (str "</div>\n        </div>\n      </a>\n      <!-- " ++ (jsToUpper cat.key ++ (str "_LINKS_END -->\n    </div>\n  </section>\n  <!-- CONTAINER_" ++ (jsToUpper ck ++ (str "_CONTENT_END -->\n</div>\n\n" ++ (([] : Str))))))))))))))))))))) p := by
    apply noOcc_append
    · intro p hp
      exact cleanChunk_elim_lit (by decide) hp
    apply noOcc_append
    · intro p hp
      exact varChunk_elim_lit hnm (show (str "<section class=\"")[0]? = some '<' from rfl) (by decide) hp
    apply noOcc_append
    · intro p hp
      exact cleanChunk_elim_lit (by decide) hp
    apply noOcc_append
    · intro p hp
      exact varChunk_elim_lit hds (show (str "<section class=\"")[0]? = some '<' from rfl) (by decide) hp
    apply noOcc_append
    · intro p hp
      exact cleanChunk_elim_lit (by decide) hp
    apply noOcc_append
    · intro p hp
      exact varChunk_elim_lit hurl (show (str "<section class=\"")[0]? = some '<' from rfl) (by decide) hp
    apply noOcc_append
    · intro p hp
      exact cleanChunk_elim_lit (by decide) hp
    apply noOcc_append
    · intro p hp
      exact varChunk_elim_lit (encodeURIComponent_noTag tab.url) (show (str "<section class=\"")[0]? = some '<' from rfl) (by decide) hp
    apply noOcc_append
    · intro p hp
      exact cleanChunk_elim_lit (by decide) hp
    apply noOcc_append
    · intro p hp
      exact varChunk_elim_lit hicon (show (str "<section class=\"")[0]? = some '<' from rfl) (by decide) hp
    apply noOcc_append
    · intro p hp
      exact cleanChunk_elim_lit (by decide) hp
    apply noOcc_append
    · intro p hp
      exact varChunk_elim_lit (escapeHtml_all_safe tab.title) (show (str "<section class=\"")[0]? = some '<' from rfl) (by decide) hp
    apply noOcc_append
    · intro p hp
      exact cleanChunk_elim_lit (by decide) hp
    apply noOcc_append
    · intro p hp
      exact varChunk_elim_lit (escapeHtml_all_safe tab.host) (show (str "<section class=\"")[0]? = some '<' from rfl) (by decide) hp
    apply noOcc_append
    · intro p hp
      exact cleanChunk_elim_lit (by decide) hp
    apply noOcc_append
    · intro p hp
      exact varChunk_elim_lit (jsToUpper_all_ukey hkey) (show (str "<section class=\"")[0]? = some '<' from rfl) (by decide) hp
    apply noOcc_append
    · intro p hp
      exact cleanChunk_elim_lit (by decide) hp
    apply noOcc_append
    · intro p hp
      exact varChunk_elim_lit (jsToUpper_all_ukey hck) (show (str "<section class=\"")[0]? = some '<' from rfl) (by decide) hp
    apply noOcc_append
    · intro p hp
      exact cleanChunk_elim_lit (by decide) hp
    exact noOcc_nil (by decide)
  have hscanS : scanSections (composeDoc ck cols cat tab) =
      [(str "section-" ++ str "large", cat.accent, cat.key)] := by
    rw [hs1, scanSections, List.length_append, Nat.add_assoc,
      scanSectionsAux_skip hskip1, scanSectionsAux_succ_some hTryS,
      scanSectionsAux_nil hnil2]
  have hs2 : composeDoc ck cols cat tab = (str "<div class=\"layout-container layout-" ++ (natToChars cols ++ (str "col\" id=\"" ++ (ck ++ (str "-container\">\n  <!-- Container: " ++ (ck ++ (str " -->\n  <!-- CONTAINER_" ++ (jsToUpper ck ++ (str "_CONTENT_START -->\n  <section class=\"section-large accent-" ++ (cat.accent ++ (str "\" "))))))))))) ++ (str "id=\"" ++ (cat.key ++ (str "-section\"" ++ (str ">" ++ (str "\n    <header class=\"section-large__header\">\n      <div class=\"section-large__title\">" ++ (cat.name ++ (str "</div>\n      <div class=\"section-large__meta\">" ++ (cat.description ++ (str "</div>\n    </header>\n    <div class=\"large-links\">\n            <a class=\"large-link\" href=\"" ++ (tab.url ++ (str "\" target=\"_blank\" rel=\"noopener\">\n        <div class=\"large-preview\">\n          <img src=\"https://mini.s-shot.ru/1024x768/JPEG/1024/Z100/?" ++ (encodeURIComponent tab.url ++ (str "\" alt=\"Preview\" class=\"large-screenshot\" onerror=\"this.style.display=\x27none\x27;\">\n          <img src=\"" ++ (tab.iconUrl ++ (str "\" alt=\"\" class=\"large-icon\">\n        </div>\n        <div class=\"large-content\">\n          <div class=\"large-title\">" ++ (escapeHtml tab.title ++ (str "</div>\n          <div class=\"large-url\">" ++ (escapeHtml tab.host ++ (str "</div>\n        </div>\n      </a>\n      <!-- " ++ (jsToUpper cat.key ++ (str "_LINKS_END -->\n    </div>\n  </section>\n  <!-- CONTAINER_" ++ (jsToUpper ck ++ (str "_CONTENT_END -->\n</div>\n\n" ++ (([] : Str))))))))))))))))))))))))) := by
    rw [hs0]
    simp only [List.append_assoc]
    rfl
  have hTokPref : IsPref (sectionToken cat.key) (str "id=\"" ++ (cat.key ++ (str "-section\"" ++ (str ">" ++ (str "\n    <header class=\"section-large__header\">\n      <div class=\"section-large__title\">" ++ (cat.name ++ (str "</div>\n      <div class=\"section-large__meta\">" ++ (cat.description ++ (str "</div>\n    </header>\n    <div class=\"large-links\">\n            <a class=\"large-link\" href=\"" ++ (tab.url ++ (str "\" target=\"_blank\" rel=\"noopener\">\n        <div class=\"large-preview\">\n          <img src=\"https://mini.s-shot.ru/1024x768/JPEG/1024/Z100/?" ++ (encodeURIComponent tab.url ++ (str "\" alt=\"Preview\" class=\"large-screenshot\" onerror=\"this.style.display=\x27none\x27;\">\n          <img src=\"" ++ (tab.iconUrl ++ (str "\" alt=\"\" class=\"large-icon\">\n        </div>\n        <div class=\"large-content\">\n          <div class=\"large-title\">" ++ (escapeHtml tab.title ++ (str "</div>\n          <div class=\"large-url\">" ++ (escapeHtml tab.host ++ (str "</div>\n        </div>\n      </a>\n      <!-- " ++ (jsToUpper cat.key ++ (str "_LINKS_END -->\n    </div>\n  </section>\n  <!-- CONTAINER_" ++ (jsToUpper ck ++ (str "_CONTENT_END -->\n</div>\n\n" ++ (([] : Str))))))))))))))))))))))))) := by
    refine ⟨str ">" ++ (str "\n    <header class=\"section-large__header\">\n      <div class=\"section-large__title\">" ++ (cat.name ++ (str "</div>\n      <div class=\"section-large__meta\">" ++ (cat.description ++ (str "</div>\n    </header>\n    <div class=\"large-links\">\n            <a class=\"large-link\" href=\"" ++ (tab.url ++ (str "\" target=\"_blank\" rel=\"noopener\">\n        <div class=\"large-preview\">\n          <img src=\"https://mini.s-shot.ru/1024x768/JPEG/1024/Z100/?" ++ (encodeURIComponent tab.url ++ (str "\" alt=\"Preview\" class=\"large-screenshot\" onerror=\"this.style.display=\x27none\x27;\">\n          <img src=\"" ++ (tab.iconUrl ++ (str "\" alt=\"\" class=\"large-icon\">\n        </div>\n        <div class=\"large-content\">\n          <div class=\"large-title\">" ++ (escapeHtml tab.title ++ (str "</div>\n          <div class=\"large-url\">" ++ (escapeHtml tab.host ++ (str "</div>\n        </div>\n      </a>\n      <!-- " ++ (jsToUpper cat.key ++ (str "_LINKS_END -->\n    </div>\n  </section>\n  <!-- CONTAINER_" ++ (jsToUpper ck ++ (str "_CONTENT_END -->\n</div>\n\n" ++ (([] : Str))))))))))))))))))))), ?_⟩
    simp only [sectionToken, List.append_assoc]
  have hskip2 : ∀ p, p < (str "<div class=\"layout-container layout-" ++ (natToChars cols ++ (str "col\" id=\"" ++ (ck ++ (str "-container\">\n  <!-- Container: " ++ (ck ++ (str " -->\n  <!-- CONTAINER_" ++ (jsToUpper ck ++ (str "_CONTENT_START -->\n  <section class=\"section-large accent-" ++ (cat.accent ++ (str "\" "))))))))))).length → ¬ IsPref (str "id=\"" ++ (cat.key ++ str "-section\"")) (((str "<div class=\"layout-container layout-" ++ (natToChars cols ++ (str "col\" id=\"" ++ (ck ++ (str "-container\">\n  <!-- Container: " ++ (ck ++ (str " -->\n  <!-- CONTAINER_" ++ (jsToUpper ck ++ (str "_CONTENT_START -->\n  <section class=\"section-large accent-" ++ (cat.accent ++ (str "\" "))))))))))) ++ (str "id=\"" ++ (cat.key ++ (str "-section\"" ++ (str ">" ++ (str "\n    <header class=\"section-large__header\">\n      <div class=\"section-large__title\">" ++ (cat.name ++ (str "</div>\n      <div class=\"section-large__meta\">" ++ (cat.description ++ (str "</div>\n    </header>\n    <div class=\"large-links\">\n            <a class=\"large-link\" href=\"" ++ (tab.url ++ (str "\" target=\"_blank\" rel=\"noopener\">\n        <div class=\"large-preview\">\n          <img src=\"https://mini.s-shot.ru/1024x768/JPEG/1024/Z100/?" ++ (encodeURIComponent tab.url ++ (str "\" alt=\"Preview\" class=\"large-screenshot\" onerror=\"this.style.display=\x27none\x27;\">\n          <img src=\"" ++ (tab.iconUrl ++ (str "\" alt=\"\" class=\"large-icon\">\n        </div>\n        <div class=\"large-content\">\n          <div class=\"large-title\">" ++ (escapeHtml tab.title ++ (str "</div>\n          <div class=\"large-url\">" ++ (escapeHtml tab.host ++ (str "</div>\n        </div>\n      </a>\n      <!-- " ++ (jsToUpper cat.key ++ (str "_LINKS_END -->\n    </div>\n  </section>\n  <!-- CONTAINER_" ++ (jsToUpper ck ++ (str "_CONTENT_END -->\n</div>\n\n" ++ (([] : Str)))))))))))))))))))))))))).drop p) := by
    refine pref_chunks ?_ (pref_chunks ?_ (pref_chunks ?_ (pref_chunks ?_ (pref_chunks ?_ (pref_chunks ?_ (pref_chunks ?_ (pref_chunks ?_ (pref_chunks ?_ (pref_chunks ?_ (?_))))))))))
    · intro p hp
      exact cleanChunk_elim (by decide) hp
    · intro p hp
      refine varChunk_elim (natToChars_all_digits cols) idlit_0 (by decide) ?_ hp
      intro m h1 h2
      exact absurd (Nat.le_trans h1 h2) (by decide)
    · intro p hp
      have hp9 : p < 9 := hp
      interval_cases p
      · exact isPref_head_ne pat_head
          (lit_drop_head (show (str "col\" id=\"")[0]? = some 'c' from rfl) (by decide))
          (by decide)
      · exact isPref_head_ne pat_head
          (lit_drop_head (show (str "col\" id=\"")[1]? = some 'o' from rfl) (by decide))
          (by decide)
      · exact isPref_head_ne pat_head
          (lit_drop_head (show (str "col\" id=\"")[2]? = some 'l' from rfl) (by decide))
          (by decide)
      · exact isPref_head_ne pat_head
          (lit_drop_head (show (str "col\" id=\"")[3]? = some '\x22' from rfl) (by decide))
          (by decide)
      · exact isPref_head_ne pat_head
          (lit_drop_head (show (str "col\" id=\"")[4]? = some ' ' from rfl) (by decide))
          (by decide)
      · intro h
        have h2 := isPref_cancel_left h
        simp only [List.append_assoc] at h2
        have h3 := (key_align (K := isKeyCharB) (L := str "-container\">\n  <!-- Container: ") hkey hck
          (show (str "-section\"")[8]? = some '"' by decide)
          (by decide) (by decide) (by decide) (by decide) h2).2
        exact isPref_ne_at (show (str "-section\"")[1]? = some 's' from rfl)
          (lit_head2) (by decide) h3
      · exact isPref_head_ne pat_head
          (lit_drop_head (show (str "col\" id=\"")[6]? = some 'd' from rfl) (by decide))
          (by decide)
      · exact isPref_head_ne pat_head
          (lit_drop_head (show (str "col\" id=\"")[7]? = some '=' from rfl) (by decide))
          (by decide)
      · exact isPref_head_ne pat_head
          (lit_drop_head (show (str "col\" id=\"")[8]? = some '\x22' from rfl) (by decide))
          (by decide)
    · intro p hp
      refine varChunk_elim hck idlit_2 (by decide) ?_ hp
      intro m h1 h2
      rcases (by omega : m = 1 ∨ m = 2) with rfl | rfl
      · exact isPref_head_ne pat_drop1 lit_head (by decide)
      · exact isPref_head_ne pat_drop2 lit_head (by decide)
    · intro p hp
      exact cleanChunk_elim (by decide) hp
    · intro p hp
      refine varChunk_elim hck idlit_2 (by decide) ?_ hp
      intro m h1 h2
      rcases (by omega : m = 1 ∨ m = 2) with rfl | rfl
      · exact isPref_head_ne pat_drop1 lit_head (by decide)
      · exact isPref_head_ne pat_drop2 lit_head (by decide)
    · intro p hp
      exact cleanChunk_elim (by decide) hp
    · intro p hp
      refine varChunk_elim (jsToUpper_all_ukey hck) idlit_0 (by decide) ?_ hp
      intro m h1 h2
      exact absurd (Nat.le_trans h1 h2) (by decide)
    · intro p hp
      exact cleanChunk_elim (by decide) hp
    · intro p hp
      refine varChunk_elim hacc idlit_2 (by decide) ?_ hp
      intro m h1 h2
      rcases (by omega : m = 1 ∨ m = 2) with rfl | rfl
      · exact isPref_head_ne pat_drop1 lit_head (by decide)
      · exact isPref_head_ne pat_drop2 lit_head (by decide)
    · intro p hp
      exact cleanChunk_elim (by decide) hp
  have hTok : sectionToken cat.key = str "id=\"" ++ (cat.key ++ str "-section\"") := by
    rw [sectionToken, List.append_assoc]
  have hidxTok : indexOf? (sectionToken cat.key) (composeDoc ck cols cat tab) =
      some ((str "<div class=\"layout-container layout-" ++ (natToChars cols ++ (str "col\" id=\"" ++ (ck ++ (str "-container\">\n  <!-- Container: " ++ (ck ++ (str " -->\n  <!-- CONTAINER_" ++ (jsToUpper ck ++ (str "_CONTENT_START -->\n  <section class=\"section-large accent-" ++ (cat.accent ++ (str "\" ")))))))))))).length := by
    rw [hs2]
    refine indexOf?_eq_some_of (occAt_at_split hTokPref) ?_
    intro q hq hocc
    rw [hTok] at hocc
    exact hskip2 q hq hocc
  have hdrop2 : (composeDoc ck cols cat tab).drop ((str "<div class=\"layout-container layout-" ++ (natToChars cols ++ (str "col\" id=\"" ++ (ck ++ (str "-container\">\n  <!-- Container: " ++ (ck ++ (str " -->\n  <!-- CONTAINER_" ++ (jsToUpper ck ++ (str "_CONTENT_START -->\n  <section class=\"section-large accent-" ++ (cat.accent ++ (str "\" ")))))))))))).length = str "id=\"" ++ (cat.key ++ (str "-section\"" ++ (str ">" ++ (str "\n    <header class=\"section-large__header\">\n      <div class=\"section-large__title\">" ++ (cat.name ++ (str "</div>\n      <div class=\"section-large__meta\">" ++ (cat.description ++ (str "</div>\n    </header>\n    <div class=\"large-links\">\n            <a class=\"large-link\" href=\"" ++ (tab.url ++ (str "\" target=\"_blank\" rel=\"noopener\">\n        <div class=\"large-preview\">\n          <img src=\"https://mini.s-shot.ru/1024x768/JPEG/1024/Z100/?" ++ (encodeURIComponent tab.url ++ (str "\" alt=\"Preview\" class=\"large-screenshot\" onerror=\"this.style.display=\x27none\x27;\">\n          <img src=\"" ++ (tab.iconUrl ++ (str "\" alt=\"\" class=\"large-icon\">\n        </div>\n        <div class=\"large-content\">\n          <div class=\"large-title\">" ++ (escapeHtml tab.title ++ (str "</div>\n          <div class=\"large-url\">" ++ (escapeHtml tab.host ++ (str "</div>\n        </div>\n      </a>\n      <!-- " ++ (jsToUpper cat.key ++ (str "_LINKS_END -->\n    </div>\n  </section>\n  <!-- CONTAINER_" ++ (jsToUpper ck ++ (str "_CONTENT_END -->\n</div>\n\n" ++ (([] : Str)))))))))))))))))))))))) := by
    rw [hs2]
    exact List.drop_left _ _
  have hs3 : (str "id=\"" ++ (cat.key ++ (str "-section\"" ++ (str ">" ++ (str "\n    <header class=\"section-large__header\">\n      <div class=\"section-large__title\">" ++ (cat.name ++ (str "</div>\n      <div class=\"section-large__meta\">" ++ (cat.description ++ (str "</div>\n    </header>\n    <div class=\"large-links\">\n            <a class=\"large-link\" href=\"" ++ (tab.url ++ (str "\" target=\"_blank\" rel=\"noopener\">\n        <div class=\"large-preview\">\n          <img src=\"https://mini.s-shot.ru/1024x768/JPEG/1024/Z100/?" ++ (encodeURIComponent tab.url ++ (str "\" alt=\"Preview\" class=\"large-screenshot\" onerror=\"this.style.display=\x27none\x27;\">\n          <img src=\"" ++ (tab.iconUrl ++ (str "\" alt=\"\" class=\"large-icon\">\n        </div>\n        <div class=\"large-content\">\n          <div class=\"large-title\">" ++ (escapeHtml tab.title ++ (str "</div>\n          <div class=\"large-url\">" ++ (escapeHtml tab.host ++ (str "</div>\n        </div>\n      </a>\n      <!-- " ++ (jsToUpper cat.key ++ (str "_LINKS_END -->\n    </div>\n  </section>\n  <!-- CONTAINER_" ++ (jsToUpper ck ++ (str "_CONTENT_END -->\n</div>\n\n" ++ (([] : Str))))))))))))))))))))))))) = (str "id=\"" ++ (cat.key ++ (str "-section\">\n    <header class=\"section-large__header\">\n      " ++ (str "<div class=\"section-large__title\">" ++ (cat.name ++ (str "</div>\n      " ++ (str "<div class=\"section-large__meta\">" ++ (cat.description ++ (str "</div>"))))))))) ++ (str "\n    </header>\n    <div class=\"large-links\">\n            <a class=\"large-link\" href=\"" ++ (tab.url ++ (str "\" target=\"_blank\" rel=\"noopener\">\n        <div class=\"large-preview\">\n          <img src=\"https://mini.s-shot.ru/1024x768/JPEG/1024/Z100/?" ++ (encodeURIComponent tab.url ++ (str "\" alt=\"Preview\" class=\"large-screenshot\" onerror=\"this.style.display=\x27none\x27;\">\n          <img src=\"" ++ (tab.iconUrl ++ (str "\" alt=\"\" class=\"large-icon\">\n        </div>\n        <div class=\"large-content\">\n          <div class=\"large-title\">" ++ (escapeHtml tab.title ++ (str "</div>\n          <div class=\"large-url\">" ++ (escapeHtml tab.host ++ (str "</div>\n        </div>\n      </a>\n      <!-- " ++ (jsToUpper cat.key ++ (str "_LINKS_END -->\n    </div>\n  </section>\n  <!-- CONTAINER_" ++ (jsToUpper ck ++ (str "_CONTENT_END -->\n</div>\n\n" ++ (([] : Str))))))))))))))))) := by
    simp only [List.append_assoc]
    rfl
  have hF1len : (str "id=\"" ++ (cat.key ++ (str "-section\">\n    <header class=\"section-large__header\">\n      " ++ (str "<div class=\"section-large__title\">" ++ (cat.name ++ (str "</div>\n      " ++ (str "<div class=\"section-large__meta\">" ++ (cat.description ++ (str "</div>"))))))))).length = cat.key.length + cat.name.length + cat.description.length + 150 := by
    simp only [List.length_append]
    rw [show (str "id=\"").length = 4 from rfl, show (str "-section\">\n    <header class=\"section-large__header\">\n      ").length = 60 from rfl,
      show (str "<div class=\"section-large__title\">").length = 34 from rfl, show (str "</div>\n      ").length = 13 from rfl,
      show (str "<div class=\"section-large__meta\">").length = 33 from rfl, show (str "</div>").length = 6 from rfl]
    omega
  have htake : ((str "id=\"" ++ (cat.key ++ (str "-section\">\n    <header class=\"section-large__header\">\n      " ++ (str "<div class=\"section-large__title\">" ++ (cat.name ++ (str "</div>\n      " ++ (str "<div class=\"section-large__meta\">" ++ (cat.description ++ (str "</div>"))))))))) ++ (str "\n    </header>\n    <div class=\"large-links\">\n            <a class=\"large-link\" href=\"" ++ (tab.url ++ (str "\" target=\"_blank\" rel=\"noopener\">\n        <div class=\"large-preview\">\n          <img src=\"https://mini.s-shot.ru/1024x768/JPEG/1024/Z100/?" ++ (encodeURIComponent tab.url ++ (str "\" alt=\"Preview\" class=\"large-screenshot\" onerror=\"this.style.display=\x27none\x27;\">\n          <img src=\"" ++ (tab.iconUrl ++ (str "\" alt=\"\" class=\"large-icon\">\n        </div>\n        <div class=\"large-content\">\n          <div class=\"large-title\">" ++ (escapeHtml tab.title ++ (str "</div>\n          <div class=\"large-url\">" ++ (escapeHtml tab.host ++ (str "</div>\n        </div>\n      </a>\n      <!-- " ++ (jsToUpper cat.key ++ (str "_LINKS_END -->\n    </div>\n  </section>\n  <!-- CONTAINER_" ++ (jsToUpper ck ++ (str "_CONTENT_END -->\n</div>\n\n" ++ (([] : Str)))))))))))))))))).take 500 = str "id=\"" ++ (cat.key ++ (str "-section\">\n    <header class=\"section-large__header\">\n      " ++ (str "<div class=\"section-large__title\">" ++ (cat.name ++ (str "</div>\n      " ++ (str "<div class=\"section-large__meta\">" ++ (cat.description ++ (str "</div>")))))))) ++ (str "\n    </header>\n    <div class=\"large-links\">\n            <a class=\"large-link\" href=\"" ++ (tab.url ++ (str "\" target=\"_blank\" rel=\"noopener\">\n        <div class=\"large-preview\">\n          <img src=\"https://mini.s-shot.ru/1024x768/JPEG/1024/Z100/?" ++ (encodeURIComponent tab.url ++ (str "\" alt=\"Preview\" class=\"large-screenshot\" onerror=\"this.style.display=\x27none\x27;\">\n          <img src=\"" ++ (tab.iconUrl ++ (str "\" alt=\"\" class=\"large-icon\">\n        </div>\n        <div class=\"large-content\">\n          <div class=\"large-title\">" ++ (escapeHtml tab.title ++ (str "</div>\n          <div class=\"large-url\">" ++ (escapeHtml tab.host ++ (str "</div>\n        </div>\n      </a>\n      <!-- " ++ (jsToUpper cat.key ++ (str "_LINKS_END -->\n    </div>\n  </section>\n  <!-- CONTAINER_" ++ (jsToUpper ck ++ (str "_CONTENT_END -->\n</div>\n\n" ++ (([] : Str))))))))))))))))).take (500 - (str "id=\"" ++ (cat.key ++ (str "-section\">\n    <header class=\"section-large__header\">\n      " ++ (str "<div class=\"section-large__title\">" ++ (cat.name ++ (str "</div>\n      " ++ (str "<div class=\"section-large__meta\">" ++ (cat.description ++ (str "</div>"))))))))).length) := by
    rw [List.take_append_eq_append_take, List.take_of_length_le (by rw [hF1len]; omega)]
  have hsw1 : (str "id=\"" ++ (cat.key ++ (str "-section\">\n    <header class=\"section-large__header\">\n      " ++ (str "<div class=\"section-large__title\">" ++ (cat.name ++ (str "</div>\n      " ++ (str "<div class=\"section-large__meta\">" ++ (cat.description ++ (str "</div>")))))))) ++ (str "\n    </header>\n    <div class=\"large-links\">\n            <a class=\"large-link\" href=\"" ++ (tab.url ++ (str "\" target=\"_blank\" rel=\"noopener\">\n        <div class=\"large-preview\">\n          <img src=\"https://mini.s-shot.ru/1024x768/JPEG/1024/Z100/?" ++ (encodeURIComponent tab.url ++ (str "\" alt=\"Preview\" class=\"large-screenshot\" onerror=\"this.style.display=\x27none\x27;\">\n          <img src=\"" ++ (tab.iconUrl ++ (str "\" alt=\"\" class=\"large-icon\">\n        </div>\n        <div class=\"large-content\">\n          <div class=\"large-title\">" ++ (escapeHtml tab.title ++ (str "</div>\n          <div class=\"large-url\">" ++ (escapeHtml tab.host ++ (str "</div>\n        </div>\n      </a>\n      <!-- " ++ (jsToUpper cat.key ++ (str "_LINKS_END -->\n    </div>\n  </section>\n  <!-- CONTAINER_" ++ (jsToUpper ck ++ (str "_CONTENT_END -->\n</div>\n\n" ++ (([] : Str))))))))))))))))).take (500 - (str "id=\"" ++ (cat.key ++ (str "-section\">\n    <header class=\"section-large__header\">\n      " ++ (str "<div class=\"section-large__title\">" ++ (cat.name ++ (str "</div>\n      " ++ (str "<div class=\"section-large__meta\">" ++ (cat.description ++ (str "</div>"))))))))).length)) = (str "id=\"" ++ (cat.key ++ (str "-section\">\n    <header class=\"section-large__header\">\n      "))) ++ ((str "<div class=\"" ++ (str "section-" ++ str "large") ++ str "__title\">") ++ (cat.name ++ (str "</div>" ++ (str "\n      " ++ (str "<div class=\"section-large__meta\">" ++ (cat.description ++ (str "</div>" ++ (str "\n    </header>\n    <div class=\"large-links\">\n            <a class=\"large-link\" href=\"" ++ (tab.url ++ (str "\" target=\"_blank\" rel=\"noopener\">\n        <div class=\"large-preview\">\n          <img src=\"https://mini.s-shot.ru/1024x768/JPEG/1024/Z100/?" ++ (encodeURIComponent tab.url ++ (str "\" alt=\"Preview\" class=\"large-screenshot\" onerror=\"this.style.display=\x27none\x27;\">\n          <img src=\"" ++ (tab.iconUrl ++ (str "\" alt=\"\" class=\"large-icon\">\n        </div>\n        <div class=\"large-content\">\n          <div class=\"large-title\">" ++ (escapeHtml tab.title ++ (str "</div>\n          <div class=\"large-url\">" ++ (escapeHtml tab.host ++ (str "</div>\n        </div>\n      </a>\n      <!-- " ++ (jsToUpper cat.key ++ (str "_LINKS_END -->\n    </div>\n  </section>\n  <!-- CONTAINER_" ++ (jsToUpper ck ++ (str "_CONTENT_END -->\n</div>\n\n" ++ (([] : Str))))))))))))))))).take (500 - (str "id=\"" ++ (cat.key ++ (str "-section\">\n    <header class=\"section-large__header\">\n      " ++ (str "<div class=\"section-large__title\">" ++ (cat.name ++ (str "</div>\n      " ++ (str "<div class=\"section-large__meta\">" ++ (cat.description ++ (str "</div>"))))))))).length)))))))) := by
    simp only [List.append_assoc]
    rfl
  have hskipT : ∀ p, p < (str "id=\"" ++ (cat.key ++ (str "-section\">\n    <header class=\"section-large__header\">\n      "))).length → ¬ IsPref (str "<div class=\"" ++ (str "section-" ++ str "large") ++ str "__title\">")
      (((str "id=\"" ++ (cat.key ++ (str "-section\">\n    <header class=\"section-large__header\">\n      "))) ++ ((str "<div class=\"" ++ (str "section-" ++ str "large") ++ str "__title\">") ++ (cat.name ++ (str "</div>" ++ (str "\n      " ++ (str "<div class=\"section-large__meta\">" ++ (cat.description ++ (str "</div>" ++ (str "\n    </header>\n    <div class=\"large-links\">\n            <a class=\"large-link\" href=\"" ++ (tab.url ++ (str "\" target=\"_blank\" rel=\"noopener\">\n        <div class=\"large-preview\">\n          <img src=\"https://mini.s-shot.ru/1024x768/JPEG/1024/Z100/?" ++ (encodeURIComponent tab.url ++ (str "\" alt=\"Preview\" class=\"large-screenshot\" onerror=\"this.style.display=\x27none\x27;\">\n          <img src=\"" ++ (tab.iconUrl ++ (str "\" alt=\"\" class=\"large-icon\">\n        </div>\n        <div class=\"large-content\">\n          <div class=\"large-title\">" ++ (escapeHtml tab.title ++ (str "</div>\n          <div class=\"large-url\">" ++ (escapeHtml tab.host ++ (str "</div>\n        </div>\n      </a>\n      <!-- " ++ (jsToUpper cat.key ++ (str "_LINKS_END -->\n    </div>\n  </section>\n  <!-- CONTAINER_" ++ (jsToUpper ck ++ (str "_CONTENT_END -->\n</div>\n\n" ++ (([] : Str))))))))))))))))).take (500 - (str "id=\"" ++ (cat.key ++ (str "-section\">\n    <header class=\"section-large__header\">\n      " ++ (str "<div class=\"section-large__title\">" ++ (cat.name ++ (str "</div>\n      " ++ (str "<div class=\"section-large__meta\">" ++ (cat.description ++ (str "</div>"))))))))).length))))))))).drop p) := by
    refine pref_chunks ?_ (pref_chunks ?_ (?_))
    · intro p hp
      exact cleanChunk_elim_lit (by decide) hp
    · intro p hp
      exact varChunk_elim_lit hkey (show (str "<div class=\"" ++ (str "section-" ++ str "large") ++ str "__title\">")[0]? = some '<' from rfl) (by decide) hp
    · intro p hp
      exact cleanChunk_elim_lit (by decide) hp
  have hTitle : findDivText false (str "<div class=\"" ++ (str "section-" ++ str "large") ++ str "__title\">") (str "id=\"" ++ (cat.key ++ (str "-section\">\n    <header class=\"section-large__header\">\n      " ++ (str "<div class=\"section-large__title\">" ++ (cat.name ++ (str "</div>\n      " ++ (str "<div class=\"section-large__meta\">" ++ (cat.description ++ (str "</div>")))))))) ++ (str "\n    </header>\n    <div class=\"large-links\">\n            <a class=\"large-link\" href=\"" ++ (tab.url ++ (str "\" target=\"_blank\" rel=\"noopener\">\n        <div class=\"large-preview\">\n          <img src=\"https://mini.s-shot.ru/1024x768/JPEG/1024/Z100/?" ++ (encodeURIComponent tab.url ++ (str "\" alt=\"Preview\" class=\"large-screenshot\" onerror=\"this.style.display=\x27none\x27;\">\n          <img src=\"" ++ (tab.iconUrl ++ (str "\" alt=\"\" class=\"large-icon\">\n        </div>\n        <div class=\"large-content\">\n          <div class=\"large-title\">" ++ (escapeHtml tab.title ++ (str "</div>\n          <div class=\"large-url\">" ++ (escapeHtml tab.host ++ (str "</div>\n        </div>\n      </a>\n      <!-- " ++ (jsToUpper cat.key ++ (str "_LINKS_END -->\n    </div>\n  </section>\n  <!-- CONTAINER_" ++ (jsToUpper ck ++ (str "_CONTENT_END -->\n</div>\n\n" ++ (([] : Str))))))))))))))))).take (500 - (str "id=\"" ++ (cat.key ++ (str "-section\">\n    <header class=\"section-large__header\">\n      " ++ (str "<div class=\"section-large__title\">" ++ (cat.name ++ (str "</div>\n      " ++ (str "<div class=\"section-large__meta\">" ++ (cat.description ++ (str "</div>"))))))))).length)) = some cat.name := by
    rw [findDivText, hsw1, List.length_append, Nat.add_assoc, findDivTextAux_skip hskipT,
      findDivTextAux_hit (a := false) (all_mono (bool_class_mono (by decide)) hnm)
        (by rw [isEmpty_false_of_ne_nil hnmn]; rfl)]
  have hsw2 : (str "id=\"" ++ (cat.key ++ (str "-section\">\n    <header class=\"section-large__header\">\n      " ++ (str "<div class=\"section-large__title\">" ++ (cat.name ++ (str "</div>\n      " ++ (str "<div class=\"section-large__meta\">" ++ (cat.description ++ (str "</div>")))))))) ++ (str "\n    </header>\n    <div class=\"large-links\">\n            <a class=\"large-link\" href=\"" ++ (tab.url ++ (str "\" target=\"_blank\" rel=\"noopener\">\n        <div class=\"large-preview\">\n          <img src=\"https://mini.s-shot.ru/1024x768/JPEG/1024/Z100/?" ++ (encodeURIComponent tab.url ++ (str "\" alt=\"Preview\" class=\"large-screenshot\" onerror=\"this.style.display=\x27none\x27;\">\n          <img src=\"" ++ (tab.iconUrl ++ (str "\" alt=\"\" class=\"large-icon\">\n        </div>\n        <div class=\"large-content\">\n          <div class=\"large-title\">" ++ (escapeHtml tab.title ++ (str "</div>\n          <div class=\"large-url\">" ++ (escapeHtml tab.host ++ (str "</div>\n        </div>\n      </a>\n      <!-- " ++ (jsToUpper cat.key ++ (str "_LINKS_END -->\n    </div>\n  </section>\n  <!-- CONTAINER_" ++ (jsToUpper ck ++ (str "_CONTENT_END -->\n</div>\n\n" ++ (([] : Str))))))))))))))))).take (500 - (str "id=\"" ++ (cat.key ++ (str "-section\">\n    <header class=\"section-large__header\">\n      " ++ (str "<div class=\"section-large__title\">" ++ (cat.name ++ (str "</div>\n      " ++ (str "<div class=\"section-large__meta\">" ++ (cat.description ++ (str "</div>"))))))))).length)) = (str "id=\"" ++ (cat.key ++ (str "-section\">\n    <header class=\"section-large__header\">\n      " ++ (str "<div class=\"section-large__title\">" ++ (cat.name ++ (str "</div>\n      ")))))) ++ ((str "<div class=\"" ++ (str "section-" ++ str "large") ++ str "__meta\">") ++ (cat.description ++ (str "</div>" ++ ((str "\n    </header>\n    <div class=\"large-links\">\n            <a class=\"large-link\" href=\"" ++ (tab.url ++ (str "\" target=\"_blank\" rel=\"noopener\">\n        <div class=\"large-preview\">\n          <img src=\"https://mini.s-shot.ru/1024x768/JPEG/1024/Z100/?" ++ (encodeURIComponent tab.url ++ (str "\" alt=\"Preview\" class=\"large-screenshot\" onerror=\"this.style.display=\x27none\x27;\">\n          <img src=\"" ++ (tab.iconUrl ++ (str "\" alt=\"\" class=\"large-icon\">\n        </div>\n        <div class=\"large-content\">\n          <div class=\"large-title\">" ++ (escapeHtml tab.title ++ (str "</div>\n          <div class=\"large-url\">" ++ (escapeHtml tab.host ++ (str "</div>\n        </div>\n      </a>\n      <!-- " ++ (jsToUpper cat.key ++ (str "_LINKS_END -->\n    </div>\n  </section>\n  <!-- CONTAINER_" ++ (jsToUpper ck ++ (str "_CONTENT_END -->\n</div>\n\n" ++ (([] : Str))))))))))))))))).take (500 - (str "id=\"" ++ (cat.key ++ (str "-section\">\n    <header class=\"section-large__header\">\n      " ++ (str "<div class=\"section-large__title\">" ++ (cat.name ++ (str "</div>\n      " ++ (str "<div class=\"section-large__meta\">" ++ (cat.description ++ (str "</div>"))))))))).length))))) := by
    simp only [List.append_assoc]
    rfl
  have hskipM : ∀ p, p < (str "id=\"" ++ (cat.key ++ (str "-section\">\n    <header class=\"section-large__header\">\n      " ++ (str "<div class=\"section-large__title\">" ++ (cat.name ++ (str "</div>\n      ")))))).length → ¬ IsPref (str "<div class=\"" ++ (str "section-" ++ str "large") ++ str "__meta\">")
      (((str "id=\"" ++ (cat.key ++ (str "-section\">\n    <header class=\"section-large__header\">\n      " ++ (str "<div class=\"section-large__title\">" ++ (cat.name ++ (str "</div>\n      ")))))) ++ ((str "<div class=\"" ++ (str "section-" ++ str "large") ++ str "__meta\">") ++ (cat.description ++ (str "</div>" ++ ((str "\n    </header>\n    <div class=\"large-links\">\n            <a class=\"large-link\" href=\"" ++ (tab.url ++ (str "\" target=\"_blank\" rel=\"noopener\">\n        <div class=\"large-preview\">\n          <img src=\"https://mini.s-shot.ru/1024x768/JPEG/1024/Z100/?" ++ (encodeURIComponent tab.url ++ (str "\" alt=\"Preview\" class=\"large-screenshot\" onerror=\"this.style.display=\x27none\x27;\">\n          <img src=\"" ++ (tab.iconUrl ++ (str "\" alt=\"\" class=\"large-icon\">\n        </div>\n        <div class=\"large-content\">\n          <div class=\"large-title\">" ++ (escapeHtml tab.title ++ (str "</div>\n          <div class=\"large-url\">" ++ (escapeHtml tab.host ++ (str "</div>\n        </div>\n      </a>\n      <!-- " ++ (jsToUpper cat.key ++ (str "_LINKS_END -->\n    </div>\n  </section>\n  <!-- CONTAINER_" ++ (jsToUpper ck ++ (str "_CONTENT_END -->\n</div>\n\n" ++ (([] : Str))))))))))))))))).take (500 - (str "id=\"" ++ (cat.key ++ (str "-section\">\n    <header class=\"section-large__header\">\n      " ++ (str "<div class=\"section-large__title\">" ++ (cat.name ++ (str "</div>\n      " ++ (str "<div class=\"section-large__meta\">" ++ (cat.description ++ (str "</div>"))))))))).length)))))).drop p) := by
    refine pref_chunks ?_ (pref_chunks ?_ (pref_chunks ?_ (pref_chunks ?_ (pref_chunks ?_ (?_)))))
    · intro p hp
      exact cleanChunk_elim_lit (by decide) hp
    · intro p hp
      exact varChunk_elim_lit hkey (show (str "<div class=\"" ++ (str "section-" ++ str "large") ++ str "__meta\">")[0]? = some '<' from rfl) (by decide) hp
    · intro p hp
      exact cleanChunk_elim_lit (by decide) hp
    · intro p hp
      exact cleanChunk_elim_lit (by decide) hp
    · intro p hp
      exact varChunk_elim_lit hnm (show (str "<div class=\"" ++ (str "section-" ++ str "large") ++ str "__meta\">")[0]? = some '<' from rfl) (by decide) hp
    · intro p hp
      exact cleanChunk_elim_lit (by decide) hp
  have hMeta : findDivText true (str "<div class=\"" ++ (str "section-" ++ str "large") ++ str "__meta\">") (str "id=\"" ++ (cat.key ++ (str "-section\">\n    <header class=\"section-large__header\">\n      " ++ (str "<div class=\"section-large__title\">" ++ (cat.name ++ (str "</div>\n      " ++ (str "<div class=\"section-large__meta\">" ++ (cat.description ++ (str "</div>")))))))) ++ (str "\n    </header>\n    <div class=\"large-links\">\n            <a class=\"large-link\" href=\"" ++ (tab.url ++ (str "\" target=\"_blank\" rel=\"noopener\">\n        <div class=\"large-preview\">\n          <img src=\"https://mini.s-shot.ru/1024x768/JPEG/1024/Z100/?" ++ (encodeURIComponent tab.url ++ (str "\" alt=\"Preview\" class=\"large-screenshot\" onerror=\"this.style.display=\x27none\x27;\">\n          <img src=\"" ++ (tab.iconUrl ++ (str "\" alt=\"\" class=\"large-icon\">\n        </div>\n        <div class=\"large-content\">\n          <div class=\"large-title\">" ++ (escapeHtml tab.title ++ (str "</div>\n          <div class=\"large-url\">" ++ (escapeHtml tab.host ++ (str "</div>\n        </div>\n      </a>\n      <!-- " ++ (jsToUpper cat.key ++ (str "_LINKS_END -->\n    </div>\n  </section>\n  <!-- CONTAINER_" ++ (jsToUpper ck ++ (str "_CONTENT_END -->\n</div>\n\n" ++ (([] : Str))))))))))))))))).take (500 - (str "id=\"" ++ (cat.key ++ (str "-section\">\n    <header class=\"section-large__header\">\n      " ++ (str "<div class=\"section-large__title\">" ++ (cat.name ++ (str "</div>\n      " ++ (str "<div class=\"section-large__meta\">" ++ (cat.description ++ (str "</div>"))))))))).length)) = some cat.description := by
    rw [findDivText, hsw2, List.length_append, Nat.add_assoc, findDivTextAux_skip hskipM,
      findDivTextAux_hit (a := true) (all_mono (bool_class_mono (by decide)) hds) rfl]
  constructor
  · rw [extractContainers, hscanC]
    simp [parseDigits_natToChars]
  · rw [extractCategories, hscanS]
    simp only [List.map_cons, List.map_nil]
    rw [hidxTok]
    simp only [Option.getD_some]
    rw [hdrop2, hs3, htake, hTitle, hMeta]
    simp only [Option.getD_some]
    rw [show occursB (str "compact") (str "section-" ++ str "large") = false from by decide,
      show occursB (str "large") (str "section-" ++ str "large") = true from by decide]
    simp [hcase]
    all_goals rfl

/-- Claim C1 (amended): the Renderer/Analyzer round trip recovers the
container key and columns and the category key, layout, accent, name and
description exactly, for inputs whose container and category keys consist
of key characters, whose accent is a non-empty word, whose non-empty name
and description contain no HTML metacharacter (the counterexample shows
an ampersand in the name is escaped on render and extracted escaped),
whose tab URLs contain no tag opener, and whose key, name and description
together fit the 500-character analyzer window. -/
theorem c1_amended_roundtrip
    (ck : Str) (cols : Nat) (cat : Category) (tab : TabInfo)
    (hck : ck.all isKeyCharB = true) (hckn : ck ≠ [])
    (hkey : cat.key.all isKeyCharB = true) (hkeyn : cat.key ≠ [])
    (hacc : cat.accent.all isWordCharB = true) (haccn : cat.accent ≠ [])
    (hlay : cat.layout = str "cards" ∨ cat.layout = str "compact" ∨ cat.layout = str "large")
    (hnm : cat.name.all benignB = true) (hnmn : cat.name ≠ [])
    (hds : cat.description.all benignB = true)
    (hurl : tab.url.all noTagB = true) (hicon : tab.iconUrl.all noTagB = true)
    (hwin : cat.key.length + cat.name.length + cat.description.length ≤ 344) :
    (extractContainers (composeDoc ck cols cat tab)).map (fun c => (c.key, c.columns)) =
      [(ck, cols)] ∧
    (extractCategories (composeDoc ck cols cat tab)).map
      (fun c => (c.key, c.layout, c.accent, c.name, c.description)) =
      [(cat.key, cat.layout, cat.accent, cat.name, cat.description)] := by
  rcases hlay with hcase | hcase | hcase
  · exact c1_roundtrip_cards ck cols cat tab hck hckn hkey hkeyn hacc haccn hnm hnmn
      hds hurl hicon hwin hcase
  · exact c1_roundtrip_compact ck cols cat tab hck hckn hkey hkeyn hacc haccn hnm hnmn
      hds hurl hicon hwin hcase
  · exact c1_roundtrip_large ck cols cat tab hck hckn hkey hkeyn hacc haccn hnm hnmn
      hds hurl hicon hwin hcase

/-- A well-formed category input for the C1 witness. -/
def c1wcat : Category :=
  ⟨str "k1", str "nm", str "dsc", str "cards", str "blue", str "p", 0⟩

/-- Witness for the amended C1 round trip at a concrete input. -/
theorem c1_amended_roundtrip_witness :
    (extractContainers (composeDoc (str "p") 2 c1wcat c1tab)).map
      (fun c => (c.key, c.columns)) = [(str "p", 2)] ∧
    (extractCategories (composeDoc (str "p") 2 c1wcat c1tab)).map
      (fun c => (c.key, c.layout, c.accent, c.name, c.description)) =
      [(c1wcat.key, c1wcat.layout, c1wcat.accent, c1wcat.name, c1wcat.description)] :=
  c1_amended_roundtrip (str "p") 2 c1wcat c1tab (by decide) (by decide) (by decide)
    (by decide) (by decide) (by decide) (Or.inl rfl) (by decide) (by decide) (by decide)
    (by decide) (by decide) (by decide)

/-- Claim C4: for every key `k`, after `addContainer(k, name, columns)` on
a Document where `k` does not exist, `containerExists k` on the result is
true; calling `addContainer` again with the same key fails with a
duplicate-key error and, the state being returned unmodified, leaves the
Document byte-for-byte unchanged. -/
theorem c4_addContainer_exists_duplicate
    (m : WikiContentManager) (k name : Str) (columns : Nat)
    (h : containerExists m.analyzerContent k = false) :
    ∃ m', addContainer m k name columns = .ok m' ∧
      containerExists m'.content k = true ∧
      containerExists m'.analyzerContent k = true ∧
      (∀ name2 columns2,
        addContainer m' k name2 columns2 = .error (.duplicateContainer k) ∧
        runEdit m' (fun mm => addContainer mm k name2 columns2) =
          (m', some (.duplicateContainer k))) := by
  refine ⟨⟨m.content ++
      (if !m.content.isEmpty && !endsWithNl m.content then str "\n\n" else str "\n") ++
      containerTpl k columns,
    m.content ++
      (if !m.content.isEmpty && !endsWithNl m.content then str "\n\n" else str "\n") ++
      containerTpl k columns⟩, ?_, ?_, ?_, ?_⟩
  · simp only [addContainer, h]
    rw [if_neg Bool.false_ne_true]
  · show containerExists (m.content ++ _ ++ containerTpl k columns) k = true
    rw [containerExists, List.append_assoc]
    exact occursB_append_right (occursB_append_right (containerToken_in_tpl k columns) _) _
  · show containerExists (m.content ++ _ ++ containerTpl k columns) k = true
    rw [containerExists, List.append_assoc]
    exact occursB_append_right (occursB_append_right (containerToken_in_tpl k columns) _) _
  · intro name2 columns2
    have hex : containerExists (m.content ++
        (if !m.content.isEmpty && !endsWithNl m.content then str "\n\n" else str "\n") ++
        containerTpl k columns) k = true := by
      rw [containerExists, List.append_assoc]
      exact occursB_append_right (occursB_append_right (containerToken_in_tpl k columns) _) _
    constructor
    · simp only [addContainer, hex]
      simp
    · simp only [runEdit, addContainer, hex]
      simp

theorem runEdit_error_unchanged (m : WikiContentManager)
    (op : WikiContentManager → Except EditError WikiContentManager) :
    (runEdit m op).2.isSome = true → (runEdit m op).1 = m := by
  unfold runEdit
  cases h : op m with
  | ok m' =>
    intro hs
    exact absurd hs Bool.false_ne_true
  | error e =>
    intro _
    rfl

/-- Witness for C4 at a concrete input. -/
theorem c4_witness :
    containerExists (mkManager (str "hello")).analyzerContent (str "dev") = false ∧
    (∃ m', addContainer (mkManager (str "hello")) (str "dev") (str "Dev") 2 = .ok m' ∧
      containerExists m'.content (str "dev") = true ∧
      containerExists m'.analyzerContent (str "dev") = true ∧
      (∀ name2 columns2,
        addContainer m' (str "dev") name2 columns2 = .error (.duplicateContainer (str "dev")) ∧
        runEdit m' (fun mm => addContainer mm (str "dev") name2 columns2) =
          (m', some (.duplicateContainer (str "dev"))))) :=
  ⟨by decide,
   c4_addContainer_exists_duplicate (mkManager (str "hello")) (str "dev") (str "Dev") 2 (by decide)⟩

/-- Claim C5: every failing Content Editor operation is atomic — when
`addContainer`, `addCategory` or `addLinkToCategory` reports an error the
manager (hence the Document) is unchanged, and in particular `addCategory`
targeting a non-existent container fails with the missing-container
error. -/
theorem c5_failing_ops_atomic
    (m : WikiContentManager) (k name : Str) (columns : Nat) (cat : Category)
    (tab : TabInfo) (key : Str)
    (hnc : categoryExists m.analyzerContent cat.key = false)
    (hmc : containerExists m.analyzerContent cat.containerKey = false) :
    ((runEdit m (fun mm => addContainer mm k name columns)).2.isSome = true →
      (runEdit m (fun mm => addContainer mm k name columns)).1 = m) ∧
    ((runEdit m (fun mm => addCategory mm cat)).2.isSome = true →
      (runEdit m (fun mm => addCategory mm cat)).1 = m) ∧
    ((runEdit m (fun mm => addLinkToCategory mm tab key)).2.isSome = true →
      (runEdit m (fun mm => addLinkToCategory mm tab key)).1 = m) ∧
    addCategory m cat = .error (.missingContainer cat.containerKey) ∧
    runEdit m (fun mm => addCategory mm cat) = (m, some (.missingContainer cat.containerKey)) := by
  have hfail : addCategory m cat = .error (.missingContainer cat.containerKey) := by
    simp only [addCategory, hnc, hmc]
    rw [if_neg Bool.false_ne_true]
    rfl
  refine ⟨runEdit_error_unchanged m _, runEdit_error_unchanged m _, runEdit_error_unchanged m _,
    hfail, ?_⟩
  simp only [runEdit, hfail]

/-- Witness for C5 at a concrete input. -/
theorem c5_witness :
    (categoryExists (mkManager (str "hello")).analyzerContent (str "cat") = false ∧
     containerExists (mkManager (str "hello")).analyzerContent (str "nope") = false) ∧
    (addCategory (mkManager (str "hello"))
        ⟨str "cat", str "C", str "d", str "cards", str "blue", str "nope", 0⟩ =
      .error (.missingContainer (str "nope"))) :=
  ⟨⟨by decide, by decide⟩,
   (c5_failing_ops_atomic (mkManager (str "hello")) (str "k") (str "n") 2
      ⟨str "cat", str "C", str "d", str "cards", str "blue", str "nope", 0⟩
      ⟨str "u", str "t", str "h", str "i"⟩ (str "x")
      (by decide) (by decide)).2.2.2.1⟩

/-- The Document used in the C6 and C7 evidence: a container created by
the editor itself with key `dev_tools` (as `createNewContainer` derives
from the name "Dev Tools"), holding one category `c1`. -/
def devToolsDoc : Str :=
  (okD (addCategory
    (okD (addContainer (mkManager []) (str "dev_tools") (str "Dev Tools") 2))
    ⟨str "c1", str "Cat", str "d", str "cards", str "blue", str "dev_tools", 0⟩)).content

/-- Claim C6 (code bug evidence): in `devToolsDoc` a container-start
marker `<!-- CONTAINER_DEV_TOOLS_CONTENT_START -->` occurs strictly before
the opening token of category `c1`, yet `findContainerForCategory`
returns `null`: its regex `<!-- CONTAINER_([^_]+)_CONTENT_START -->`
cannot match keys containing an underscore, although `createNewContainer`
produces such keys. -/
theorem c6_code_evaluation :
    findContainerForCategory devToolsDoc (str "c1") = none ∧
    occursB (str "<!-- CONTAINER_DEV_TOOLS_CONTENT_START -->")
      (devToolsDoc.take ((indexOf? (sectionToken (str "c1")) devToolsDoc).getD 0)) = true ∧
    (extractCategories devToolsDoc).map (fun c => c.containerKey) = [str "unknown"] := by
  refine ⟨by decide, by decide, by decide⟩

/-- The C7 counterexample document: one container `p` with one category
`c1` (exactly what the editor produces). -/
def c7doc : Str :=
  (okD (addCategory (okD (addContainer (mkManager []) (str "p") (str "P") 2))
    ⟨str "c1", str "Cat", str "d", str "cards", str "blue", str "p", 0⟩)).content

/-- Counterexample to claim C7: after a successful `addLinkToCategory` the
bound analyzer still holds the pre-mutation content — the source omits the
`this.analyzer = new WikiStructureAnalyzer(this.content)` refresh in this
one method. -/
theorem c7_counterexample :
    ∃ m', addLinkToCategory (mkManager c7doc)
        ⟨str "https://x.test/", str "T", str "x.test", str "https://i.test/i.png"⟩
        (str "c1") = Except.ok m' ∧
      ¬ (m'.analyzerContent = m'.content) := by
  refine ⟨_, rfl, by decide⟩

/-- Claim C7 as amended: after every successful `addContainer`,
`addCategory` or `removeAllLinks` the bound analyzer is fresh
(`analyzerContent = content`); after a successful `addLinkToCategory` the
analyzer keeps the pre-mutation content. -/
theorem c7_amended_analyzer_freshness
    (m : WikiContentManager) (k name : Str) (columns : Nat) (cat : Category)
    (tab : TabInfo) (key : Str) :
    (∀ m', addContainer m k name columns = .ok m' → m'.analyzerContent = m'.content) ∧
    (∀ m', addCategory m cat = .ok m' → m'.analyzerContent = m'.content) ∧
    ((removeAllLinks m).analyzerContent = (removeAllLinks m).content) ∧
    (∀ m', addLinkToCategory m tab key = .ok m' → m'.analyzerContent = m.analyzerContent) := by
  refine ⟨?_, ?_, rfl, ?_⟩
  · intro m' h
    simp only [addContainer] at h
    split at h
    · cases h
    · injection h with h
      rw [← h]
  · intro m' h
    simp only [addCategory] at h
    split at h
    · cases h
    · split at h
      · cases h
      · split at h
        · cases h
        · injection h with h
          rw [← h]
  · intro m' h
    simp only [addLinkToCategory] at h
    split at h
    · cases h
    · split at h
      · cases h
      · split at h
        · cases h
        · injection h with h
          rw [← h]

/-- Witness for the amended C7 at a concrete input. -/
theorem c7_amended_witness :
    ∀ m', addLinkToCategory (mkManager c7doc)
        ⟨str "https://x.test/", str "T", str "x.test", str "https://i.test/i.png"⟩ (str "c1") =
        .ok m' →
      m'.analyzerContent = (mkManager c7doc).analyzerContent :=
  (c7_amended_analyzer_freshness (mkManager c7doc) (str "k") (str "n") 2
    ⟨str "c", str "C", str "d", str "cards", str "b", str "p", 0⟩
    ⟨str "https://x.test/", str "T", str "x.test", str "https://i.test/i.png"⟩ (str "c1")).2.2.2

/-- The claim C8 reading of "ends in a blank line". -/
def endsInBlankLine (s : Str) : Bool := (str "\n\n").isSuffixOf s

/-- Counterexample to claim C8: on a Document that already ends in a blank
line (`"x\n\n"`), the appended container block is still preceded by a
blank line, so the claimed "iff the Document is non-empty and does not
already end in one" fails. -/
theorem c8_counterexample :
    ∃ m', addContainer (mkManager (str "x\n\n")) (str "a") (str "A") 2 = Except.ok m' ∧
      ¬ ((∃ pre, m'.content = pre ++ str "\n\n" ++ containerTpl (str "a") 2) ↔
         (str "x\n\n" ≠ [] ∧ endsInBlankLine (str "x\n\n") = false)) := by
  refine ⟨_, rfl, ?_⟩
  intro hiff
  have h1 : ∃ pre, (okD (addContainer (mkManager (str "x\n\n")) (str "a") (str "A") 2)).content =
      pre ++ str "\n\n" ++ containerTpl (str "a") 2 := ⟨str "x\n", by decide⟩
  have h2 := hiff.mp (by exact h1)
  exact absurd h2.2 (by decide)

/-- Claim C8 as amended: `addContainer` on a Document without the key
appends the rendered block at the end, the original Document is an
unchanged prefix of the result, and the appended block is preceded by a
blank (empty) line iff the Document is non-empty; the separator is two
newlines when the Document does not already end in a newline and one
newline otherwise. -/
theorem c8_amended_append_blank_line
    (m : WikiContentManager) (k name : Str) (columns : Nat)
    (h : containerExists m.analyzerContent k = false) :
    ∃ m', addContainer m k name columns = .ok m' ∧
      m'.content = m.content ++
        (if !m.content.isEmpty && !endsWithNl m.content then str "\n\n" else str "\n") ++
        containerTpl k columns ∧
      IsPref m.content m'.content ∧
      ((∃ pre, m'.content = pre ++ str "\n\n" ++ containerTpl k columns) ↔ m.content ≠ []) := by
  refine ⟨⟨m.content ++
      (if !m.content.isEmpty && !endsWithNl m.content then str "\n\n" else str "\n") ++
      containerTpl k columns,
    m.content ++
      (if !m.content.isEmpty && !endsWithNl m.content then str "\n\n" else str "\n") ++
      containerTpl k columns⟩, ?_, rfl, ?_, ?_⟩
  · simp only [addContainer, h]
    rw [if_neg Bool.false_ne_true]
  · exact ⟨_, by rw [List.append_assoc]⟩
  · constructor
    · rintro ⟨pre, hpre⟩
      intro hnil
      rw [hnil] at hpre
      simp only [List.isEmpty_nil, Bool.not_true, Bool.false_and] at hpre
      rw [if_neg Bool.false_ne_true] at hpre
      have hlen := congrArg List.length hpre
      simp only [List.length_append, List.nil_append] at hlen
      have e1 : (str "\n\n").length = 2 := rfl
      have e2 : (str "\n").length = 1 := rfl
      rw [e1, e2] at hlen
      omega
    · intro hne
      cases hlast : endsWithNl m.content with
      | true =>
        have hne2 : m.content ≠ [] := hne
        have hsplit : m.content = m.content.dropLast ++ [m.content.getLast hne2] := by
          rw [List.dropLast_append_getLast]
        have hlastc : m.content.getLast hne2 = '\n' := by
          have h3 := hlast
          rw [endsWithNl, List.getLast?_eq_getLast _ hne2] at h3
          simpa using h3
        rw [hlastc] at hsplit
        refine ⟨m.content.dropLast, ?_⟩
        simp only [Bool.not_true, Bool.and_false]
        rw [if_neg Bool.false_ne_true]
        show m.content ++ str "\n" ++ containerTpl k columns = _
        conv_lhs => rw [hsplit]
        simp [List.append_assoc, str]
      | false =>
        refine ⟨m.content, ?_⟩
        have hie : m.content.isEmpty = false := by
          cases hc : m.content.isEmpty
          · rfl
          · simp only [List.isEmpty_iff] at hc
            exact absurd hc hne
        simp only [hie, Bool.not_false, Bool.and_true]
        rw [if_pos trivial]

/-- Witness for the amended C8 at a concrete input. -/
theorem c8_amended_witness :
    containerExists (mkManager (str "x")).analyzerContent (str "a") = false ∧
    (∃ m', addContainer (mkManager (str "x")) (str "a") (str "A") 2 = .ok m' ∧
      m'.content = str "x" ++
        (if !(str "x").isEmpty && !endsWithNl (str "x") then str "\n\n" else str "\n") ++
        containerTpl (str "a") 2 ∧
      IsPref (str "x") m'.content ∧
      ((∃ pre, m'.content = pre ++ str "\n\n" ++ containerTpl (str "a") 2) ↔ str "x" ≠ [])) :=
  ⟨by decide, c8_amended_append_blank_line (mkManager (str "x")) (str "a") (str "A") 2 (by decide)⟩

/-- Counterexample to claim C9: the hostname does not appear in the link
template output exactly as supplied — the code escapes it with
`escapeHtml`.  For `host = "a&b"` the rendered card contains `a&amp;b`
and the literal `a&b` occurs nowhere. -/
theorem c9_counterexample :
    occursB (str "a&b") (linkTpl ⟨str "u", str "t", str "a&b", str "i"⟩ (str "cards")) = false ∧
    occursB (str "a&amp;b") (linkTpl ⟨str "u", str "t", str "a&b", str "i"⟩ (str "cards")) = true := by
  exact ⟨by decide, by decide⟩

/-- Claim C9 as amended: in every Renderer template the user-supplied
display texts (category name, category description, link title) **and the
hostname** are embedded HTML-escaped (`& < > "`), while the URL and the
icon URL are embedded unescaped, exactly as supplied; escaped output never
contains `<`, `>` or `"`. -/
theorem c9_amended_escaping (tab : TabInfo) (cat : Category) (k : Str) (columns : Nat) :
    (linkTpl tab (str "cards") =
      str "      <a class=\"linkcard\" href=\"" ++ tab.url ++
      str "\" target=\"_blank\" rel=\"noopener\">\n        <img src=\"" ++ tab.iconUrl ++
      str "\" alt=\"\">\n        <div>\n          <div class=\"title\">" ++ escapeHtml tab.title ++
      str "</div>\n          <div class=\"url\">" ++ escapeHtml tab.host ++
      str "</div>\n        </div>\n      </a>") ∧
    (linkTpl tab (str "compact") =
      str "      <a class=\"compact-link\" href=\"" ++ tab.url ++
      str "\" target=\"_blank\" rel=\"noopener\">\n        <img src=\"" ++ tab.iconUrl ++
      str "\" alt=\"\" class=\"compact-icon\">\n        <span class=\"compact-title\">" ++
      escapeHtml tab.title ++
      str "</span>\n        <span class=\"compact-url\">" ++ escapeHtml tab.host ++
      str "</span>\n      </a>") ∧
    (linkTpl tab (str "large") =
      str "      <a class=\"large-link\" href=\"" ++ tab.url ++
      str "\" target=\"_blank\" rel=\"noopener\">\n        <div class=\"large-preview\">\n          <img src=\"https://mini.s-shot.ru/1024x768/JPEG/1024/Z100/?" ++
      encodeURIComponent tab.url ++
      str "\" alt=\"Preview\" class=\"large-screenshot\" onerror=\"this.style.display=\x27none\x27;\">\n          <img src=\"" ++
      tab.iconUrl ++
      str "\" alt=\"\" class=\"large-icon\">\n        </div>\n        <div class=\"large-content\">\n          <div class=\"large-title\">" ++
      escapeHtml tab.title ++
      str "</div>\n          <div class=\"large-url\">" ++ escapeHtml tab.host ++
      str "</div>\n        </div>\n      </a>") ∧
    (∀ layout, categoryTpl cat layout =
      str "  <section class=\"" ++ layoutClassOf layout ++ str " accent-" ++ cat.accent ++
      str "\" id=\"" ++ cat.key ++
      str "-section\">\n    <header class=\"" ++ layoutClassOf layout ++
      str "__header\">\n      <div class=\"" ++ layoutClassOf layout ++
      str "__title\">" ++ escapeHtml cat.name ++
      str "</div>\n      <div class=\"" ++ layoutClassOf layout ++
      str "__meta\">" ++ escapeHtml cat.description ++
      str "</div>\n    </header>\n    <div class=\"" ++ contentClassOf layout ++
      str "\">\n      <!-- " ++ jsToUpper cat.key ++
      str "_LINKS_END -->\n    </div>\n  </section>") ∧
    (containerTpl k columns =
      str "<div class=\"layout-container layout-" ++ natToChars columns ++
      str "col\" id=\"" ++ k ++
      str "-container\">\n  <!-- Container: " ++ k ++
      str " -->\n  <!-- CONTAINER_" ++ jsToUpper k ++
      str "_CONTENT_START -->\n  <!-- CONTAINER_" ++ jsToUpper k ++
      str "_CONTENT_END -->\n</div>\n\n") ∧
    (∀ s, (escapeHtml s).all htmlSafeB = true) := by
  refine ⟨?_, ?_, ?_, fun layout => rfl, rfl, escapeHtml_all_safe⟩
  · rw [linkTpl]
    rw [if_neg (by decide), if_neg (by decide)]
  · rw [linkTpl]
    rw [if_pos rfl]
  · rw [linkTpl]
    rw [if_neg (by decide), if_pos rfl]

end WikiLinker
